import Mathlib

/-!
# DDS writer (plug-ins/file-dds/ddswrite.c): topology classifier and encoder driver

Shallow embedding of `check_mipmaps`, `check_cubemap`, `check_volume`,
`check_array`, `get_array_size`, `write_dds` and `write_image`.

Modelling conventions

* `gint` values that are sizes, counts or indices are natural numbers; GIMP bounds
  image dimensions and layer counts far below `INT_MAX`, so no `gint` operation of
  the modelled code overflows.
* A `GList *` of layers is a `List Layer`; `g_list_next` is `List.tail`.
* A `GimpLayer *` is a `Layer` value carrying its item `id`; `NULL` is `none`.
* A function whose C body can dereference `NULL` returns `Option`; `none` is that
  undefined behaviour, never an ordinary result.
* The file-scope variables `global_image` and `cubemap_faces` are passed explicitly.
-/

namespace DDS

/-! ## Data model -/

/-- The `GimpImageType` of a drawable. -/
inductive GimpImageType
  | RGB_IMAGE
  | RGBA_IMAGE
  | GRAY_IMAGE
  | GRAYA_IMAGE
  | INDEXED_IMAGE
  | INDEXEDA_IMAGE
  deriving DecidableEq

/-- The `GimpImageBaseType` of an image. -/
inductive GimpImageBaseType
  | RGB
  | GRAY
  | INDEXED
  deriving DecidableEq

/-- A layer as the writer sees it: item id (pointer identity), name, size and type. -/
structure Layer where
  id : Nat
  name : String
  width : Nat
  height : Nat
  type : GimpImageType
  deriving DecidableEq

/-- An image: size, base type and the layer list of `gimp_image_list_layers`. -/
structure Image where
  width : Nat
  height : Nat
  base_type : GimpImageBaseType
  layers : List Layer
  colormap : List (Nat × Nat × Nat) := []
  flipped : Bool := false
  deriving DecidableEq

/-- Modelled from the spec: the `save-type` values (`DDS_SAVE_*`) of dds.h, the
SaveType of section 3. -/
inductive SaveType
  | SELECTED_LAYER
  | CUBEMAP
  | VOLUMEMAP
  | ARRAY
  | VISIBLE_LAYERS
  deriving DecidableEq

/-- Modelled from the spec: the `mipmaps` values (`DDS_MIPMAP_*`) of dds.h, the
MipmapMode of section 3. `NONE` is the value 0: `if (mipmaps)` is `mipmaps != NONE`. -/
inductive MipmapMode
  | NONE
  | GENERATE
  | EXISTING
  deriving DecidableEq

/-- Modelled from the spec: the `compression-format` values (`DDS_COMPRESS_*`) of
dds.h, the Compression of section 3. -/
inductive Compression
  | NONE
  | BC1
  | BC2
  | BC3
  | BC3N
  | BC4
  | BC5
  | RXGB
  | AEXP
  | YCOCG
  | YCOCGS
  deriving DecidableEq

/-- The six-entry file-scope array `cubemap_faces`. -/
abbrev Faces := Fin 6 → Option Layer

/-- The entries of `cubemap_faces` in index order. -/
def Faces.toList (f : Faces) : List (Option Layer) :=
  [f 0, f 1, f 2, f 3, f 4, f 5]

/-- The C constant `INT_MAX` of a 32-bit `int`. -/
def INT_MAX : Nat := 2147483647

/-- The successor node of a `GList` node (`NULL` stays `NULL`). -/
def g_list_next (list : List Layer) : List Layer := list.tail

/-! ## Mipmap level count -/

/-- Binary logarithm rounded down, by repeated halving (`fuel` halvings at most). -/
def floor_log2 : Nat → Nat → Nat
  | 0, _ => 0
  | fuel + 1, n => if n < 2 then 0 else 1 + floor_log2 fuel (n / 2)

/-- Modelled from the spec: `get_num_mipmaps` is declared in mipmap.h and its body is
not part of the sources; section 4.C gives `mip_levels(W,H) = 1 + floor(log2 max(W,H))`. -/
def get_num_mipmaps (w h : Nat) : Nat :=
  1 + floor_log2 (max w h) (max w h)

/-! ## check_mipmaps -/

/-- The first loop of `check_mipmaps`: walks the layer list counting the layers of
size `(w, h)` into `num_surfaces`; `none` is the early `return 0` taken at the first
layer whose type differs from `type`. -/
def check_mipmaps_count (type : GimpImageType) (w h : Nat) :
    List Layer → Nat → Option Nat
  | [], num_surfaces => some num_surfaces
  | l :: list, num_surfaces =>
    if type ≠ l.type then none
    else if l.width = w ∧ l.height = h then
      check_mipmaps_count type w h list (num_surfaces + 1)
    else
      check_mipmaps_count type w h list num_surfaces

/-- The inner loop `for (j = 1; j < num_mipmaps; ++j)` of `check_mipmaps`, started at
`j`. The result is the value of `valid` after the loop; `none` when `g_list_nth_data`
yields `NULL` or the fuel runs out. -/
def check_mipmaps_levels (layers : List Layer) (w h num_mipmaps i : Nat) :
    Nat → Nat → Option Bool
  | 0, _ => none
  | fuel + 1, j =>
    if j < num_mipmaps then
      match layers.get? (i + j) with
      | none => none
      | some drawable =>
        let mipw := if w >>> j < 1 then 1 else w >>> j
        let miph := if h >>> j < 1 then 1 else h >>> j
        if drawable.width ≠ mipw ∨ drawable.height ≠ miph then some false
        else check_mipmaps_levels layers w h num_mipmaps i fuel (j + 1)
    else some true

/-- The outer loop `for (i = 0; valid && i < num_layers; i += num_mipmaps)` of
`check_mipmaps`, started at `i` with `valid` true. The result is the value of
`valid` after the loop. -/
def check_mipmaps_surfaces (layers : List Layer) (w h num_mipmaps num_layers : Nat) :
    Nat → Nat → Option Bool
  | 0, _ => none
  | fuel + 1, i =>
    if i < num_layers then
      match layers.get? i with
      | none => none
      | some drawable =>
        if drawable.width ≠ w ∨ drawable.height ≠ h then some false
        else
          match check_mipmaps_levels layers w h num_mipmaps i num_mipmaps 1 with
          | none => none
          | some false => some false
          | some true =>
            check_mipmaps_surfaces layers w h num_mipmaps num_layers fuel (i + num_mipmaps)
    else some true

/-- The function `check_mipmaps (savetype)`, reading the image in `global_image`. -/
def check_mipmaps (global_image : Image) (savetype : SaveType) : Option Bool :=
  if savetype = SaveType.VOLUMEMAP then some false
  else
    let min_surfaces := if savetype = SaveType.CUBEMAP then 6
      else if savetype = SaveType.ARRAY then 2 else 1
    let max_surfaces := if savetype = SaveType.CUBEMAP then 6
      else if savetype = SaveType.ARRAY then INT_MAX else 1
    let layers := global_image.layers
    let num_layers := layers.length
    let w := global_image.width
    let h := global_image.height
    let num_mipmaps := get_num_mipmaps w h
    match layers with
    | [] => none
    | first :: _ =>
      match check_mipmaps_count first.type w h layers 0 with
      | none => some false
      | some num_surfaces =>
        if num_surfaces < min_surfaces ∨ num_surfaces > max_surfaces ∨
            num_layers ≠ num_surfaces * num_mipmaps then some false
        else
          check_mipmaps_surfaces layers w h num_mipmaps num_layers (num_layers + 1) 0

/-! ## check_cubemap -/

/-- The C library `strstr (haystack, needle) != NULL`: `needle` occurs in `haystack`. -/
def strstr (haystack needle : String) : Bool :=
  haystack.data.tails.any (fun t => needle.data.isPrefixOf t)

/-- The table `cubemap_face_names[4][6]`. -/
def cubemap_face_names : List (List String) :=
  [ ["positive x", "negative x", "positive y", "negative y", "positive z", "negative z"],
    ["pos x", "neg x", "pos y", "neg y", "pos z", "neg z"],
    ["+x", "-x", "+y", "-y", "+z", "-z"],
    ["right", "left", "top", "bottom", "back", "front"] ]

/-- The entry `cubemap_face_names[k][j]`. -/
def cubemap_face_name (k : Nat) (j : Fin 6) : String :=
  (cubemap_face_names.getD k []).getD j.val ""

/-- The loop `for (k = 0; k < 4; ++k)` of the face scan for face `j`, over the
remaining values of `k`: a name hit assigns the layer and breaks only when
`cubemap_faces[j]` is still `NULL`. -/
def scan_face_names (layer : Layer) (j : Fin 6) : List Nat → Faces → Faces
  | [], faces => faces
  | k :: ks, faces =>
    if strstr layer.name (cubemap_face_name k j) then
      if faces j = none then Function.update faces j (some layer)
      else scan_face_names layer j ks faces
    else scan_face_names layer j ks faces

/-- The loop `for (j = 0; j < 6; ++j)` of the face scan for one layer, over the
remaining values of `j`. -/
def scan_faces (layer : Layer) : List (Fin 6) → Faces → Faces
  | [], faces => faces
  | j :: js, faces => scan_faces layer js (scan_face_names layer j [0, 1, 2, 3] faces)

/-- The body of both layer loops of `check_cubemap` from `layer_name = ...` on. -/
def scan_layer (layer : Layer) (faces : Faces) : Faces :=
  scan_faces layer [0, 1, 2, 3, 4, 5] faces

/-- The layer loop of the `num_layers > 6` branch: `list` advances with
`g_list_next (list)`, and layers not of size `(w, h)` are skipped. -/
def scan_level0_layers (w h : Nat) : List Layer → Faces → Faces
  | [], faces => faces
  | drawable :: list, faces =>
    if drawable.width ≠ w ∨ drawable.height ≠ h then scan_level0_layers w h list faces
    else scan_level0_layers w h list (scan_layer drawable faces)

/-- The layer loop of the `num_layers == 6` branch, over the remaining values of `i`:
the loop increment is `list = g_list_next (layers)`, the node after the HEAD of the
layer list, whatever the current node is. -/
def scan_six_layers (layers : List Layer) : List Nat → List Layer → Faces → Option Faces
  | [], _, faces => some faces
  | _ :: is, list, faces =>
    match list with
    | [] => none
    | layer :: _ => scan_six_layers layers is (g_list_next layers) (scan_layer layer faces)

/-- The loop "check for 6 valid faces": false as soon as an entry is `NULL`. -/
def six_valid_faces (faces : Faces) : Bool :=
  ([0, 1, 2, 3, 4, 5] : List (Fin 6)).all (fun i => (faces i).isSome)

/-- The loop "make sure they are all the same size", over the remaining indices. -/
def faces_same_size (faces : Faces) (w h : Nat) : List (Fin 6) → Option Bool
  | [] => some true
  | i :: is =>
    match faces i with
    | none => none
    | some f => if f.width ≠ w ∨ f.height ≠ h then some false else faces_same_size faces w h is

/-- The loop "make sure they are all the same type", over the remaining indices. -/
def faces_same_type (faces : Faces) (type : GimpImageType) : List (Fin 6) → Option Bool
  | [] => some true
  | i :: is =>
    match faces i with
    | none => none
    | some f => if f.type ≠ type then some false else faces_same_type faces type is

/-- The block `if (cubemap) { type = ...; for (i = 1; ...) }`. -/
def check_faces_type (faces : Faces) (cubemap : Bool) : Option Bool :=
  if cubemap then
    match faces 0 with
    | none => none
    | some f0 => faces_same_type faces f0.type [1, 2, 3, 4, 5]
  else some false

/-- The block `if (cubemap) { w = ...; h = ...; for (i = 1; ...) }`. -/
def check_faces_size (faces : Faces) (cubemap : Bool) : Option Bool :=
  if cubemap then
    match faces 0 with
    | none => none
    | some f0 => faces_same_size faces f0.width f0.height [1, 2, 3, 4, 5]
  else some false

/-- The function `check_cubemap (image)`: the returned flag and the resulting
contents of `cubemap_faces`. -/
def check_cubemap (global_image : Image) (cubemap_faces : Faces) (image : Image) :
    Option (Bool × Faces) :=
  let layers := image.layers
  let num_layers := layers.length
  if num_layers < 6 then some (false, cubemap_faces)
  else if num_layers > 6 then
    match check_mipmaps global_image SaveType.CUBEMAP with
    | none => none
    | some false => some (false, cubemap_faces)
    | some true =>
      let faces := scan_level0_layers image.width image.height layers (fun _ => none)
      match check_faces_type faces (six_valid_faces faces) with
      | none => none
      | some cubemap => some (cubemap, faces)
  else
    match scan_six_layers layers [0, 1, 2, 3, 4, 5] layers (fun _ => none) with
    | none => none
    | some faces =>
      match check_faces_size faces (six_valid_faces faces) with
      | none => none
      | some cubemap =>
        match check_faces_type faces cubemap with
        | none => none
        | some cubemap => some (cubemap, faces)

/-! ## check_volume, check_array, get_array_size -/

/-- The size loops of `check_volume` and `check_array` over `layers->next` onwards. -/
def layers_same_size (w h : Nat) : List Layer → Bool
  | [] => true
  | l :: list => if l.width ≠ w ∨ l.height ≠ h then false else layers_same_size w h list

/-- The type loops of `check_volume` and `check_array` over `layers->next` onwards. -/
def layers_same_type (type : GimpImageType) : List Layer → Bool
  | [] => true
  | l :: list => if l.type ≠ type then false else layers_same_type type list

/-- The function `check_volume (image)`. -/
def check_volume (image : Image) : Bool :=
  let layers := image.layers
  let num_layers := layers.length
  if num_layers > 1 then
    match layers with
    | [] => false
    | first :: rest =>
      if layers_same_size first.width first.height rest then
        layers_same_type first.type rest
      else false
  else false

/-- The function `check_array (image)`; `check_mipmaps` reads `global_image`. -/
def check_array (global_image : Image) (image : Image) : Option Bool :=
  match check_mipmaps global_image SaveType.ARRAY with
  | none => none
  | some true => some true
  | some false =>
    let layers := image.layers
    let num_layers := layers.length
    if num_layers > 1 then
      match layers with
      | [] => some false
      | first :: rest =>
        if layers_same_size first.width first.height rest then
          some (layers_same_type first.type rest)
        else some false
    else some false

/-- The loop of `get_array_size` counting the layers of size `(w, h)` into `elements`. -/
def get_array_size_loop (w h : Nat) : List Layer → Nat → Nat
  | [], elements => elements
  | l :: list, elements =>
    if l.width = w ∧ l.height = h then get_array_size_loop w h list (elements + 1)
    else get_array_size_loop w h list elements

/-- The function `get_array_size (image)`. -/
def get_array_size (image : Image) : Nat :=
  get_array_size_loop image.width image.height image.layers 0

/-! ## Encoder configuration -/

/-- Modelled from the spec: the `format` values (`DDS_FORMAT_*`) of dds.h, the
PixelFormat of section 3. `DEFAULT` is the least value, so the test
`pixel_format > DDS_FORMAT_DEFAULT` is `pixel_format ≠ DEFAULT`. -/
inductive PixelFormat
  | DEFAULT
  | RGB8
  | RGBA8
  | BGR8
  | ABGR8
  | R5G6B5
  | RGBA4
  | RGB5A1
  | RGB10A2
  | R3G3B2
  | A8
  | L8
  | L8A8
  | AEXP
  | YCOCG
  deriving DecidableEq

/-- The `DXGI_FORMAT` enumerators of dds.h that the writer names; their numeric codes
are not part of the sources and are supplied by `Host.dxgi_code`. -/
inductive DXGI_FORMAT
  | UNKNOWN
  | B8G8R8A8_UNORM
  | R8G8B8A8_UNORM
  | B5G6R5_UNORM
  | B4G4R4A4_UNORM
  | B5G5R5A1_UNORM
  | R10G10B10A2_UNORM
  | A8_UNORM
  | R8_UNORM
  | BC1_UNORM
  | BC2_UNORM
  | BC3_UNORM
  | BC4_UNORM
  | BC5_UNORM
  deriving DecidableEq

/-- The properties of the `GimpProcedureConfig` object that the writer reads. -/
structure Config where
  compression : Compression
  format : PixelFormat
  mipmaps : MipmapMode
  savetype : SaveType
  transparent_index : Int
  flip_image : Bool
  perceptual_metric : Bool
  deriving DecidableEq

/-- The return values of `write_dds`. -/
inductive GimpPDBStatusType
  | SUCCESS
  | CANCEL
  | EXECUTION_ERROR
  deriving DecidableEq

/-! ## Output stream -/

/-- An output stream: the bytes that reached the file, how many bytes the device
accepts in total, and the stream error indicator (set by a short write). -/
structure FILE where
  capacity : Nat
  data : List Nat
  error : Bool
  deriving DecidableEq

/-- The C library `fwrite` of a byte block: the bytes that still fit are appended; if
not all fit, the write is short and the error indicator is set. The writer never
reads the return value of `fwrite`. -/
def fwrite (fp : FILE) (bytes : List Nat) : FILE :=
  if fp.data.length + bytes.length ≤ fp.capacity then
    { fp with data := fp.data ++ bytes }
  else
    { fp with data := fp.data ++ bytes.take (fp.capacity - fp.data.length), error := true }

/-! ## Header constants -/

/-- Modelled from the spec: the `FOURCC` macro of dds.h, a four-character tag stored
first character first by a little-endian 32-bit store. -/
def FOURCC (a b c d : Char) : Nat :=
  a.toNat + b.toNat * 256 + c.toNat * 65536 + d.toNat * 16777216

/-- Modelled from the spec: the `PUTL32` macro of endian_rw.h, a little-endian 32-bit
store of `v` at offset `off` of a byte buffer. -/
def PUTL32 (buf : List Nat) (off : Nat) (v : Nat) : List Nat :=
  (((buf.set off (v % 256)).set (off + 1) (v / 256 % 256)).set
    (off + 2) (v / 65536 % 256)).set (off + 3) (v / 16777216 % 256)

/-- Little-endian 32-bit load at offset `off`, the inverse of `PUTL32`. -/
def GETL32 (buf : List Nat) (off : Nat) : Nat :=
  buf.getD off 0 + buf.getD (off + 1) 0 * 256 + buf.getD (off + 2) 0 * 65536 +
    buf.getD (off + 3) 0 * 16777216

/-- Modelled from the spec: size of the DDS header in dds.h, 128 bytes (section 4.H). -/
def DDS_HEADERSIZE : Nat := 128

/-- Modelled from the spec: size of the DX10 header in dds.h, 20 bytes (section 4.H). -/
def DDS_HEADERSIZE_DX10 : Nat := 20

/-- Modelled from the spec: header flag bit of dds.h, value from section 4.H. -/
def DDSD_CAPS : Nat := 0x1

/-- Modelled from the spec: header flag bit of dds.h, value from section 4.H. -/
def DDSD_HEIGHT : Nat := 0x2

/-- Modelled from the spec: header flag bit of dds.h, value from section 4.H. -/
def DDSD_WIDTH : Nat := 0x4

/-- Modelled from the spec: header flag bit of dds.h, value from section 4.H. -/
def DDSD_PITCH : Nat := 0x8

/-- Modelled from the spec: header flag bit of dds.h, value from section 4.H. -/
def DDSD_PIXELFORMAT : Nat := 0x1000

/-- Modelled from the spec: header flag bit of dds.h, value from section 4.H. -/
def DDSD_MIPMAPCOUNT : Nat := 0x20000

/-- Modelled from the spec: header flag bit of dds.h, value from section 4.H. -/
def DDSD_LINEARSIZE : Nat := 0x80000

/-- Modelled from the spec: header flag bit of dds.h, value from section 4.H. -/
def DDSD_DEPTH : Nat := 0x800000

/-- Modelled from the spec: caps1 bit of dds.h, value from section 4.H. -/
def DDSCAPS_COMPLEX : Nat := 0x8

/-- Modelled from the spec: caps1 bit of dds.h, value from section 4.H. -/
def DDSCAPS_TEXTURE : Nat := 0x1000

/-- Modelled from the spec: caps1 bit of dds.h, value from section 4.H. -/
def DDSCAPS_MIPMAP : Nat := 0x400000

/-- Modelled from the spec: caps2 bit of dds.h, value from section 4.H. -/
def DDSCAPS2_CUBEMAP : Nat := 0x200

/-- Modelled from the spec: caps2 bit of dds.h, value from section 4.H. -/
def DDSCAPS2_CUBEMAP_ALL_FACES : Nat := 0xFC00

/-- Modelled from the spec: caps2 bit of dds.h, value from section 4.H. -/
def DDSCAPS2_VOLUME : Nat := 0x200000

/-- Modelled from the spec: pixel-format flag bit of dds.h, value from section 4.H. -/
def DDPF_ALPHAPIXELS : Nat := 0x1

/-- Modelled from the spec: pixel-format flag bit of dds.h, value from section 4.H. -/
def DDPF_ALPHA : Nat := 0x2

/-- Modelled from the spec: pixel-format flag bit of dds.h, value from section 4.H. -/
def DDPF_FOURCC : Nat := 0x4

/-- Modelled from the spec: pixel-format flag bit of dds.h, value from section 4.H. -/
def DDPF_PALETTEINDEXED8 : Nat := 0x20

/-- Modelled from the spec: pixel-format flag bit of dds.h, value from section 4.H. -/
def DDPF_RGB : Nat := 0x40

/-- Modelled from the spec: pixel-format flag bit of dds.h, value from section 4.H. -/
def DDPF_LUMINANCE : Nat := 0x20000

/-- Modelled from the spec: pixel-format flag bit of dds.h, value from section 4.H. -/
def DDPF_NORMAL : Nat := 0x80000000

/-- Modelled from the spec: resource dimension of a 2D texture in dds.h, 3 (section 4.H). -/
def D3D10_RESOURCE_DIMENSION_TEXTURE2D : Nat := 3

/-- A row of the table `format_info`. -/
structure FormatInfo where
  format : PixelFormat
  dxgi_format : DXGI_FORMAT
  bpp : Nat
  alpha : Nat
  rmask : Nat
  gmask : Nat
  bmask : Nat
  amask : Nat

/-- The table `format_info[]`. -/
def format_info : List FormatInfo :=
  [ ⟨PixelFormat.RGB8, DXGI_FORMAT.UNKNOWN, 3, 0, 0x00ff0000, 0x0000ff00, 0x000000ff, 0x00000000⟩,
    ⟨PixelFormat.RGBA8, DXGI_FORMAT.B8G8R8A8_UNORM, 4, 1, 0x00ff0000, 0x0000ff00, 0x000000ff, 0xff000000⟩,
    ⟨PixelFormat.BGR8, DXGI_FORMAT.UNKNOWN, 3, 0, 0x000000ff, 0x0000ff00, 0x00ff0000, 0x00000000⟩,
    ⟨PixelFormat.ABGR8, DXGI_FORMAT.R8G8B8A8_UNORM, 4, 1, 0x000000ff, 0x0000ff00, 0x00ff0000, 0xff000000⟩,
    ⟨PixelFormat.R5G6B5, DXGI_FORMAT.B5G6R5_UNORM, 2, 0, 0x0000f800, 0x000007e0, 0x0000001f, 0x00000000⟩,
    ⟨PixelFormat.RGBA4, DXGI_FORMAT.B4G4R4A4_UNORM, 2, 1, 0x00000f00, 0x000000f0, 0x0000000f, 0x0000f000⟩,
    ⟨PixelFormat.RGB5A1, DXGI_FORMAT.B5G5R5A1_UNORM, 2, 1, 0x00007c00, 0x000003e0, 0x0000001f, 0x00008000⟩,
    ⟨PixelFormat.RGB10A2, DXGI_FORMAT.R10G10B10A2_UNORM, 4, 1, 0x000003ff, 0x000ffc00, 0x3ff00000, 0xc0000000⟩,
    ⟨PixelFormat.R3G3B2, DXGI_FORMAT.UNKNOWN, 1, 0, 0x000000e0, 0x0000001c, 0x00000003, 0x00000000⟩,
    ⟨PixelFormat.A8, DXGI_FORMAT.A8_UNORM, 1, 0, 0x00000000, 0x00000000, 0x00000000, 0x000000ff⟩,
    ⟨PixelFormat.L8, DXGI_FORMAT.R8_UNORM, 1, 0, 0x000000ff, 0x000000ff, 0x000000ff, 0x00000000⟩,
    ⟨PixelFormat.L8A8, DXGI_FORMAT.UNKNOWN, 2, 1, 0x000000ff, 0x000000ff, 0x000000ff, 0x0000ff00⟩,
    ⟨PixelFormat.AEXP, DXGI_FORMAT.B8G8R8A8_UNORM, 4, 1, 0x00ff0000, 0x0000ff00, 0x000000ff, 0xff000000⟩,
    ⟨PixelFormat.YCOCG, DXGI_FORMAT.B8G8R8A8_UNORM, 4, 1, 0x00ff0000, 0x0000ff00, 0x000000ff, 0xff000000⟩ ]

/-! ## write_image -/

/-- A call that `write_image` makes to one of the two payload writers. -/
inductive SurfaceWrite
  | layer (drawable : Layer) (w h bpp fmtbpp num_mipmaps : Nat)
  | volume_mipmaps (layers : List Layer) (w h d bpp fmtbpp num_mipmaps : Nat)
  deriving DecidableEq

/-- What the writer takes from outside ddswrite.c: constants of dds.h that the
specification does not give, the outcome of `g_fopen`, the user session of the save
dialog, libgimp image operations, and the bytes the payload writers `write_layer` and
`write_volume_mipmaps` send to the stream for given arguments. -/
structure Host where
  DDS_PLUGIN_VERSION : Nat
  dxgi_code : DXGI_FORMAT → Nat
  g_fopen : Option FILE
  dialog_run : Config → Config × Bool
  gimp_image_duplicate : Image → Image
  selected_drawable : Image → Layer
  gimp_image_merge_visible_layers : Image → Layer
  write_layer : FILE → Image → Layer → Config → Nat → Nat → Nat → Nat → Nat → FILE
  write_volume_mipmaps :
    FILE → Image → Config → List Layer → Nat → Nat → Nat → Nat → Nat → Nat → FILE

/-- The call `gimp_image_flip (image, GIMP_ORIENTATION_VERTICAL)`. -/
def gimp_image_flip (image : Image) : Image :=
  { image with flipped := ! image.flipped }

/-- The search loop `for (i = 0; ; ++i)` over `format_info`; `none` when the loop runs
past the end of the table. -/
def lookup_format_info (pixel_format : PixelFormat) : List FormatInfo → Option FormatInfo
  | [] => none
  | fi :: rest =>
    if fi.format = pixel_format then some fi else lookup_format_info pixel_format rest

/-- The values fixed by the header part of `write_image` (lines up to the `fwrite` of
the headers) that the rest of the function uses. -/
structure HeaderResult where
  hdr : List Nat
  is_dx10 : Bool
  hdr10 : List Nat
  w : Nat
  h : Nat
  bpp : Nat
  fmtbpp : Nat
  num_mipmaps : Nat

/-- The `bpp` switch of `write_image`. -/
def drawable_bpp : GimpImageType → Nat
  | GimpImageType.RGB_IMAGE => 3
  | GimpImageType.RGBA_IMAGE => 4
  | GimpImageType.GRAY_IMAGE => 1
  | GimpImageType.GRAYA_IMAGE => 2
  | GimpImageType.INDEXED_IMAGE => 1
  | GimpImageType.INDEXEDA_IMAGE => 2

/-- The `switch (compression)` of `write_image`: FourCC and DXGI format; compression
`NONE` leaves both at their initial values. -/
def compression_fourcc (compression : Compression) (dxgi_format : DXGI_FORMAT) :
    Nat × DXGI_FORMAT :=
  match compression with
  | Compression.BC1 => (FOURCC 'D' 'X' 'T' '1', DXGI_FORMAT.BC1_UNORM)
  | Compression.BC2 => (FOURCC 'D' 'X' 'T' '3', DXGI_FORMAT.BC2_UNORM)
  | Compression.BC3 => (FOURCC 'D' 'X' 'T' '5', DXGI_FORMAT.BC3_UNORM)
  | Compression.BC3N => (FOURCC 'D' 'X' 'T' '5', DXGI_FORMAT.BC3_UNORM)
  | Compression.YCOCG => (FOURCC 'D' 'X' 'T' '5', DXGI_FORMAT.BC3_UNORM)
  | Compression.YCOCGS => (FOURCC 'D' 'X' 'T' '5', DXGI_FORMAT.BC3_UNORM)
  | Compression.AEXP => (FOURCC 'D' 'X' 'T' '5', DXGI_FORMAT.BC3_UNORM)
  | Compression.RXGB => (FOURCC 'R' 'X' 'G' 'B', DXGI_FORMAT.BC3_UNORM)
  | Compression.BC4 => (FOURCC 'A' 'T' 'I' '1', DXGI_FORMAT.BC4_UNORM)
  | Compression.BC5 => (FOURCC 'A' 'T' 'I' '2', DXGI_FORMAT.BC5_UNORM)
  | Compression.NONE => (0, dxgi_format)

/-- The values set by the `if (pixel_format > DDS_FORMAT_DEFAULT) ... else ...` chain of
`write_image`. -/
structure FormatFields where
  fmtbpp : Nat
  has_alpha : Nat
  rmask : Nat
  gmask : Nat
  bmask : Nat
  amask : Nat
  dxgi_format : DXGI_FORMAT

/-- The chain `if (pixel_format > DDS_FORMAT_DEFAULT) ... else if (bpp == 1) ...` of
`write_image`; `none` when the table search runs past the end of `format_info`. -/
def format_fields (pixel_format : PixelFormat) (bpp : Nat) (basetype : GimpImageBaseType) :
    Option FormatFields :=
  if pixel_format ≠ PixelFormat.DEFAULT then
    match lookup_format_info pixel_format format_info with
    | none => none
    | some fi => some ⟨fi.bpp, fi.alpha, fi.rmask, fi.gmask, fi.bmask, fi.amask, fi.dxgi_format⟩
  else if bpp = 1 then
    if basetype = GimpImageBaseType.INDEXED then
      some ⟨1, 0, 0, 0, 0, 0, DXGI_FORMAT.UNKNOWN⟩
    else
      some ⟨1, 0, 0x000000ff, 0, 0, 0, DXGI_FORMAT.R8_UNORM⟩
  else if bpp = 2 then
    if basetype = GimpImageBaseType.INDEXED then
      some ⟨1, 0, 0, 0, 0, 0, DXGI_FORMAT.UNKNOWN⟩
    else
      some ⟨2, 1, 0x000000ff, 0x000000ff, 0x000000ff, 0x0000ff00, DXGI_FORMAT.UNKNOWN⟩
  else if bpp = 3 then
    some ⟨3, 0, 0x00ff0000, 0x0000ff00, 0x000000ff, 0x00000000, DXGI_FORMAT.UNKNOWN⟩
  else
    some ⟨4, 1, 0x00ff0000, 0x0000ff00, 0x000000ff, 0xff000000, DXGI_FORMAT.B8G8R8A8_UNORM⟩

/-- The part of `write_image` from `memset (hdr, 0, DDS_HEADERSIZE)` to the completed
`hdr` and `hdr10` buffers, for the size `w` x `h`, the source `bpp` and the format
fields chosen before. -/
def build_header (host : Host) (is_cubemap is_volume : Bool) (image : Image)
    (config : Config) (w h bpp : Nat) (fmt : FormatFields) : HeaderResult :=
  let compression := config.compression
  let mipmaps := config.mipmaps
  let savetype := config.savetype
  let pixel_format := config.format
  let num_layers := image.layers.length
  let basetype := image.base_type
  let fmtbpp := fmt.fmtbpp
  let has_alpha := fmt.has_alpha
  let dxgi_format := fmt.dxgi_format
  let hdr := List.replicate DDS_HEADERSIZE 0
  let hdr := PUTL32 hdr 0 (FOURCC 'D' 'D' 'S' ' ')
  let hdr := PUTL32 hdr 4 124
  let hdr := PUTL32 hdr 12 h
  let hdr := PUTL32 hdr 16 w
  let hdr := PUTL32 hdr 76 32
  let hdr :=
    if compression = Compression.NONE then
      PUTL32 (PUTL32 (PUTL32 (PUTL32 (PUTL32 hdr 88 (fmtbpp <<< 3)) 92 fmt.rmask) 96 fmt.gmask)
        100 fmt.bmask) 104 fmt.amask
    else hdr
  let hdr := PUTL32 hdr 32 (FOURCC 'G' 'I' 'M' 'P')
  let hdr := PUTL32 hdr 36 (FOURCC '-' 'D' 'D' 'S')
  let hdr := PUTL32 hdr 40 host.DDS_PLUGIN_VERSION
  let flags := DDSD_CAPS ||| DDSD_PIXELFORMAT ||| DDSD_WIDTH ||| DDSD_HEIGHT
  let caps := DDSCAPS_TEXTURE
  let flags := if mipmaps ≠ MipmapMode.NONE then flags ||| DDSD_MIPMAPCOUNT else flags
  let caps :=
    if mipmaps ≠ MipmapMode.NONE then caps ||| (DDSCAPS_COMPLEX ||| DDSCAPS_MIPMAP) else caps
  let num_mipmaps := if mipmaps ≠ MipmapMode.NONE then get_num_mipmaps w h else 1
  let cube := decide (savetype = SaveType.CUBEMAP) && is_cubemap
  let vol := ! cube && (decide (savetype = SaveType.VOLUMEMAP) && is_volume)
  let hdr := if vol then PUTL32 hdr 24 num_layers else hdr
  let flags := if vol then flags ||| DDSD_DEPTH else flags
  let caps := if cube || vol then caps ||| DDSCAPS_COMPLEX else caps
  let caps2 :=
    if cube then 0 ||| (DDSCAPS2_CUBEMAP ||| DDSCAPS2_CUBEMAP_ALL_FACES)
    else if vol then 0 ||| DDSCAPS2_VOLUME
    else 0
  let hdr := PUTL32 hdr 28 num_mipmaps
  let hdr := PUTL32 hdr 108 caps
  let hdr := PUTL32 hdr 112 caps2
  -- the two arms of `if (compression == DDS_COMPRESS_NONE)`: hdr, pflags, dxgi_format
  let arm : List Nat × Nat × DXGI_FORMAT :=
    if compression = Compression.NONE then
      let flags := flags ||| DDSD_PITCH
      let pflags :=
        if pixel_format ≠ PixelFormat.DEFAULT then
          if pixel_format = PixelFormat.A8 then 0 ||| DDPF_ALPHA
          else if (fmtbpp = 1 ∨ pixel_format = PixelFormat.L8A8) ∧
              pixel_format ≠ PixelFormat.R3G3B2 then 0 ||| DDPF_LUMINANCE
          else 0 ||| DDPF_RGB
        else if bpp = 1 then
          if basetype = GimpImageBaseType.INDEXED then 0 ||| DDPF_PALETTEINDEXED8
          else 0 ||| DDPF_LUMINANCE
        else if bpp = 2 ∧ basetype = GimpImageBaseType.INDEXED then
          0 ||| DDPF_PALETTEINDEXED8
        else 0 ||| DDPF_RGB
      let pflags := if has_alpha ≠ 0 then pflags ||| DDPF_ALPHAPIXELS else pflags
      let hdr := PUTL32 hdr 8 flags
      let hdr := PUTL32 hdr 20 (w * fmtbpp)
      let hdr := PUTL32 hdr 80 pflags
      let hdr :=
        if pixel_format = PixelFormat.AEXP then PUTL32 hdr 44 (FOURCC 'A' 'E' 'X' 'P')
        else if pixel_format = PixelFormat.YCOCG then PUTL32 hdr 44 (FOURCC 'Y' 'C' 'G' '1')
        else hdr
      (hdr, pflags, dxgi_format)
    else
      let flags := flags ||| DDSD_LINEARSIZE
      let pflags := DDPF_FOURCC
      let fourcc := (compression_fourcc compression dxgi_format).1
      let dxgi_format := (compression_fourcc compression dxgi_format).2
      let pflags :=
        if compression = Compression.BC3N ∨ compression = Compression.RXGB then
          pflags ||| DDPF_NORMAL
        else pflags
      let hdr := PUTL32 hdr 8 flags
      let hdr := PUTL32 hdr 80 pflags
      let hdr := PUTL32 hdr 84 fourcc
      let size := ((w + 3) >>> 2) * ((h + 3) >>> 2)
      let size :=
        if compression = Compression.BC1 ∨ compression = Compression.BC4 then size * 8
        else size * 16
      let hdr := PUTL32 hdr 20 size
      let hdr :=
        if compression = Compression.AEXP then PUTL32 hdr 44 (FOURCC 'A' 'E' 'X' 'P')
        else if compression = Compression.YCOCG then PUTL32 hdr 44 (FOURCC 'Y' 'C' 'G' '1')
        else if compression = Compression.YCOCGS then PUTL32 hdr 44 (FOURCC 'Y' 'C' 'G' '2')
        else hdr
      (hdr, pflags, dxgi_format)
  let hdr := arm.1
  let pflags := arm.2.1
  let dxgi_format := arm.2.2
  let is_dx10 := decide (savetype = SaveType.ARRAY)
  let hdr10 := List.replicate DDS_HEADERSIZE_DX10 0
  if is_dx10 then
    let array_size :=
      if savetype = SaveType.SELECTED_LAYER ∨ savetype = SaveType.VISIBLE_LAYERS then 1
      else get_array_size image
    let hdr10 := PUTL32 hdr10 0 (host.dxgi_code dxgi_format)
    let hdr10 := PUTL32 hdr10 4 D3D10_RESOURCE_DIMENSION_TEXTURE2D
    let hdr10 := PUTL32 hdr10 8 0
    let hdr10 := PUTL32 hdr10 12 array_size
    let hdr10 := PUTL32 hdr10 16 0
    let hdr := PUTL32 hdr 80 (pflags ||| DDPF_FOURCC)
    let hdr := PUTL32 hdr 84 (FOURCC 'D' 'X' '1' '0')
    ⟨hdr, is_dx10, hdr10, w, h, bpp, fmtbpp, num_mipmaps⟩
  else
    ⟨hdr, is_dx10, hdr10, w, h, bpp, fmtbpp, num_mipmaps⟩

/-- The part of `write_image` from the choice of `w`, `h` to the completed `hdr` and
`hdr10` buffers. `image` is the image after the optional flip and `drawable` the
drawable after the `DDS_MIPMAP_EXISTING` override. -/
def write_image_header (host : Host) (is_cubemap is_volume : Bool) (image : Image)
    (drawable : Layer) (config : Config) : Option HeaderResult :=
  let savetype := config.savetype
  let w := if savetype = SaveType.SELECTED_LAYER then drawable.width else image.width
  let h := if savetype = SaveType.SELECTED_LAYER then drawable.height else image.height
  let basetype := image.base_type
  let bpp := drawable_bpp drawable.type
  match format_fields config.format bpp basetype with
  | none => none
  | some fmt => some (build_header host is_cubemap is_volume image config w h bpp fmt)

/-- The colour loop of the palette block: three colormap bytes and one alpha byte per
entry, alpha 0 at `transindex` and 255 elsewhere; `i` is the loop counter. -/
def write_palette_colors (transindex : Int) : List (Nat × Nat × Nat) → Nat → FILE → FILE
  | [], _, fp => fp
  | (r, g, b) :: cmap, i, fp =>
    let fp := fwrite fp [r, g, b]
    let fp := if (i : Int) = transindex then fwrite fp [0] else fwrite fp [255]
    write_palette_colors transindex cmap (i + 1) fp

/-- The padding loop `for (; i < 256; ++i) fwrite (zero, 1, 4, fp)`, `n` iterations. -/
def write_palette_zero : Nat → FILE → FILE
  | 0, fp => fp
  | n + 1, fp => write_palette_zero n (fwrite fp [0, 0, 0, 0])

/-- The drawables `list->data` that the loop
`for (i = 0, list = layers; i < num_layers; ++i, list = g_list_next (layers))` of the
volume-map and array dispatch visits in `n` iterations from node `list`: the increment
takes the node after the HEAD of the layer list; `none` when `list` is `NULL`. -/
def dispatch_visited (layers : List Layer) : Nat → List Layer → Option (List Layer)
  | 0, _ => some []
  | n + 1, list =>
    match list with
    | [] => none
    | d :: _ =>
      match dispatch_visited layers n (g_list_next layers) with
      | none => none
      | some ds => some (d :: ds)

/-- The six `write_layer` calls of the cube-map dispatch, over the remaining face
indices; `none` when a face entry is `NULL`. -/
def dispatch_cubemap (cubemap_faces : Faces) (w h bpp fmtbpp num_mipmaps : Nat) :
    List (Fin 6) → Option (List SurfaceWrite)
  | [] => some []
  | i :: is =>
    match cubemap_faces i with
    | none => none
    | some face =>
      match dispatch_cubemap cubemap_faces w h bpp fmtbpp num_mipmaps is with
      | none => none
      | some calls => some (SurfaceWrite.layer face w h bpp fmtbpp num_mipmaps :: calls)

/-- The `if (savetype == ...)` chain at the end of `write_image`: the calls to the
payload writers, in order. -/
def write_image_dispatch (host : Host) (cubemap_faces : Faces) (image : Image)
    (drawable : Layer) (config : Config) (r : HeaderResult) : Option (List SurfaceWrite) :=
  let layers := image.layers
  let num_layers := layers.length
  if config.savetype = SaveType.CUBEMAP then
    dispatch_cubemap cubemap_faces r.w r.h r.bpp r.fmtbpp r.num_mipmaps [0, 1, 2, 3, 4, 5]
  else if config.savetype = SaveType.VOLUMEMAP then
    match dispatch_visited layers num_layers layers with
    | none => none
    | some ds =>
      some (ds.map (fun d => SurfaceWrite.layer d r.w r.h r.bpp r.fmtbpp 1) ++
        (if r.num_mipmaps > 1 then
          [SurfaceWrite.volume_mipmaps layers r.w r.h num_layers r.bpp r.fmtbpp r.num_mipmaps]
        else []))
  else if config.savetype = SaveType.ARRAY then
    match dispatch_visited layers num_layers layers with
    | none => none
    | some ds =>
      some ((ds.filter (fun d => decide (d.width = r.w ∧ d.height = r.h))).map
        (fun d => SurfaceWrite.layer d r.w r.h r.bpp r.fmtbpp r.num_mipmaps))
  else
    let drawable :=
      if config.savetype = SaveType.VISIBLE_LAYERS then
        host.gimp_image_merge_visible_layers image
      else drawable
    some [SurfaceWrite.layer drawable r.w r.h r.bpp r.fmtbpp r.num_mipmaps]

/-- Performs one payload-writer call on the stream. -/
def run_surface_write (host : Host) (image : Image) (config : Config) (fp : FILE) :
    SurfaceWrite → FILE
  | SurfaceWrite.layer drawable w h bpp fmtbpp num_mipmaps =>
    host.write_layer fp image drawable config w h bpp fmtbpp num_mipmaps
  | SurfaceWrite.volume_mipmaps layers w h d bpp fmtbpp num_mipmaps =>
    host.write_volume_mipmaps fp image config layers w h d bpp fmtbpp num_mipmaps

/-- The function `write_image (fp, image, drawable, config)`: its return value and the
stream afterwards. `is_cubemap`, `is_volume` and `cubemap_faces` are the file-scope
variables it reads. -/
def write_image (host : Host) (is_cubemap is_volume : Bool) (cubemap_faces : Faces)
    (fp : FILE) (image : Image) (drawable : Layer) (config : Config) :
    Option (Bool × FILE) :=
  let image := if config.flip_image then gimp_image_flip image else image
  let layers := image.layers
  let drawable? :=
    if config.mipmaps = MipmapMode.EXISTING then layers.head? else some drawable
  match drawable? with
  | none => none
  | some drawable =>
    match write_image_header host is_cubemap is_volume image drawable config with
    | none => none
    | some r =>
      let fp := fwrite fp r.hdr
      let fp := if r.is_dx10 then fwrite fp r.hdr10 else fp
      let fp :=
        if image.base_type = GimpImageBaseType.INDEXED ∧
            config.format = PixelFormat.DEFAULT ∧
            config.compression = Compression.NONE then
          write_palette_zero (256 - image.colormap.length)
            (write_palette_colors config.transparent_index image.colormap 0 fp)
        else fp
      match write_image_dispatch host cubemap_faces image drawable config r with
      | none => none
      | some calls => some (true, calls.foldl (run_surface_write host image config) fp)

/-! ## save_dialog and write_dds -/

/-- The function `save_dialog`: the configuration changes it makes itself before the
dialog runs (the `g_object_set` of `save-type`, and the `g_object_set` of
`compression-format` in `config_notify` for `save-type`), then the user session.
Returns the configuration object afterwards and `run`. -/
def save_dialog (host : Host) (is_cubemap is_volume is_array : Bool) (config : Config) :
    Config × Bool :=
  let config :=
    if is_cubemap || is_volume || is_array then
      { config with savetype := SaveType.SELECTED_LAYER }
    else config
  let config :=
    if config.savetype = SaveType.VOLUMEMAP then
      { config with compression := Compression.NONE }
    else config
  host.dialog_run config

/-- What a run of `write_dds` leaves behind: the status it returns, whether it reached
the call of `g_fopen`, and the stream as it is at `fclose` when one was opened. -/
structure WriteResult where
  status : GimpPDBStatusType
  fopen_called : Bool
  fp : Option FILE
  deriving DecidableEq

/-- The statement `if (interactive) { ... } else { ... }` of `write_dds`: the status of
an early return, or else the configuration object as it is afterwards. -/
def write_dds_validate (host : Host)
    (is_mipmap_chain_valid is_cubemap is_volume is_array : Bool)
    (interactive : Bool) (config : Config) : Except GimpPDBStatusType Config :=
  let compression := config.compression
  let savetype := config.savetype
  let mipmaps := config.mipmaps
  if interactive then
    -- assignment to the local `mipmaps`, which is not read again: `write_image`
    -- takes the property from `config`
    let _mipmaps :=
      if ! is_mipmap_chain_valid ∧ mipmaps = MipmapMode.EXISTING then MipmapMode.NONE
      else mipmaps
    let dlg := save_dialog host is_cubemap is_volume is_array config
    if ! dlg.2 then Except.error GimpPDBStatusType.CANCEL
    else Except.ok dlg.1
  else if savetype = SaveType.CUBEMAP ∧ ! is_cubemap then
    Except.error GimpPDBStatusType.EXECUTION_ERROR
  else if savetype = SaveType.VOLUMEMAP ∧ ! is_volume then
    Except.error GimpPDBStatusType.EXECUTION_ERROR
  else if savetype = SaveType.VOLUMEMAP ∧ compression ≠ Compression.NONE then
    Except.error GimpPDBStatusType.EXECUTION_ERROR
  else if mipmaps = MipmapMode.EXISTING ∧ ! is_mipmap_chain_valid then
    Except.error GimpPDBStatusType.EXECUTION_ERROR
  else Except.ok config

/-- The function `write_dds`. `cubemap_faces` is the content of the file-scope array
on entry. -/
def write_dds (host : Host) (cubemap_faces : Faces) (image : Image) (drawable : Layer)
    (interactive : Bool) (config : Config) (is_duplicate_image : Bool) :
    Option WriteResult :=
  let savetype := config.savetype
  let global_image := image
  match check_mipmaps global_image savetype with
  | none => none
  | some is_mipmap_chain_valid =>
    match check_cubemap global_image cubemap_faces image with
    | none => none
    | some (is_cubemap, cubemap_faces) =>
      let is_volume := check_volume image
      match check_array global_image image with
      | none => none
      | some is_array =>
        match write_dds_validate host is_mipmap_chain_valid is_cubemap is_volume is_array
            interactive config with
        | Except.error status => some ⟨status, false, none⟩
        | Except.ok config =>
          match host.g_fopen with
          | none => some ⟨GimpPDBStatusType.EXECUTION_ERROR, true, none⟩
          | some fp =>
            let rc :=
              if ! is_duplicate_image then
                let duplicate_image := host.gimp_image_duplicate image
                write_image host is_cubemap is_volume cubemap_faces fp duplicate_image
                  (host.selected_drawable duplicate_image) config
              else
                write_image host is_cubemap is_volume cubemap_faces fp image drawable config
            match rc with
            | none => none
            | some (rc, fp) =>
              some ⟨if rc then GimpPDBStatusType.SUCCESS
                else GimpPDBStatusType.EXECUTION_ERROR, true, some fp⟩

/-! ## Predicates used in the statements -/

/-- A layer at list index `k` that has the size of mipmap level `j` of a `w` x `h` surface. -/
def LevelSize (layers : List Layer) (w h k j : Nat) : Prop :=
  ∀ d, layers[k]? = some d → d.width = max 1 (w >>> j) ∧ d.height = max 1 (h >>> j)

/-- The layer at list index `k` has the size the surface loop of `check_mipmaps` asks of
position `j` of a surface block: `(w, h)` itself at `j = 0`, the clamped shift after. -/
def BlockSize (layers : List Layer) (w h k j : Nat) : Prop :=
  ∀ d, layers[k]? = some d →
    d.width = (if j = 0 then w else max 1 (w >>> j)) ∧
    d.height = (if j = 0 then h else max 1 (h >>> j))

/-- Surface-count bounds of the existing-mipmap rule, in the words of the specification:
(6, 6) for Cubemap, (2, INT_MAX) for Array, (1, 1) for every other save type. -/
def spec_surface_bounds : SaveType → Nat × Nat
  | SaveType.CUBEMAP => (6, 6)
  | SaveType.ARRAY => (2, INT_MAX)
  | _ => (1, 1)


/-- Whether one of the four table names of face `j` occurs in the name of `layer`. -/
def layer_names_face (layer : Layer) (j : Fin 6) : Bool :=
  ([0, 1, 2, 3] : List Nat).any (fun k => strstr layer.name (cubemap_face_name k j))

/-! ## The header computation in stages -/

/-- The `flags` word of `write_image` as it is when written to offset 8. -/
def header_flags (config : Config) (is_cubemap is_volume : Bool) : Nat :=
  let flags := DDSD_CAPS ||| DDSD_PIXELFORMAT ||| DDSD_WIDTH ||| DDSD_HEIGHT
  let flags := if config.mipmaps ≠ MipmapMode.NONE then flags ||| DDSD_MIPMAPCOUNT else flags
  let cube := decide (config.savetype = SaveType.CUBEMAP) && is_cubemap
  let vol := ! cube && (decide (config.savetype = SaveType.VOLUMEMAP) && is_volume)
  let flags := if vol then flags ||| DDSD_DEPTH else flags
  if config.compression = Compression.NONE then flags ||| DDSD_PITCH
  else flags ||| DDSD_LINEARSIZE

/-- The `caps` word of `write_image` as it is when written to offset 108. -/
def header_caps (config : Config) (is_cubemap is_volume : Bool) : Nat :=
  let caps := DDSCAPS_TEXTURE
  let caps :=
    if config.mipmaps ≠ MipmapMode.NONE then caps ||| (DDSCAPS_COMPLEX ||| DDSCAPS_MIPMAP)
    else caps
  let cube := decide (config.savetype = SaveType.CUBEMAP) && is_cubemap
  let vol := ! cube && (decide (config.savetype = SaveType.VOLUMEMAP) && is_volume)
  if cube || vol then caps ||| DDSCAPS_COMPLEX else caps

/-- The `caps2` word of `write_image` as it is when written to offset 112. -/
def header_caps2 (config : Config) (is_cubemap is_volume : Bool) : Nat :=
  let cube := decide (config.savetype = SaveType.CUBEMAP) && is_cubemap
  let vol := ! cube && (decide (config.savetype = SaveType.VOLUMEMAP) && is_volume)
  if cube then 0 ||| (DDSCAPS2_CUBEMAP ||| DDSCAPS2_CUBEMAP_ALL_FACES)
  else if vol then 0 ||| DDSCAPS2_VOLUME
  else 0

/-- The `pflags` word of `write_image` at the end of the arm of
`if (compression == DDS_COMPRESS_NONE)` that is taken. -/
def header_pflags (config : Config) (basetype : GimpImageBaseType) (bpp : Nat)
    (fmt : FormatFields) : Nat :=
  if config.compression = Compression.NONE then
    let pflags :=
      if config.format ≠ PixelFormat.DEFAULT then
        if config.format = PixelFormat.A8 then 0 ||| DDPF_ALPHA
        else if (fmt.fmtbpp = 1 ∨ config.format = PixelFormat.L8A8) ∧
            config.format ≠ PixelFormat.R3G3B2 then 0 ||| DDPF_LUMINANCE
        else 0 ||| DDPF_RGB
      else if bpp = 1 then
        if basetype = GimpImageBaseType.INDEXED then 0 ||| DDPF_PALETTEINDEXED8
        else 0 ||| DDPF_LUMINANCE
      else if bpp = 2 ∧ basetype = GimpImageBaseType.INDEXED then
        0 ||| DDPF_PALETTEINDEXED8
      else 0 ||| DDPF_RGB
    if fmt.has_alpha ≠ 0 then pflags ||| DDPF_ALPHAPIXELS else pflags
  else
    if config.compression = Compression.BC3N ∨ config.compression = Compression.RXGB then
      DDPF_FOURCC ||| DDPF_NORMAL
    else DDPF_FOURCC

/-- The DXGI format of `write_image` after the arm of
`if (compression == DDS_COMPRESS_NONE)` that is taken. -/
def header_dxgi_format (config : Config) (fmt : FormatFields) : DXGI_FORMAT :=
  if config.compression = Compression.NONE then fmt.dxgi_format
  else (compression_fourcc config.compression fmt.dxgi_format).2

/-- The linear size that `write_image` writes to offset 20 of a compressed file. -/
def header_linear_size (config : Config) (w h : Nat) : Nat :=
  let size := ((w + 3) >>> 2) * ((h + 3) >>> 2)
  if config.compression = Compression.BC1 ∨ config.compression = Compression.BC4 then size * 8
  else size * 16

/-- Stage 1 of `build_header`: magic, size, height, width, pixel-format size, the bit
count and masks of an uncompressed file, and the writer signature. -/
def header_stage1 (host : Host) (config : Config) (w h : Nat) (fmt : FormatFields) :
    List Nat :=
  let hdr := List.replicate DDS_HEADERSIZE 0
  let hdr := PUTL32 hdr 0 (FOURCC 'D' 'D' 'S' ' ')
  let hdr := PUTL32 hdr 4 124
  let hdr := PUTL32 hdr 12 h
  let hdr := PUTL32 hdr 16 w
  let hdr := PUTL32 hdr 76 32
  let hdr :=
    if config.compression = Compression.NONE then
      PUTL32 (PUTL32 (PUTL32 (PUTL32 (PUTL32 hdr 88 (fmt.fmtbpp <<< 3)) 92 fmt.rmask) 96
        fmt.gmask) 100 fmt.bmask) 104 fmt.amask
    else hdr
  let hdr := PUTL32 hdr 32 (FOURCC 'G' 'I' 'M' 'P')
  let hdr := PUTL32 hdr 36 (FOURCC '-' 'D' 'D' 'S')
  PUTL32 hdr 40 host.DDS_PLUGIN_VERSION

/-- Stage 2 of `build_header`: depth, mipmap count, caps and caps2. -/
def header_stage2 (config : Config) (is_cubemap is_volume : Bool) (num_layers w h : Nat)
    (hdr : List Nat) : List Nat :=
  let num_mipmaps := if config.mipmaps ≠ MipmapMode.NONE then get_num_mipmaps w h else 1
  let cube := decide (config.savetype = SaveType.CUBEMAP) && is_cubemap
  let vol := ! cube && (decide (config.savetype = SaveType.VOLUMEMAP) && is_volume)
  let hdr := if vol then PUTL32 hdr 24 num_layers else hdr
  let hdr := PUTL32 hdr 28 num_mipmaps
  let hdr := PUTL32 hdr 108 (header_caps config is_cubemap is_volume)
  PUTL32 hdr 112 (header_caps2 config is_cubemap is_volume)

/-- Stage 3 of `build_header`: the arm of `if (compression == DDS_COMPRESS_NONE)` that
is taken, which writes flags, pitch or linear size, pixel-format flags, FourCC and
the writer-specific tag. -/
def header_stage3 (config : Config) (is_cubemap is_volume : Bool) (basetype : GimpImageBaseType)
    (w h bpp : Nat) (fmt : FormatFields) (hdr : List Nat) : List Nat :=
  if config.compression = Compression.NONE then
    let hdr := PUTL32 hdr 8 (header_flags config is_cubemap is_volume)
    let hdr := PUTL32 hdr 20 (w * fmt.fmtbpp)
    let hdr := PUTL32 hdr 80 (header_pflags config basetype bpp fmt)
    if config.format = PixelFormat.AEXP then PUTL32 hdr 44 (FOURCC 'A' 'E' 'X' 'P')
    else if config.format = PixelFormat.YCOCG then PUTL32 hdr 44 (FOURCC 'Y' 'C' 'G' '1')
    else hdr
  else
    let hdr := PUTL32 hdr 8 (header_flags config is_cubemap is_volume)
    let hdr := PUTL32 hdr 80 (header_pflags config basetype bpp fmt)
    let hdr := PUTL32 hdr 84 (compression_fourcc config.compression fmt.dxgi_format).1
    let hdr := PUTL32 hdr 20 (header_linear_size config w h)
    if config.compression = Compression.AEXP then PUTL32 hdr 44 (FOURCC 'A' 'E' 'X' 'P')
    else if config.compression = Compression.YCOCG then PUTL32 hdr 44 (FOURCC 'Y' 'C' 'G' '1')
    else if config.compression = Compression.YCOCGS then
      PUTL32 hdr 44 (FOURCC 'Y' 'C' 'G' '2')
    else hdr

/-- Stage 4 of `build_header`: the update of the main header for a DX10 file. -/
def header_stage4 (config : Config) (pflags : Nat) (hdr : List Nat) : List Nat :=
  if config.savetype = SaveType.ARRAY then
    PUTL32 (PUTL32 hdr 80 (pflags ||| DDPF_FOURCC)) 84 (FOURCC 'D' 'X' '1' '0')
  else hdr

/-- The `hdr10` buffer of `build_header` for a DX10 file. -/
def header_dx10 (host : Host) (config : Config) (image : Image) (fmt : FormatFields) :
    List Nat :=
  let array_size :=
    if config.savetype = SaveType.SELECTED_LAYER ∨ config.savetype = SaveType.VISIBLE_LAYERS
    then 1
    else get_array_size image
  let hdr10 := List.replicate DDS_HEADERSIZE_DX10 0
  let hdr10 := PUTL32 hdr10 0 (host.dxgi_code (header_dxgi_format config fmt))
  let hdr10 := PUTL32 hdr10 4 D3D10_RESOURCE_DIMENSION_TEXTURE2D
  let hdr10 := PUTL32 hdr10 8 0
  let hdr10 := PUTL32 hdr10 12 array_size
  PUTL32 hdr10 16 0

/-! ## The header tables as the specification states them -/

/-- The pixel-format flags word of section 4.B for a file without DX10 header, as the
rules of the specification give it from the compression, the requested pixel format
and the type of the source drawable. -/
def spec_pixel_format_flags (compression : Compression) (format : PixelFormat)
    (type : GimpImageType) : Nat :=
  if compression = Compression.NONE then
    match format with
    | PixelFormat.DEFAULT =>
      match type with
      | GimpImageType.INDEXED_IMAGE => DDPF_PALETTEINDEXED8
      | GimpImageType.INDEXEDA_IMAGE => DDPF_PALETTEINDEXED8
      | GimpImageType.GRAY_IMAGE => DDPF_LUMINANCE
      | GimpImageType.RGB_IMAGE => DDPF_RGB
      | GimpImageType.GRAYA_IMAGE => DDPF_RGB ||| DDPF_ALPHAPIXELS
      | GimpImageType.RGBA_IMAGE => DDPF_RGB ||| DDPF_ALPHAPIXELS
    | PixelFormat.A8 => DDPF_ALPHA
    | PixelFormat.L8 => DDPF_LUMINANCE
    | PixelFormat.L8A8 => DDPF_LUMINANCE ||| DDPF_ALPHAPIXELS
    | f =>
      if format_info.any (fun fi => decide (fi.format = f ∧ fi.alpha = 1)) then
        DDPF_RGB ||| DDPF_ALPHAPIXELS
      else DDPF_RGB
  else if compression = Compression.BC3N ∨ compression = Compression.RXGB then
    DDPF_FOURCC ||| DDPF_NORMAL
  else DDPF_FOURCC

/-- The FourCC of section 4.B for each compression, 0 for an uncompressed file. -/
def spec_fourcc : Compression → Nat
  | Compression.NONE => 0
  | Compression.BC1 => FOURCC 'D' 'X' 'T' '1'
  | Compression.BC2 => FOURCC 'D' 'X' 'T' '3'
  | Compression.BC3 => FOURCC 'D' 'X' 'T' '5'
  | Compression.BC3N => FOURCC 'D' 'X' 'T' '5'
  | Compression.YCOCG => FOURCC 'D' 'X' 'T' '5'
  | Compression.YCOCGS => FOURCC 'D' 'X' 'T' '5'
  | Compression.AEXP => FOURCC 'D' 'X' 'T' '5'
  | Compression.RXGB => FOURCC 'R' 'X' 'G' 'B'
  | Compression.BC4 => FOURCC 'A' 'T' 'I' '1'
  | Compression.BC5 => FOURCC 'A' 'T' 'I' '2'

/-! ## The stream of write_image in stages -/

/-- The image and the drawable that `write_image` works with after the optional flip
and the override `if (mipmaps == DDS_MIPMAP_EXISTING) drawable = layers->data`; `none`
when the override reads the data of an empty layer list. -/
def write_image_inputs (image : Image) (drawable : Layer) (config : Config) :
    Option (Image × Layer) :=
  let image := if config.flip_image then gimp_image_flip image else image
  let layers := image.layers
  let drawable? :=
    if config.mipmaps = MipmapMode.EXISTING then layers.head? else some drawable
  match drawable? with
  | none => none
  | some drawable => some (image, drawable)

/-- The two header writes of `write_image`: `fwrite (hdr, DDS_HEADERSIZE, 1, fp)` and
`if (is_dx10) fwrite (hdr10, DDS_HEADERSIZE_DX10, 1, fp)`. -/
def write_image_headers (r : HeaderResult) (fp : FILE) : FILE :=
  let fp := fwrite fp r.hdr
  if r.is_dx10 then fwrite fp r.hdr10 else fp

/-- The palette block of `write_image` (`/* write palette for indexed images */`). -/
def write_image_palette (image : Image) (config : Config) (fp : FILE) : FILE :=
  if image.base_type = GimpImageBaseType.INDEXED ∧
      config.format = PixelFormat.DEFAULT ∧
      config.compression = Compression.NONE then
    write_palette_zero (256 - image.colormap.length)
      (write_palette_colors config.transparent_index image.colormap 0 fp)
  else fp

/-- Entry `i` of a palette block that starts at byte `start` of `data`. -/
def palette_entry (data : List Nat) (start i : Nat) : Nat × Nat × Nat × Nat :=
  (data.getD (start + 4 * i) 0, data.getD (start + 4 * i + 1) 0,
    data.getD (start + 4 * i + 2) 0, data.getD (start + 4 * i + 3) 0)

/-- The bytes of the palette entries of a colormap as section 4.B states them: entry `i`
is (R, G, B, A) with A = 0 at the transparent index and 255 elsewhere; `i` is the index
of the first entry of the list. -/
def spec_palette_colors (transparent_index : Int) : List (Nat × Nat × Nat) → Nat → List Nat
  | [], _ => []
  | (r, g, b) :: cmap, i =>
    [r, g, b, if (i : Int) = transparent_index then 0 else 255] ++
      spec_palette_colors transparent_index cmap (i + 1)

/-! ## Sizes of mipmap levels -/

/-- Modelled from the spec: the size in bytes of one mipmap level of `w` x `h` pixels
(section 4.C): `w * h * bpp` uncompressed, and `max(1, ceil(w/4)) * max(1, ceil(h/4))`
blocks of 8 bytes for BC1 and BC4 and of 16 bytes for the other compressions. -/
def level_size (w h bpp : Nat) (format : Compression) : Nat :=
  if format = Compression.NONE then w * h * bpp
  else if format = Compression.BC1 ∨ format = Compression.BC4 then
    max 1 ((w + 3) / 4) * max 1 ((h + 3) / 4) * 8
  else max 1 ((w + 3) / 4) * max 1 ((h + 3) / 4) * 16

/-- Modelled from the spec: `get_mipmapped_size (width, height, bpp, level, num, format)`
is declared in mipmap.h and its body is not part of the sources. Section 4.C: the
mipmapped total is the sum of the level sizes, level `k` having the dimensions
`max(1, W >> k)` x `max(1, H >> k)`; the sum runs over the `num` levels from `level`
on. The model is meant for `level + num <= mip_levels (width, height)`, the levels
that exist. -/
def get_mipmapped_size (width height bpp level num : Nat) (format : Compression) : Nat :=
  ((List.range num).map (fun k =>
    level_size (max 1 (width >>> (level + k))) (max 1 (height >>> (level + k))) bpp
      format)).sum

/-- Modelled from the spec: `get_volume_mipmapped_size`, declared in mipmap.h. Section
4.C: the volume variant multiplies the size of level `k` by `max(1, D >> k)`. -/
def get_volume_mipmapped_size (width height depth bpp level num : Nat)
    (format : Compression) : Nat :=
  ((List.range num).map (fun k =>
    level_size (max 1 (width >>> (level + k))) (max 1 (height >>> (level + k))) bpp format *
      max 1 (depth >>> (level + k)))).sum

/-- Modelled from the spec: `get_next_mipmap_dimensions (&next_w, &next_h, curr_w,
curr_h)`, declared in mipmap.h: the dimensions of the next level, each halved and not
below 1 (section 4.C), or `none` (return value 0) when the current level is 1 x 1. -/
def get_next_mipmap_dimensions (curr_w curr_h : Nat) : Option (Nat × Nat) :=
  if curr_w ≤ 1 ∧ curr_h ≤ 1 then none
  else some (max 1 (curr_w >>> 1), max 1 (curr_h >>> 1))

/-! ## Pixel kernels of ddswrite.c -/

/-- A buffer of `n` bytes from `g_malloc` after a routine has stored `bytes` from its
start on: nothing is stored past the end, and a byte that was never stored reads 0. -/
def buffer_of (n : Nat) (bytes : List Nat) : List Nat :=
  (bytes ++ List.replicate n 0).take n

/-- The function `swap_rb (pixels, n, bpp)`: exchanges bytes 0 and 2 of each of the first
`n` pixels. -/
def swap_rb (pixels : List Nat) (n bpp : Nat) : List Nat :=
  (List.range n).foldl (fun pixels i =>
    let t := pixels.getD (bpp * i + 0) 0
    let pixels := pixels.set (bpp * i + 0) (pixels.getD (bpp * i + 2) 0)
    pixels.set (bpp * i + 2) t) pixels

/-- The clamp `MAX (0, MIN (255, x))` of `alpha_exp`, stored to an `unsigned char`. -/
def clamp_byte (x : Int) : Nat := (max 0 (min 255 x)).toNat

/-- The shift of the binary32 rounding of `num / den`: the least `s` below 64 with
`2^23 * den <= num * 2^s`, found by bisection. For this `s` the quotient `num * 2^s / den`
lies from `2^23` up to `2^24`: it has the 24 bits of a binary32 significand. -/
def float_shift (num den : Nat) : Nat :=
  [32, 16, 8, 4, 2, 1].foldl
    (fun s b => if num * 2 ^ (s + b - 1) < 2 ^ 23 * den then s + b else s) 0

/-- The C type `float` as IEEE 754 binary32, for the finite values that `alpha_exp`
meets: a value `x >= 0` is held as the natural number `x * 2^40`, which is exact for 0
and for every binary32 value from `2^-17` up to `2^24`. `float_round num den` is the
binary32 value nearest to the rational `num / den` (round to nearest, ties to even),
the correctly rounded result that IEEE 754 prescribes for a single operation:
`num * 2^s / den` is rounded to an integer significand and scaled back. -/
def float_round (num den : Nat) : Nat :=
  if num = 0 then 0
  else
    let s := float_shift num den
    let q := num * 2 ^ s / den
    let rest := num * 2 ^ s % den
    let m := if den < 2 * rest ∨ (2 * rest = den ∧ q % 2 = 1) then q + 1 else q
    m * 2 ^ (40 - s)

/-- The conversion `(float) n` of an `int` with `0 <= n < 2^24`, which is exact. -/
def float_of_int (n : Nat) : Nat := n * 2 ^ 40

/-- The `float` division `x / y`, rounded once. -/
def float_div (x y : Nat) : Nat := float_round x y

/-- The `float` product `x * y`, rounded once. -/
def float_mul (x y : Nat) : Nat := float_round (x * y) (2 ^ 40 * 2 ^ 40)

/-- The `float` sum `x + y`, rounded once. -/
def float_add (x y : Nat) : Nat := float_round (x + y) (2 ^ 40)

/-- The call `floorf (x)` converted by `(int)`. -/
def floorf (x : Nat) : Int := ((x / 2 ^ 40 : Nat) : Int)

/-- The rational number that the representation `x` of a `float` stands for. -/
def float_value (x : Nat) : ℚ := (x : ℚ) / 2 ^ 40

/-- The function `alpha_exp (dst, r, g, b, a)`: the four bytes it stores to `dst`. Every
`float` operation is rounded to binary32 on its own, in the order of the source; the
constants `255.0f`, `1e-04f` and `0.5f` are the binary32 values nearest to 255, 1/10000
and 1/2. -/
def alpha_exp (r g b _a : Nat) : List Nat :=
  let ar := float_div (float_of_int r) (float_of_int 255)
  let ag := float_div (float_of_int g) (float_of_int 255)
  let ab := float_div (float_of_int b) (float_of_int 255)
  let aa := max ar (max ag ab)
  if aa < float_round 1 10000 then [b, g, r, 255]
  else
    let ar := float_div ar aa
    let ag := float_div ag aa
    let ab := float_div ab aa
    let r : Int := floorf (float_add (float_mul (float_of_int 255) ar) (float_round 1 2))
    let g : Int := floorf (float_add (float_mul (float_of_int 255) ag) (float_round 1 2))
    let b : Int := floorf (float_add (float_mul (float_of_int 255) ab) (float_round 1 2))
    let a : Int := floorf (float_add (float_mul (float_of_int 255) aa) (float_round 1 2))
    [clamp_byte b, clamp_byte g, clamp_byte r, clamp_byte a]

/-- The `float` that `alpha_exp` passes to `floorf` for a channel `c` when the largest
channel is `m`: `255.0f * ((c / 255.0f) / (m / 255.0f)) + 0.5f`. -/
def alpha_exp_scaled (c m : Nat) : Nat :=
  float_add
    (float_mul (float_of_int 255)
      (float_div (float_div (float_of_int c) (float_of_int 255))
        (float_div (float_of_int m) (float_of_int 255))))
    (float_round 1 2)

/-- The byte `x` stored for a channel `c` when the largest channel is `m`: `x` is the
exact `floor (255 * c / m + 1/2)`, or it is one less than that and `255 * c / m + 1/2`
is an integer. -/
def NearestChannel (x c m : Nat) : Prop :=
  (x : Int) = ⌊255 * (c : ℚ) / m + 1 / 2⌋ ∨
    ((x : Int) + 1 = ⌊255 * (c : ℚ) / m + 1 / 2⌋ ∧
      255 * (c : ℚ) / m + 1 / 2 = ⌊255 * (c : ℚ) / m + 1 / 2⌋)

/-- Modelled from the spec: the `PUTL16` macro of endian_rw.h, a little-endian 16-bit
store of `v` at offset `off` of a byte buffer. -/
def PUTL16 (buf : List Nat) (off : Nat) (v : Nat) : List Nat :=
  (buf.set off (v % 256)).set (off + 1) (v / 256 % 256)

/-- Modelled from the spec: `pack_r5g6b5` of color.h, section 4.A. -/
def pack_r5g6b5 (r g b : Nat) : Nat :=
  ((r &&& 0xF8) <<< 8) ||| ((g &&& 0xFC) <<< 3) ||| (b >>> 3)

/-- Modelled from the spec: `pack_rgba4` of color.h, section 4.A. -/
def pack_rgba4 (r g b a : Nat) : Nat :=
  ((a &&& 0xF0) <<< 8) ||| ((r &&& 0xF0) <<< 4) ||| (g &&& 0xF0) ||| (b >>> 4)

/-- Modelled from the spec: `pack_rgb5a1` of color.h, section 4.A. -/
def pack_rgb5a1 (r g b a : Nat) : Nat :=
  ((a &&& 0x80) <<< 8) ||| ((r &&& 0xF8) <<< 7) ||| ((g &&& 0xF8) <<< 2) ||| (b >>> 3)

/-- Modelled from the spec: `pack_rgb10a2` of color.h, section 4.A. -/
def pack_rgb10a2 (r g b a : Nat) : Nat :=
  ((a &&& 0xC0) <<< 24) ||| ((b <<< 2) <<< 20) ||| ((g <<< 2) <<< 10) ||| (r <<< 2)

/-- Modelled from the spec: `pack_r3g3b2` of color.h, section 4.A. -/
def pack_r3g3b2 (r g b : Nat) : Nat :=
  (r &&& 0xE0) ||| ((g &&& 0xE0) >>> 3) ||| (b >>> 6)

/-- The pixel layouts that the writer asks `gegl_buffer_get` for: the drawable's own
format (`gimp_drawable_get_format`) and the four `babl_format` names. -/
inductive BablFormat
  | drawable_format
  | Y_u8
  | YA_u8
  | RGB_u8
  | RGBA_u8
  deriving DecidableEq

/-- What the layer writer takes from outside ddswrite.c: the pixels that
`gegl_buffer_get` delivers for a drawable, a rectangle `w` x `h` at the origin and a
layout; the mipmap generator of mipmap.c (source pixels, `w`, `h`, `bpp`, `indexed`,
number of levels; the filter settings are read from the configuration); the block
compressor of dxt.c (source, compression, `w`, `h`, `bpp`, number of levels, flags) with
its flag `DXT_PERCEPTUAL`; and the colour helpers of color.h. `RGB_to_YCoCg` gets the
byte already stored at `dst[0]` and the colour, and gives the four bytes of `dst`
afterwards. -/
structure Kernels where
  gegl_buffer_get : Layer → Nat → Nat → BablFormat → List Nat
  generate_mipmaps : List Nat → Nat → Nat → Nat → Bool → Nat → Config → List Nat
  dxt_compress : List Nat → Compression → Nat → Nat → Nat → Nat → Nat → List Nat
  DXT_PERCEPTUAL : Nat
  rgb_to_luminance : Nat → Nat → Nat → Nat
  RGB_to_YCoCg : Nat → Nat → Nat → Nat → List Nat

/-- The choice of the `babl_format` by `bpp` in `write_layer` and `get_mipmap_chain`. -/
def babl_format_of_bpp (bpp : Nat) : BablFormat :=
  if bpp = 1 then BablFormat.Y_u8
  else if bpp = 2 then BablFormat.YA_u8
  else if bpp = 3 then BablFormat.RGB_u8
  else BablFormat.RGBA_u8

/-- One iteration of the loop of `convert_pixels`: the bytes stored to `dst` for pixel
`i`. A read past the end of `src` or of the palette gives 0. -/
def convert_pixel (k : Kernels) (src : List Nat) (format : PixelFormat) (bpp : Nat)
    (palette : Option (List Nat)) (i : Nat) : List Nat :=
  let rgba : Nat × Nat × Nat × Nat :=
    if bpp = 1 then
      let rgb : Nat × Nat × Nat :=
        match palette with
        | some palette =>
          (palette.getD (3 * src.getD i 0 + 0) 0, palette.getD (3 * src.getD i 0 + 1) 0,
            palette.getD (3 * src.getD i 0 + 2) 0)
        | none => (src.getD i 0, src.getD i 0, src.getD i 0)
      (rgb.1, rgb.2.1, rgb.2.2, if format = PixelFormat.A8 then src.getD i 0 else 255)
    else if bpp = 2 then
      (src.getD (2 * i) 0, src.getD (2 * i) 0, src.getD (2 * i) 0, src.getD (2 * i + 1) 0)
    else if bpp = 3 then
      (src.getD (3 * i + 2) 0, src.getD (3 * i + 1) 0, src.getD (3 * i + 0) 0, 255)
    else
      (src.getD (4 * i + 2) 0, src.getD (4 * i + 1) 0, src.getD (4 * i + 0) 0,
        src.getD (4 * i + 3) 0)
  let r := rgba.1
  let g := rgba.2.1
  let b := rgba.2.2.1
  let a := rgba.2.2.2
  match format with
  | PixelFormat.RGB8 => [b, g, r]
  | PixelFormat.RGBA8 => [b, g, r, a]
  | PixelFormat.BGR8 => [r, g, b]
  | PixelFormat.ABGR8 => [r, g, b, a]
  | PixelFormat.R5G6B5 => PUTL16 [0, 0] 0 (pack_r5g6b5 r g b)
  | PixelFormat.RGBA4 => PUTL16 [0, 0] 0 (pack_rgba4 r g b a)
  | PixelFormat.RGB5A1 => PUTL16 [0, 0] 0 (pack_rgb5a1 r g b a)
  | PixelFormat.RGB10A2 => PUTL32 [0, 0, 0, 0] 0 (pack_rgb10a2 r g b a)
  | PixelFormat.R3G3B2 => [pack_r3g3b2 r g b % 256]
  | PixelFormat.A8 => [a]
  | PixelFormat.L8 => [k.rgb_to_luminance r g b % 256]
  | PixelFormat.L8A8 => [k.rgb_to_luminance r g b % 256, a]
  | PixelFormat.YCOCG => buffer_of 4 (k.RGB_to_YCoCg a r g b)
  | PixelFormat.AEXP => alpha_exp r g b a
  | PixelFormat.DEFAULT => []

/-- The function `convert_pixels (dst, src, format, w, h, d, bpp, palette, mipmaps)`:
the bytes it stores to `dst` from its start on, pixel after pixel. -/
def convert_pixels (k : Kernels) (src : List Nat) (format : PixelFormat) (w h d bpp : Nat)
    (palette : Option (List Nat)) (mipmaps : Nat) : List Nat :=
  let num_pixels :=
    if d > 0 then get_volume_mipmapped_size w h d 1 0 mipmaps Compression.NONE
    else get_mipmapped_size w h 1 0 mipmaps Compression.NONE
  (List.range num_pixels).flatMap (convert_pixel k src format bpp palette)

/-! ## get_mipmap_chain and write_layer -/

/-- The loop `while (get_next_mipmap_dimensions (&mipw, &miph, w, h))` of
`get_mipmap_chain`: the bytes stored to `dst`, level after level (`offset` advances by
the size of each level). `idx` is the index before `++idx`. The result is cut short by
the early `return` at a layer of another size, and it is `none` when
`g_list_nth_data` gives `NULL`, whose buffer is then dereferenced. The levels get
smaller in every round, so `fuel = w + h + 1` rounds are enough. -/
def get_mipmap_chain_loop (k : Kernels) (layers : List Layer) (bpp : Nat) :
    Nat → Nat → Nat → Nat → Option (List Nat)
  | 0, _, _, _ => some []
  | fuel + 1, w, h, idx =>
    match get_next_mipmap_dimensions w h with
    | none => some []
    | some (mipw, miph) =>
      match layers[idx + 1]? with
      | none => none
      | some layer =>
        if layer.width ≠ mipw ∨ layer.height ≠ miph then some []
        else
          let level :=
            buffer_of (mipw * miph * bpp)
              (k.gegl_buffer_get layer mipw miph (babl_format_of_bpp bpp))
          let level := if bpp ≥ 3 then swap_rb level (mipw * miph) bpp else level
          match get_mipmap_chain_loop k layers bpp fuel mipw miph (idx + 1) with
          | none => none
          | some rest => some (level ++ rest)

/-- The function `get_mipmap_chain (dst, w, h, bpp, image, drawable)`: the bytes it
stores to `dst` from its start on; nothing when `drawable` is not a layer of the
image. -/
def get_mipmap_chain (k : Kernels) (w h bpp : Nat) (image : Image) (drawable : Layer) :
    Option (List Nat) :=
  let layers := image.layers
  match layers.findIdx? (fun l => decide (l = drawable)) with
  | none => some []
  | some idx => get_mipmap_chain_loop k layers bpp (w + h + 1) w h idx

/-- The colormap as `gimp_image_get_colormap` returns it: three bytes per colour. -/
def colormap_bytes (colormap : List (Nat × Nat × Nat)) : List Nat :=
  colormap.flatMap (fun c => [c.1, c.2.1, c.2.2])

/-- The start of `write_layer` up to the R/B swap: the fetch of the level-0 pixels, the
palette and the collapse of an indexed layer with alpha to its indices. Gives `src`,
the working `bpp` and `palette`. -/
def write_layer_fetch (k : Kernels) (image : Image) (drawable : Layer) (w h bpp : Nat) :
    List Nat × Nat × Option (List Nat) :=
  let basetype := image.base_type
  let type := drawable.type
  let format :=
    if basetype = GimpImageBaseType.INDEXED then BablFormat.drawable_format
    else babl_format_of_bpp bpp
  let src := buffer_of (w * h * bpp) (k.gegl_buffer_get drawable w h format)
  let palette : Option (List Nat) :=
    if basetype = GimpImageBaseType.INDEXED then some (colormap_bytes image.colormap)
    else none
  let collapsed : List Nat × Nat :=
    if basetype = GimpImageBaseType.INDEXED ∧ type = GimpImageType.INDEXEDA_IMAGE then
      ((List.range (w * h)).map (fun i => src.getD (2 * i) 0), 1)
    else (src, bpp)
  let src := collapsed.1
  let bpp := collapsed.2
  let src := if bpp ≥ 3 then swap_rb src (w * h) bpp else src
  (src, bpp, palette)

/-- The pixel loop of the BC3n block of `write_layer`: alpha := red, red := 255. -/
def bc3n_pixels (src : List Nat) (w h : Nat) : List Nat :=
  (List.range h).foldl (fun src y =>
    (List.range w).foldl (fun src x =>
      let src := src.set (y * (w * 4) + (x * 4) + 3) (src.getD (y * (w * 4) + (x * 4) + 2) 0)
      src.set (y * (w * 4) + (x * 4) + 2) 255) src) src

/-- The pixel loop of the RXGB block of `write_layer`: red and alpha are exchanged. -/
def rxgb_pixels (src : List Nat) (w h : Nat) : List Nat :=
  (List.range h).foldl (fun src y =>
    (List.range w).foldl (fun src x =>
      let c := src.getD (y * (w * 4) + (x * 4) + 3) 0
      let src := src.set (y * (w * 4) + (x * 4) + 3) (src.getD (y * (w * 4) + (x * 4) + 2) 0)
      src.set (y * (w * 4) + (x * 4) + 2) c) src) src

/-- The four blocks of `write_layer` that prepare the pixels for BC3n, RXGB, YCoCg and
YCoCgS, and AExp. Gives `src` and the working `bpp`. -/
def write_layer_precondition (k : Kernels) (compression : Compression) (w h : Nat)
    (src : List Nat) (bpp : Nat) (palette : Option (List Nat)) : List Nat × Nat :=
  let s : List Nat × Nat :=
    if compression = Compression.BC3N then
      let s : List Nat × Nat :=
        if bpp ≠ 4 then
          (buffer_of (w * h * 4) (convert_pixels k src PixelFormat.RGBA8 w h 0 bpp palette 1), 4)
        else (src, bpp)
      (bc3n_pixels s.1 w h, s.2)
    else (src, bpp)
  let s : List Nat × Nat :=
    if compression = Compression.RXGB then
      let s : List Nat × Nat :=
        if s.2 ≠ 4 then
          (buffer_of (w * h * 4) (convert_pixels k s.1 PixelFormat.RGBA8 w h 0 s.2 palette 1), 4)
        else s
      (rxgb_pixels s.1 w h, s.2)
    else s
  let s : List Nat × Nat :=
    if compression = Compression.YCOCG ∨ compression = Compression.YCOCGS then
      (buffer_of (w * h * 4) (convert_pixels k s.1 PixelFormat.YCOCG w h 0 s.2 palette 1), 4)
    else s
  if compression = Compression.AEXP then
    (buffer_of (w * h * 4) (convert_pixels k s.1 PixelFormat.AEXP w h 0 s.2 palette 1), 4)
  else s

/-- The mipmap chain of `write_layer`, built in a buffer of `size` bytes from `src`:
by `generate_mipmaps` for the mode Generate, and otherwise by the `memcpy` of level 0
followed by `get_mipmap_chain`. -/
def write_layer_chain (k : Kernels) (image : Image) (drawable : Layer) (config : Config)
    (w h bpp : Nat) (src : List Nat) (indexed : Bool) (num_mipmaps size : Nat) :
    Option (List Nat) :=
  if config.mipmaps = MipmapMode.GENERATE then
    some (buffer_of size (k.generate_mipmaps src w h bpp indexed num_mipmaps config))
  else
    match get_mipmap_chain k w h bpp image drawable with
    | none => none
    | some chain => some (buffer_of size (buffer_of (w * h * bpp) src ++ chain))

/-- The loop `for (i = 0; i < num_mipmaps; ++i)` of `write_layer` that writes the levels
of `dst`; `n` rounds are left, `i` is the level and `offset` its start. A read past the
end of `dst` gives 0. -/
def write_layer_levels (w h bpp : Nat) (dst : List Nat) : Nat → Nat → Nat → FILE → FILE
  | 0, _, _, fp => fp
  | n + 1, i, offset, fp =>
    let size := get_mipmapped_size w h bpp i 1 Compression.NONE
    write_layer_levels w h bpp dst n (i + 1) (offset + size)
      (fwrite fp (buffer_of size (dst.drop offset)))

/-- The arm `if (compression == DDS_COMPRESS_NONE)` of `write_layer`. -/
def write_layer_uncompressed (k : Kernels) (fp : FILE) (image : Image) (drawable : Layer)
    (config : Config) (w h : Nat) (src : List Nat) (bpp : Nat) (palette : Option (List Nat))
    (fmtbpp num_mipmaps : Nat) : Option FILE :=
  let pixel_format := config.format
  let basetype := image.base_type
  if num_mipmaps > 1 then
    let s : List Nat × Nat × Option (List Nat) :=
      if pixel_format ≠ PixelFormat.DEFAULT ∧ basetype = GimpImageBaseType.INDEXED then
        (buffer_of (get_mipmapped_size w h 3 0 num_mipmaps Compression.NONE)
          (convert_pixels k src PixelFormat.RGB8 w h 0 bpp palette 1), 3, none)
      else (src, bpp, palette)
    let src := s.1
    let bpp := s.2.1
    let palette := s.2.2
    let size := get_mipmapped_size w h bpp 0 num_mipmaps Compression.NONE
    match write_layer_chain k image drawable config w h bpp src palette.isSome num_mipmaps
      size with
    | none => none
    | some dst =>
      let d : List Nat × Nat :=
        if pixel_format ≠ PixelFormat.DEFAULT then
          (buffer_of (get_mipmapped_size w h fmtbpp 0 num_mipmaps Compression.NONE)
            (convert_pixels k dst pixel_format w h 0 bpp palette num_mipmaps), fmtbpp)
        else (dst, bpp)
      some (write_layer_levels w h d.2 d.1 num_mipmaps 0 0 fp)
  else
    let s : List Nat × Nat :=
      if pixel_format ≠ PixelFormat.DEFAULT then
        (buffer_of (h * w * fmtbpp) (convert_pixels k src pixel_format w h 0 bpp palette 1),
          fmtbpp)
      else (src, bpp)
    some (fwrite fp (buffer_of (h * w * s.2) s.1))

/-- The `else` arm of `if (compression == DDS_COMPRESS_NONE)` in `write_layer`. -/
def write_layer_compressed (k : Kernels) (fp : FILE) (image : Image) (drawable : Layer)
    (config : Config) (w h : Nat) (src : List Nat) (bpp : Nat) (palette : Option (List Nat))
    (num_mipmaps : Nat) : Option FILE :=
  let compression := config.compression
  let basetype := image.base_type
  let size := get_mipmapped_size w h bpp 0 num_mipmaps compression
  let s : List Nat × Nat :=
    if basetype = GimpImageBaseType.INDEXED then
      (buffer_of (get_mipmapped_size w h 3 0 num_mipmaps Compression.NONE)
        (convert_pixels k src PixelFormat.RGB8 w h 0 bpp palette num_mipmaps), 3)
    else (src, bpp)
  let src := s.1
  let bpp := s.2
  let src? : Option (List Nat) :=
    if num_mipmaps > 1 then
      write_layer_chain k image drawable config w h bpp src false num_mipmaps
        (get_mipmapped_size w h bpp 0 num_mipmaps Compression.NONE)
    else some src
  match src? with
  | none => none
  | some src =>
    let flags := 0
    let flags := if config.perceptual_metric then flags ||| k.DXT_PERCEPTUAL else flags
    let dst := buffer_of size (k.dxt_compress src compression w h bpp num_mipmaps flags)
    some (fwrite fp dst)

/-- The function `write_layer (fp, image, drawable, config, w, h, bpp, fmtbpp,
num_mipmaps)`: the stream afterwards, or `none` when `get_mipmap_chain` runs past the
end of the layer list. -/
def write_layer (k : Kernels) (fp : FILE) (image : Image) (drawable : Layer) (config : Config)
    (w h bpp fmtbpp num_mipmaps : Nat) : Option FILE :=
  let fetched := write_layer_fetch k image drawable w h bpp
  let palette := fetched.2.2
  let s := write_layer_precondition k config.compression w h fetched.1 fetched.2.1 palette
  if config.compression = Compression.NONE then
    write_layer_uncompressed k fp image drawable config w h s.1 s.2 palette fmtbpp num_mipmaps
  else
    write_layer_compressed k fp image drawable config w h s.1 s.2 palette num_mipmaps

/-- The integer that `convert_pixels` stores for a pixel (r, g, b, a) in one of the five
packed formats (the argument of `PUTL16`, of `PUTL32`, or the byte stored for R3G3B2);
0 for the other formats. -/
def packed_value (format : PixelFormat) (r g b a : Nat) : Nat :=
  match format with
  | PixelFormat.R5G6B5 => pack_r5g6b5 r g b
  | PixelFormat.RGBA4 => pack_rgba4 r g b a
  | PixelFormat.RGB5A1 => pack_rgb5a1 r g b a
  | PixelFormat.RGB10A2 => pack_rgb10a2 r g b a
  | PixelFormat.R3G3B2 => pack_r3g3b2 r g b
  | _ => 0

/-! ## write_volume_mipmaps -/

/-- The loop `for (i = 0, list = layers; i < d; ++i, list = g_list_next (list))` of
`write_volume_mipmaps`: the bytes that the `d` calls of `gegl_buffer_get` store to
`src`, slice after slice; `none` when `list` is `NULL` at `list->data`. -/
def write_volume_fetch (k : Kernels) (w h bpp : Nat) : Nat → List Layer → Option (List Nat)
  | 0, _ => some []
  | d + 1, list =>
    match list with
    | [] => none
    | layer :: rest =>
      match write_volume_fetch k w h bpp d rest with
      | none => none
      | some bytes =>
        some (buffer_of (w * h * bpp)
          (k.gegl_buffer_get layer w h (babl_format_of_bpp bpp)) ++ bytes)

/-- The function `write_volume_mipmaps (fp, image, config, layers, w, h, d, bpp, fmtbpp,
num_mipmaps)`: the stream afterwards, or `none` when the data of a `NULL` list node is
read. `generate_volume_mipmaps` is the volume mipmap generator of mipmap.c (source
pixels, `w`, `h`, `d`, `bpp`, `indexed`, number of levels; the filter settings are read
from the configuration). The last statement is `fwrite (dst + offset, 1, size, fp)`:
`size` bytes are written from `offset` on, and a read past the end of `dst` gives 0. -/
def write_volume_mipmaps (k : Kernels)
    (generate_volume_mipmaps : List Nat → Nat → Nat → Nat → Nat → Bool → Nat → Config → List Nat)
    (fp : FILE) (image : Image) (config : Config) (layers : List Layer)
    (w h d bpp fmtbpp num_mipmaps : Nat) : Option FILE :=
  let compression := config.compression
  let pixel_format := config.format
  let type := image.base_type
  if compression ≠ Compression.NONE then some fp
  else
    let palette : Option (List Nat) :=
      if image.base_type = GimpImageBaseType.INDEXED then
        some (colormap_bytes image.colormap)
      else none
    match write_volume_fetch k w h bpp d layers with
    | none => none
    | some fetched =>
      let src := buffer_of (w * h * bpp * d) fetched
      match layers with
      | [] => none
      | first :: _ =>
        let collapsed : List Nat × Nat :=
          if first.type = GimpImageType.INDEXEDA_IMAGE then
            ((List.range (w * h * d)).map (fun i => src.getD (2 * i) 0), 1)
          else (src, bpp)
        let src := collapsed.1
        let bpp := collapsed.2
        let src := if bpp ≥ 3 then swap_rb src (w * h * d) bpp else src
        let s : List Nat × Nat × Option (List Nat) :=
          if pixel_format ≠ PixelFormat.DEFAULT ∧ type = GimpImageBaseType.INDEXED then
            (buffer_of (get_volume_mipmapped_size w h d 3 0 num_mipmaps Compression.NONE)
              (convert_pixels k src PixelFormat.RGB8 w h d bpp palette 1), 3, none)
          else (src, bpp, palette)
        let src := s.1
        let bpp := s.2.1
        let palette := s.2.2
        let size := get_volume_mipmapped_size w h d bpp 0 num_mipmaps compression
        let offset := get_volume_mipmapped_size w h d bpp 0 1 compression
        let dst :=
          buffer_of size
            (generate_volume_mipmaps src w h d bpp palette.isSome num_mipmaps config)
        let t : List Nat × Nat × Nat :=
          if pixel_format ≠ PixelFormat.DEFAULT then
            (buffer_of (get_volume_mipmapped_size w h d fmtbpp 0 num_mipmaps compression)
              (convert_pixels k dst pixel_format w h d bpp palette num_mipmaps),
              get_volume_mipmapped_size w h d fmtbpp 0 num_mipmaps compression,
              get_volume_mipmapped_size w h d fmtbpp 0 1 compression)
          else (dst, size, offset)
        let dst := t.1
        let size := t.2.1
        let offset := t.2.2
        some (fwrite fp (buffer_of size (dst.drop offset)))

/-! ## Concrete inputs -/

/-- An RGBA layer. -/
def rgba_layer (id : Nat) (name : String) (width height : Nat) : Layer :=
  { id := id, name := name, width := width, height := height,
    type := GimpImageType.RGBA_IMAGE }

/-- The empty `cubemap_faces` array. -/
def no_faces : Faces := fun _ => none

/-- Six 16x16 RGBA layers named "positive x" to "negative z" in a 16x16 image. -/
def cube_six : Image :=
  { width := 16, height := 16, base_type := GimpImageBaseType.RGB,
    layers :=
      [ rgba_layer 1 "positive x" 16 16, rgba_layer 2 "negative x" 16 16,
        rgba_layer 3 "positive y" 16 16, rgba_layer 4 "negative y" 16 16,
        rgba_layer 5 "positive z" 16 16, rgba_layer 6 "negative z" 16 16 ] }

/-- A 2x2 cube map with an existing mipmap chain: each face is followed by its 1x1
level. -/
def cube_mipmapped : Image :=
  { width := 2, height := 2, base_type := GimpImageBaseType.RGB,
    layers :=
      [ rgba_layer 1 "positive x" 2 2, rgba_layer 2 "mip" 1 1,
        rgba_layer 3 "negative x" 2 2, rgba_layer 4 "mip" 1 1,
        rgba_layer 5 "positive y" 2 2, rgba_layer 6 "mip" 1 1,
        rgba_layer 7 "negative y" 2 2, rgba_layer 8 "mip" 1 1,
        rgba_layer 9 "positive z" 2 2, rgba_layer 10 "mip" 1 1,
        rgba_layer 11 "negative z" 2 2, rgba_layer 12 "mip" 1 1 ] }

/-- The layers of `cube_mipmapped` with the first two face blocks exchanged. -/
def cube_mipmapped_swapped : Image :=
  { width := 2, height := 2, base_type := GimpImageBaseType.RGB,
    layers :=
      [ rgba_layer 3 "negative x" 2 2, rgba_layer 4 "mip" 1 1,
        rgba_layer 1 "positive x" 2 2, rgba_layer 2 "mip" 1 1,
        rgba_layer 5 "positive y" 2 2, rgba_layer 6 "mip" 1 1,
        rgba_layer 7 "negative y" 2 2, rgba_layer 8 "mip" 1 1,
        rgba_layer 9 "positive z" 2 2, rgba_layer 10 "mip" 1 1,
        rgba_layer 11 "negative z" 2 2, rgba_layer 12 "mip" 1 1 ] }

/-- The layers of `cube_mipmapped` with the six faces first and the six 1x1 levels
after them. -/
def cube_mipmapped_faces_first : Image :=
  { width := 2, height := 2, base_type := GimpImageBaseType.RGB,
    layers :=
      [ rgba_layer 1 "positive x" 2 2, rgba_layer 3 "negative x" 2 2,
        rgba_layer 5 "positive y" 2 2, rgba_layer 7 "negative y" 2 2,
        rgba_layer 9 "positive z" 2 2, rgba_layer 11 "negative z" 2 2,
        rgba_layer 2 "mip" 1 1, rgba_layer 4 "mip" 1 1, rgba_layer 6 "mip" 1 1,
        rgba_layer 8 "mip" 1 1, rgba_layer 10 "mip" 1 1, rgba_layer 12 "mip" 1 1 ] }

/-- Six 8x8 RGBA layers in a 16x16 image; the first two layers carry the names of all
six faces. -/
def cube_small_faces : Image :=
  { width := 16, height := 16, base_type := GimpImageBaseType.RGB,
    layers :=
      [ rgba_layer 1 "+x -x +y" 8 8, rgba_layer 2 "-y +z -z" 8 8,
        rgba_layer 3 "c" 8 8, rgba_layer 4 "d" 8 8,
        rgba_layer 5 "e" 8 8, rgba_layer 6 "f" 8 8 ] }

/-- A host for concrete runs: `g_fopen` succeeds with a device that accepts `capacity`
bytes, the dialog is accepted without any change to the configuration, the duplicate
of an image is an identical image, and the payload writers send nothing. -/
def quiet_host (capacity : Nat) : Host :=
  { DDS_PLUGIN_VERSION := 0
    dxgi_code := fun _ => 0
    g_fopen := some { capacity := capacity, data := [], error := false }
    dialog_run := fun config => (config, true)
    gimp_image_duplicate := fun image => image
    selected_drawable := fun image => image.layers.headD (rgba_layer 0 "" 0 0)
    gimp_image_merge_visible_layers := fun image => image.layers.headD (rgba_layer 0 "" 0 0)
    write_layer := fun fp _ _ _ _ _ _ _ _ => fp
    write_volume_mipmaps := fun fp _ _ _ _ _ _ _ _ _ => fp }

/-- A 4x4 image with a single 4x4 RGBA layer. -/
def single_layer_image : Image :=
  { width := 4, height := 4, base_type := GimpImageBaseType.RGB,
    layers := [rgba_layer 1 "Background" 4 4] }

/-- Uncompressed, default format, selected layer, with the given mipmap mode. -/
def plain_config (mipmaps : MipmapMode) : Config :=
  { compression := Compression.NONE, format := PixelFormat.DEFAULT, mipmaps := mipmaps,
    savetype := SaveType.SELECTED_LAYER, transparent_index := 0, flip_image := false,
    perceptual_metric := false }

/-- The configuration `plain_config` with the save type "as cube map". -/
def cubemap_config : Config :=
  { plain_config MipmapMode.NONE with savetype := SaveType.CUBEMAP }

/-! ## Further concrete inputs -/

/-- The base type of an image that holds a drawable of the given type (libgimp: the
type of a drawable is the base type of its image, with or without an alpha channel). -/
def drawable_base_type : GimpImageType → GimpImageBaseType
  | GimpImageType.RGB_IMAGE => GimpImageBaseType.RGB
  | GimpImageType.RGBA_IMAGE => GimpImageBaseType.RGB
  | GimpImageType.GRAY_IMAGE => GimpImageBaseType.GRAY
  | GimpImageType.GRAYA_IMAGE => GimpImageBaseType.GRAY
  | GimpImageType.INDEXED_IMAGE => GimpImageBaseType.INDEXED
  | GimpImageType.INDEXEDA_IMAGE => GimpImageBaseType.INDEXED

/-- A stream on a device that accepts `capacity` bytes, with nothing written yet. -/
def empty_stream (capacity : Nat) : FILE :=
  { capacity := capacity, data := [], error := false }

/-- An 8x8 RGB layer. -/
def rgb_layer_8x8 : Layer :=
  { id := 1, name := "Background", width := 8, height := 8, type := GimpImageType.RGB_IMAGE }

/-- An 8x8 image with a single 8x8 RGB layer. -/
def rgb_image_8x8 : Image :=
  { width := 8, height := 8, base_type := GimpImageBaseType.RGB, layers := [rgb_layer_8x8] }

/-- Selected layer, BC1, generated mipmaps. -/
def bc1_mipmap_config : Config :=
  { compression := Compression.BC1, format := PixelFormat.DEFAULT,
    mipmaps := MipmapMode.GENERATE, savetype := SaveType.SELECTED_LAYER,
    transparent_index := 0, flip_image := false, perceptual_metric := false }

/-- A 2x2 indexed layer. -/
def indexed_layer_2x2 : Layer :=
  { id := 1, name := "Background", width := 2, height := 2,
    type := GimpImageType.INDEXED_IMAGE }

/-- A 2x2 indexed image with the palette {(255,0,0), (0,255,0)}. -/
def indexed_image_2x2 : Image :=
  { width := 2, height := 2, base_type := GimpImageBaseType.INDEXED,
    layers := [indexed_layer_2x2], colormap := [(255, 0, 0), (0, 255, 0)] }

/-- Uncompressed, selected layer, no mipmaps, with the given pixel format. -/
def format_config (format : PixelFormat) : Config :=
  { plain_config MipmapMode.NONE with format := format }

/-- A 4x4 image with two 4x4 RGBA layers. -/
def array_image : Image :=
  { width := 4, height := 4, base_type := GimpImageBaseType.RGB,
    layers := [rgba_layer 1 "a" 4 4, rgba_layer 2 "b" 4 4] }

/-- Uncompressed, default format, no mipmaps, saved as a texture array. -/
def array_config : Config :=
  { plain_config MipmapMode.NONE with savetype := SaveType.ARRAY }

/-- Kernels for concrete runs: every fetched pixel is the canonical RGBA pixel
(3, 2, 1, 4), the mipmap generator and the block compressor store nothing, and the
colour helpers give the green channel and the alpha byte. -/
def plain_kernels : Kernels :=
  { gegl_buffer_get := fun _ w h _ => (List.replicate (w * h) [3, 2, 1, 4]).flatten
    generate_mipmaps := fun _ _ _ _ _ _ _ => []
    dxt_compress := fun _ _ _ _ _ _ _ => []
    DXT_PERCEPTUAL := 1
    rgb_to_luminance := fun _ g _ => g
    RGB_to_YCoCg := fun a _ _ _ => [a, 0, 0, 0] }

/-- A 3x3 image with an existing mipmap chain: a 3x3 RGBA layer followed by its 1x1
level. -/
def chain_image_3x3 : Image :=
  { width := 3, height := 3, base_type := GimpImageBaseType.RGB,
    layers := [rgba_layer 1 "Background" 3 3, rgba_layer 2 "mip" 1 1] }

/-- A 2x2 image with twelve layers in six blocks of a 2x2 layer and its 1x1 level; the
first 2x2 layer carries the names of the faces +X and -X, the second the name of no
face. -/
def cube_shared_face : Image :=
  { width := 2, height := 2, base_type := GimpImageBaseType.RGB,
    layers :=
      [ rgba_layer 1 "+x -x" 2 2, rgba_layer 2 "mip" 1 1,
        rgba_layer 3 "other" 2 2, rgba_layer 4 "mip" 1 1,
        rgba_layer 5 "+y" 2 2, rgba_layer 6 "mip" 1 1,
        rgba_layer 7 "-y" 2 2, rgba_layer 8 "mip" 1 1,
        rgba_layer 9 "+z" 2 2, rgba_layer 10 "mip" 1 1,
        rgba_layer 11 "-z" 2 2, rgba_layer 12 "mip" 1 1 ] }

/-- A 4x4 image with three 4x4 RGBA layers. -/
def three_layer_image : Image :=
  { width := 4, height := 4, base_type := GimpImageBaseType.RGB,
    layers := [rgba_layer 1 "a" 4 4, rgba_layer 2 "b" 4 4, rgba_layer 3 "c" 4 4] }

/-- Uncompressed, default format, saved as a volume map, with the given mipmap mode. -/
def volume_config (mipmaps : MipmapMode) : Config :=
  { plain_config mipmaps with savetype := SaveType.VOLUMEMAP }

/-- A 2x2 image with two 2x2 RGBA layers: a volume of two slices. -/
def volume_image_2x2 : Image :=
  { width := 2, height := 2, base_type := GimpImageBaseType.RGB,
    layers := [rgba_layer 1 "slice 0" 2 2, rgba_layer 2 "slice 1" 2 2] }

/-- A 4x4 image whose 4x4 layer is followed by a 3x3 layer and a 1x1 layer: the layer
after the first one does not have the size 2x2 of level 1. -/
def broken_chain_image : Image :=
  { width := 4, height := 4, base_type := GimpImageBaseType.RGB,
    layers := [rgba_layer 1 "Background" 4 4, rgba_layer 2 "mip" 3 3, rgba_layer 3 "mip" 1 1] }

/-- The row of `format_info` for R5G6B5. -/
def r5g6b5_row : FormatInfo :=
  ⟨PixelFormat.R5G6B5, DXGI_FORMAT.B5G6R5_UNORM, 2, 0, 0x0000f800, 0x000007e0, 0x0000001f,
    0x00000000⟩

/-! # Theorems -/

theorem floor_log2_eq_log (fuel n : Nat) (h : n ≤ fuel) : floor_log2 fuel n = Nat.log 2 n := by
  induction fuel generalizing n with
  | zero =>
    have : n = 0 := by omega
    subst this
    simp [floor_log2]
  | succ fuel ih =>
    unfold floor_log2
    by_cases hn : n < 2
    · simp [hn, Nat.log_of_lt hn]
    · have h2 : 2 ≤ n := by omega
      rw [if_neg hn, ih (n / 2) (by omega), Nat.log_of_one_lt_of_le (by decide) h2]
      omega

theorem get_num_mipmaps_eq (w h : Nat) : get_num_mipmaps w h = 1 + Nat.log 2 (max w h) := by
  unfold get_num_mipmaps
  rw [floor_log2_eq_log _ _ le_rfl]

theorem get_num_mipmaps_pos (w h : Nat) : 1 ≤ get_num_mipmaps w h := by
  unfold get_num_mipmaps
  omega

/-- Number of layers of size `(w, h)`. -/
theorem check_mipmaps_count_some (ty : GimpImageType) (w h : Nat) (l : List Layer) (n : Nat)
    (hall : ∀ x ∈ l, x.type = ty) :
    check_mipmaps_count ty w h l n =
      some (n + (l.filter (fun x => decide (x.width = w ∧ x.height = h))).length) := by
  induction l generalizing n with
  | nil => simp [check_mipmaps_count]
  | cons a l ih =>
    have ha : a.type = ty := hall a (List.mem_cons_self _ _)
    have hl : ∀ x ∈ l, x.type = ty := fun x hx => hall x (List.mem_cons_of_mem _ hx)
    unfold check_mipmaps_count
    rw [if_neg (by simp [ha])]
    by_cases hsz : a.width = w ∧ a.height = h
    · rw [if_pos hsz, ih _ hl, List.filter_cons_of_pos (by simpa using hsz)]
      simp only [List.length_cons]
      congr 1
      omega
    · rw [if_neg hsz, ih _ hl, List.filter_cons_of_neg (by simpa using hsz)]

theorem check_mipmaps_count_none (ty : GimpImageType) (w h : Nat) (l : List Layer) (n : Nat)
    (hall : ¬ ∀ x ∈ l, x.type = ty) :
    check_mipmaps_count ty w h l n = none := by
  induction l generalizing n with
  | nil => exact absurd (by simp) hall
  | cons a l ih =>
    unfold check_mipmaps_count
    by_cases ha : ty = a.type
    · have hl : ¬ ∀ x ∈ l, x.type = ty := by
        intro hl
        apply hall
        intro x hx
        rcases List.mem_cons.mp hx with rfl | hx
        · exact ha.symm
        · exact hl x hx
      rw [if_neg (by simp [ha])]
      split
      · exact ih _ hl
      · exact ih _ hl
    · rw [if_pos ha]

theorem mip_dim_eq (w j : Nat) : (if w >>> j < 1 then 1 else w >>> j) = max 1 (w >>> j) := by
  split <;> omega

theorem check_mipmaps_levels_spec (layers : List Layer) (w h m i : Nat)
    (hi : i + m ≤ layers.length) :
    ∀ fuel j, m - j < fuel →
      ∃ b, check_mipmaps_levels layers w h m i fuel j = some b ∧
        (b = true ↔ ∀ j2, j ≤ j2 → j2 < m → LevelSize layers w h (i + j2) j2) := by
  intro fuel
  induction fuel with
  | zero => intro j hj; omega
  | succ fuel ih =>
    intro j hj
    unfold check_mipmaps_levels
    by_cases hjm : j < m
    · rw [if_pos hjm]
      have hlt : i + j < layers.length := by omega
      have hget : layers.get? (i + j) = some (layers[i + j]) := by
        simp [List.getElem?_eq_getElem hlt]
      rw [hget]
      simp only [mip_dim_eq]
      by_cases hsz : layers[i + j].width ≠ max 1 (w >>> j) ∨ layers[i + j].height ≠ max 1 (h >>> j)
      · rw [if_pos hsz]
        refine ⟨false, rfl, ?_⟩
        constructor
        · intro hf; cases hf
        · intro hall
          exfalso
          have := hall j le_rfl hjm (layers[i + j]) (List.getElem?_eq_getElem hlt)
          omega
      · rw [if_neg hsz]
        obtain ⟨b, hb, hiff⟩ := ih (j + 1) (by omega)
        refine ⟨b, hb, ?_⟩
        rw [hiff]
        constructor
        · intro hall j2 hj2 hj2m
          rcases Nat.eq_or_lt_of_le hj2 with rfl | hlt2
          · intro d hd
            rw [List.getElem?_eq_getElem hlt] at hd
            cases hd
            omega
          · exact hall j2 hlt2 hj2m
        · intro hall j2 hj2 hj2m
          exact hall j2 (by omega) hj2m
    · rw [if_neg hjm]
      refine ⟨true, rfl, ?_⟩
      simp only [true_iff]
      intro j2 hj2 hj2m
      omega

theorem check_mipmaps_surfaces_spec (layers : List Layer) (w h m s : Nat)
    (hm : 1 ≤ m) (hN : layers.length = s * m) :
    ∀ fuel q, q ≤ s → s - q < fuel →
      ∃ b, check_mipmaps_surfaces layers w h m layers.length fuel (q * m) = some b ∧
        (b = true ↔ ∀ k, q * m ≤ k → k < layers.length → BlockSize layers w h k (k % m)) := by
  intro fuel
  induction fuel with
  | zero => intro q _ hq; omega
  | succ fuel ih =>
    intro q hqs hq
    unfold check_mipmaps_surfaces
    by_cases hlt : q * m < layers.length
    · rw [if_pos hlt]
      have hq1 : q < s := by
        rw [hN] at hlt
        exact Nat.lt_of_mul_lt_mul_right hlt
      have hnext : q * m + m ≤ layers.length := by
        rw [hN]
        calc q * m + m = (q + 1) * m := by ring
          _ ≤ s * m := Nat.mul_le_mul_right m hq1
      have hget : layers.get? (q * m) = some (layers[q * m]) := by
        simp [List.getElem?_eq_getElem hlt]
      rw [hget]
      simp only
      have hmod0 : (q * m) % m = 0 := Nat.mul_mod_left q m
      by_cases hsz : layers[q * m].width ≠ w ∨ layers[q * m].height ≠ h
      · rw [if_pos hsz]
        refine ⟨false, rfl, ?_⟩
        constructor
        · intro hf; cases hf
        · intro hall
          exfalso
          have := hall (q * m) le_rfl hlt (layers[q * m]) (List.getElem?_eq_getElem hlt)
          rw [hmod0] at this
          simp only [if_true] at this
          omega
      · rw [if_neg hsz]
        obtain ⟨bl, hbl, hliff⟩ := check_mipmaps_levels_spec layers w h m (q * m) hnext m 1 (by omega)
        rw [hbl]
        have hblock : ∀ k, q * m ≤ k → k < q * m + m → k % m = k - q * m := by
          intro k hk1 hk2
          obtain ⟨r, rfl⟩ := Nat.exists_eq_add_of_le hk1
          rw [Nat.add_comm (q * m) r, Nat.add_mul_mod_self_right, Nat.mod_eq_of_lt (by omega)]
          omega
        cases bl with
        | false =>
          refine ⟨false, rfl, ?_⟩
          constructor
          · intro hf; cases hf
          · intro hall
            have : (false = true) := by
              rw [hliff]
              intro j2 hj1 hj2
              have := hall (q * m + j2) (by omega) (by omega)
              rw [hblock _ (by omega) (by omega)] at this
              have hj : q * m + j2 - q * m = j2 := by omega
              rw [hj] at this
              intro d hd
              have := this d hd
              rw [if_neg (by omega), if_neg (by omega)] at this
              exact this
            cases this
        | true =>
          have hl := hliff.mp rfl
          obtain ⟨b, hb, hiff⟩ := ih (q + 1) hq1 (by omega)
          have hidx : (q + 1) * m = q * m + m := by ring
          rw [hidx] at hb hiff
          refine ⟨b, hb, ?_⟩
          rw [hiff]
          constructor
          · intro hall k hk1 hk2
            by_cases hkb : k < q * m + m
            · rw [hblock k hk1 hkb]
              rcases Nat.eq_or_lt_of_le hk1 with rfl | hlt2
              · intro d hd
                rw [List.getElem?_eq_getElem hlt] at hd
                cases hd
                simp only [Nat.sub_self, if_true]
                omega
              · have := hl (k - q * m) (by omega) (by omega)
                have hk : q * m + (k - q * m) = k := by omega
                rw [hk] at this
                intro d hd
                have := this d hd
                rw [if_neg (by omega), if_neg (by omega)]
                exact this
            · exact hall k (by omega) hk2
          · intro hall k hk1 hk2
            exact hall k (by omega) hk2
    · rw [if_neg hlt]
      refine ⟨true, rfl, ?_⟩
      simp only [true_iff]
      intro k hk1 hk2
      omega

/-- C1. For every image with a non-empty layer list and W, H >= 1, and every save type,
`check_mipmaps` returns a flag `b`. For Volumemap `b` is false. Otherwise `b` is true
exactly when (a) every layer has the type of the first layer, (b) the number `s` of
layers of size (W, H) lies within the bounds of the save type, (6, 6) for Cubemap,
(2, INT_MAX) for Array and (1, 1) otherwise, (c) the layer count is `s * m` with
`m = 1 + floor (log2 (max W H))`, and (d) every layer at index `i` has size
`(max 1 (W >> (i mod m)), max 1 (H >> (i mod m)))`. -/
theorem check_mipmaps_characterisation (img : Image) (st : SaveType)
    (hne : img.layers ≠ []) (hW : 1 ≤ img.width) (hH : 1 ≤ img.height) :
    ∃ b, check_mipmaps img st = some b ∧
      (st = SaveType.VOLUMEMAP → b = false) ∧
      (st ≠ SaveType.VOLUMEMAP →
        (b = true ↔
          (∀ l ∈ img.layers, some l.type = img.layers.head?.map Layer.type) ∧
          (spec_surface_bounds st).1 ≤
            (img.layers.filter
              (fun l => decide (l.width = img.width ∧ l.height = img.height))).length ∧
          (img.layers.filter
              (fun l => decide (l.width = img.width ∧ l.height = img.height))).length ≤
            (spec_surface_bounds st).2 ∧
          img.layers.length =
            (img.layers.filter
              (fun l => decide (l.width = img.width ∧ l.height = img.height))).length *
              (1 + Nat.log 2 (max img.width img.height)) ∧
          ∀ i, i < img.layers.length → ∀ l, img.layers[i]? = some l →
            l.width = max 1 (img.width >>> (i % (1 + Nat.log 2 (max img.width img.height)))) ∧
            l.height = max 1 (img.height >>> (i % (1 + Nat.log 2 (max img.width img.height)))))) := by
  by_cases hst : st = SaveType.VOLUMEMAP
  · refine ⟨false, ?_, fun _ => rfl, fun h => absurd hst h⟩
    simp [check_mipmaps, hst]
  · obtain ⟨first, rest, hl⟩ := List.exists_cons_of_ne_nil hne
    unfold check_mipmaps
    rw [if_neg hst]
    have hmin : (if st = SaveType.CUBEMAP then 6 else if st = SaveType.ARRAY then 2 else 1) =
        (spec_surface_bounds st).1 := by
      cases st <;> rfl
    have hmax : (if st = SaveType.CUBEMAP then 6 else if st = SaveType.ARRAY then INT_MAX else 1) =
        (spec_surface_bounds st).2 := by
      cases st <;> rfl
    simp only [hl, get_num_mipmaps_eq, hmin, hmax]
    rw [← hl]
    generalize (spec_surface_bounds st).1 = mn
    generalize (spec_surface_bounds st).2 = mx
    by_cases hall : ∀ x ∈ img.layers, x.type = first.type
    · rw [check_mipmaps_count_some _ _ _ _ _ hall, Nat.zero_add]
      generalize hs : (img.layers.filter
        (fun l => decide (l.width = img.width ∧ l.height = img.height))).length = s
      generalize hm : 1 + Nat.log 2 (max img.width img.height) = m
      have hm1 : 1 ≤ m := by omega
      have htypes : ∀ l ∈ img.layers, some l.type = img.layers.head?.map Layer.type := by
        intro l hmem
        rw [hl]
        simp only [List.head?_cons, Option.map_some']
        rw [hall l hmem]
      simp only
      by_cases hbad : s < mn ∨ s > mx ∨ img.layers.length ≠ s * m
      · rw [if_pos hbad]
        refine ⟨false, rfl, fun h => absurd h hst, fun _ => ?_⟩
        constructor
        · intro hf; cases hf
        · rintro ⟨_, h1, h2, h3, _⟩
          omega
      · rw [if_neg hbad]
        obtain ⟨b, hb, hiff⟩ := check_mipmaps_surfaces_spec img.layers img.width img.height m s
          hm1 (by omega) (img.layers.length + 1) 0 (Nat.zero_le _) (by
            have : s * 1 ≤ s * m := Nat.mul_le_mul_left s hm1
            omega)
        rw [Nat.zero_mul] at hb hiff
        refine ⟨b, hb, fun h => absurd h hst, fun _ => ?_⟩
        rw [hiff]
        have hclamp : ∀ (x j : Nat), 1 ≤ x → (if j = 0 then x else max 1 (x >>> j)) =
            max 1 (x >>> j) := by
          intro x j hx
          by_cases hj : j = 0
          · subst hj
            simp only [if_true, Nat.shiftRight_zero]
            omega
          · rw [if_neg hj]
        constructor
        · intro hk
          refine ⟨htypes, by omega, by omega, by omega, ?_⟩
          intro i hi l hli
          have := hk i (Nat.zero_le _) hi l hli
          rw [hclamp _ _ hW, hclamp _ _ hH] at this
          exact this
        · rintro ⟨_, _, _, _, hk⟩ k _ hk2 d hd
          rw [hclamp _ _ hW, hclamp _ _ hH]
          exact hk k hk2 d hd
    · rw [check_mipmaps_count_none _ _ _ _ _ hall]
      refine ⟨false, rfl, fun h => absurd h hst, fun _ => ?_⟩
      constructor
      · intro hf; cases hf
      · rintro ⟨ht, _⟩
        exfalso
        apply hall
        intro x hx
        have := ht x hx
        rw [hl] at this
        simpa using this

/-- C1 at the 2x2 cube map with an existing chain, save type Cubemap. -/
theorem check_mipmaps_characterisation_witness :
    ∃ b, check_mipmaps cube_mipmapped SaveType.CUBEMAP = some b ∧
      (SaveType.CUBEMAP = SaveType.VOLUMEMAP → b = false) ∧
      (SaveType.CUBEMAP ≠ SaveType.VOLUMEMAP →
        (b = true ↔
          (∀ l ∈ cube_mipmapped.layers,
            some l.type = cube_mipmapped.layers.head?.map Layer.type) ∧
          (spec_surface_bounds SaveType.CUBEMAP).1 ≤
            (cube_mipmapped.layers.filter (fun l =>
              decide (l.width = cube_mipmapped.width ∧
                l.height = cube_mipmapped.height))).length ∧
          (cube_mipmapped.layers.filter (fun l =>
              decide (l.width = cube_mipmapped.width ∧
                l.height = cube_mipmapped.height))).length ≤
            (spec_surface_bounds SaveType.CUBEMAP).2 ∧
          cube_mipmapped.layers.length =
            (cube_mipmapped.layers.filter (fun l =>
              decide (l.width = cube_mipmapped.width ∧
                l.height = cube_mipmapped.height))).length *
              (1 + Nat.log 2 (max cube_mipmapped.width cube_mipmapped.height)) ∧
          ∀ i, i < cube_mipmapped.layers.length → ∀ l, cube_mipmapped.layers[i]? = some l →
            l.width = max 1 (cube_mipmapped.width >>>
              (i % (1 + Nat.log 2 (max cube_mipmapped.width cube_mipmapped.height)))) ∧
            l.height = max 1 (cube_mipmapped.height >>>
              (i % (1 + Nat.log 2 (max cube_mipmapped.width cube_mipmapped.height)))))) :=
  check_mipmaps_characterisation cube_mipmapped SaveType.CUBEMAP
    (by decide) (by decide) (by decide)

theorem check_mipmaps_some (img : Image) (st : SaveType) (hne : img.layers ≠ []) :
    ∃ b, check_mipmaps img st = some b := by
  by_cases hst : st = SaveType.VOLUMEMAP
  · exact ⟨false, by simp [check_mipmaps, hst]⟩
  · obtain ⟨first, rest, hl⟩ := List.exists_cons_of_ne_nil hne
    unfold check_mipmaps
    rw [if_neg hst]
    simp only [hl]
    rw [← hl]
    cases hc : check_mipmaps_count first.type img.width img.height img.layers 0 with
    | none => exact ⟨false, rfl⟩
    | some s =>
      simp only
      generalize (if st = SaveType.CUBEMAP then 6 else if st = SaveType.ARRAY then 2 else 1) = mn
      generalize
        (if st = SaveType.CUBEMAP then 6 else if st = SaveType.ARRAY then INT_MAX else 1) = mx
      by_cases hbad : s < mn ∨ s > mx ∨
          img.layers.length ≠ s * get_num_mipmaps img.width img.height
      · rw [if_pos hbad]
        exact ⟨false, rfl⟩
      · rw [if_neg hbad]
        have hN : img.layers.length = s * get_num_mipmaps img.width img.height := by omega
        obtain ⟨b, hb, _⟩ := check_mipmaps_surfaces_spec img.layers img.width img.height
          (get_num_mipmaps img.width img.height) s (get_num_mipmaps_pos _ _) hN
          (img.layers.length + 1) 0 (Nat.zero_le _) (by
            have : s * 1 ≤ s * get_num_mipmaps img.width img.height :=
              Nat.mul_le_mul_left s (get_num_mipmaps_pos _ _)
            omega)
        rw [Nat.zero_mul] at hb
        exact ⟨b, hb⟩

/-- An accepted chain has `num_surfaces * num_mipmaps` layers with `num_surfaces`
inside the bounds of the save type. -/
theorem check_mipmaps_true_count (img : Image) (st : SaveType)
    (h : check_mipmaps img st = some true) :
    ∃ s, (if st = SaveType.CUBEMAP then 6 else if st = SaveType.ARRAY then 2 else 1) ≤ s ∧
      s ≤ (if st = SaveType.CUBEMAP then 6 else if st = SaveType.ARRAY then INT_MAX else 1) ∧
      img.layers.length = s * get_num_mipmaps img.width img.height := by
  unfold check_mipmaps at h
  by_cases hst : st = SaveType.VOLUMEMAP
  · rw [if_pos hst] at h
    cases h
  · rw [if_neg hst] at h
    cases hl : img.layers with
    | nil => rw [hl] at h; cases h
    | cons first rest =>
      simp only [hl] at h
      cases hc : check_mipmaps_count first.type img.width img.height (first :: rest) 0 with
      | none => rw [hc] at h; cases h
      | some s =>
        rw [hc] at h
        simp only at h
        by_cases hbad : s < (if st = SaveType.CUBEMAP then 6 else if st = SaveType.ARRAY then 2 else 1) ∨
            s > (if st = SaveType.CUBEMAP then 6 else if st = SaveType.ARRAY then INT_MAX else 1) ∨
            (first :: rest).length ≠ s * get_num_mipmaps img.width img.height
        · rw [if_pos hbad] at h
          cases h
        · exact ⟨s, by omega, by omega, by omega⟩

/-! ## check_volume and check_array -/

theorem layers_same_size_iff (w h : Nat) (l : List Layer) :
    layers_same_size w h l = true ↔ ∀ x ∈ l, x.width = w ∧ x.height = h := by
  induction l with
  | nil => simp [layers_same_size]
  | cons a l ih =>
    unfold layers_same_size
    by_cases ha : a.width ≠ w ∨ a.height ≠ h
    · rw [if_pos ha]
      constructor
      · intro hf; cases hf
      · intro hall
        have := hall a (List.mem_cons_self _ _)
        omega
    · rw [if_neg ha, ih]
      constructor
      · intro hall x hx
        rcases List.mem_cons.mp hx with rfl | hx
        · omega
        · exact hall x hx
      · intro hall x hx
        exact hall x (List.mem_cons_of_mem _ hx)

theorem layers_same_type_iff (ty : GimpImageType) (l : List Layer) :
    layers_same_type ty l = true ↔ ∀ x ∈ l, x.type = ty := by
  induction l with
  | nil => simp [layers_same_type]
  | cons a l ih =>
    unfold layers_same_type
    by_cases ha : a.type ≠ ty
    · rw [if_pos ha]
      constructor
      · intro hf; cases hf
      · intro hall
        exact absurd (hall a (List.mem_cons_self _ _)) ha
    · rw [if_neg ha, ih]
      have ha2 : a.type = ty := not_not.mp ha
      constructor
      · intro hall x hx
        rcases List.mem_cons.mp hx with rfl | hx
        · exact ha2
        · exact hall x hx
      · intro hall x hx
        exact hall x (List.mem_cons_of_mem _ hx)

/-- The uniformity test shared by `check_volume` and the second half of `check_array`:
at least two layers, all of the size and type of the first. -/
theorem uniform_layers_iff (first : Layer) (rest : List Layer) :
    ((first :: rest).length > 1 ∧ layers_same_size first.width first.height rest = true ∧
      layers_same_type first.type rest = true) ↔
    (2 ≤ (first :: rest).length ∧ ∀ l ∈ first :: rest,
      l.width = first.width ∧ l.height = first.height ∧ l.type = first.type) := by
  rw [layers_same_size_iff, layers_same_type_iff]
  constructor
  · rintro ⟨hn, hs, ht⟩
    refine ⟨hn, ?_⟩
    intro l hl
    rcases List.mem_cons.mp hl with rfl | hl
    · exact ⟨rfl, rfl, rfl⟩
    · exact ⟨(hs l hl).1, (hs l hl).2, ht l hl⟩
  · rintro ⟨hn, hall⟩
    refine ⟨hn, ?_, ?_⟩
    · intro x hx
      have := hall x (List.mem_cons_of_mem _ hx)
      exact ⟨this.1, this.2.1⟩
    · intro x hx
      exact (hall x (List.mem_cons_of_mem _ hx)).2.2

theorem check_volume_iff (image : Image) :
    check_volume image = true ↔
      (2 ≤ image.layers.length ∧ ∀ first, image.layers.head? = some first →
        ∀ l ∈ image.layers,
          l.width = first.width ∧ l.height = first.height ∧ l.type = first.type) := by
  unfold check_volume
  cases hl : image.layers with
  | nil => simp
  | cons first rest =>
    have key := uniform_layers_iff first rest
    simp only [List.head?_cons, Option.some.injEq, forall_eq']
    rw [← key]
    by_cases hn : (first :: rest).length > 1
    · by_cases hs : layers_same_size first.width first.height rest = true
      · simp [hn, hs]
      · simp [hn, hs]
    · simp [hn]

/-- C6. For every image, `check_volume` returns true exactly when the image has at
least 2 layers and every layer has the width, the height and the type of the first
layer; it returns false for every image with 0 or 1 layers. -/
theorem check_volume_characterisation (image : Image) :
    (check_volume image = true ↔
      (2 ≤ image.layers.length ∧ ∀ first, image.layers.head? = some first →
        ∀ l ∈ image.layers,
          l.width = first.width ∧ l.height = first.height ∧ l.type = first.type)) ∧
    (image.layers.length ≤ 1 → check_volume image = false) := by
  refine ⟨check_volume_iff image, ?_⟩
  intro hle
  cases hv : check_volume image with
  | false => rfl
  | true =>
    have := ((check_volume_iff image).mp hv).1
    omega

theorem check_array_eq (image : Image) (b : Bool)
    (hb : check_mipmaps image SaveType.ARRAY = some b) :
    check_array image image = some (b || check_volume image) := by
  unfold check_array check_volume
  rw [hb]
  cases b with
  | true => simp
  | false =>
    cases hl : image.layers with
    | nil => simp
    | cons first rest =>
      by_cases hn : 0 < rest.length
      · by_cases hs : layers_same_size first.width first.height rest = true
        · simp [hn, hs]
        · simp [hn, hs]
      · simp [hn]

/-- C7. For every image with a non-empty layer list, with `global_image` set to that
image, `check_mipmaps (Array)` returns a flag `b`, `check_array` returns
`b or check_volume (image)`, and `check_array` is true exactly when `b` is true or the
image has at least 2 layers that all have the width, height and type of the first. -/
theorem check_array_characterisation (image : Image) (hne : image.layers ≠ []) :
    ∃ b, check_mipmaps image SaveType.ARRAY = some b ∧
      check_array image image = some (b || check_volume image) ∧
      (check_array image image = some true ↔
        (b = true ∨
          (2 ≤ image.layers.length ∧ ∀ first, image.layers.head? = some first →
            ∀ l ∈ image.layers,
              l.width = first.width ∧ l.height = first.height ∧ l.type = first.type))) := by
  obtain ⟨b, hb⟩ := check_mipmaps_some image SaveType.ARRAY hne
  have hca := check_array_eq image b hb
  refine ⟨b, hb, hca, ?_⟩
  rw [hca, ← check_volume_iff]
  simp

/-! ## check_cubemap -/

/-- C7 at the 2x2 cube map with an existing chain. -/
theorem check_array_characterisation_witness :
    ∃ b, check_mipmaps cube_mipmapped SaveType.ARRAY = some b ∧
      check_array cube_mipmapped cube_mipmapped = some (b || check_volume cube_mipmapped) ∧
      (check_array cube_mipmapped cube_mipmapped = some true ↔
        (b = true ∨
          (2 ≤ cube_mipmapped.layers.length ∧
            ∀ first, cube_mipmapped.layers.head? = some first →
              ∀ l ∈ cube_mipmapped.layers,
                l.width = first.width ∧ l.height = first.height ∧ l.type = first.type))) :=
  check_array_characterisation cube_mipmapped (by decide)

theorem scan_face_names_eq (layer : Layer) (j : Fin 6) (ks : List Nat) (faces : Faces) :
    scan_face_names layer j ks faces =
      if faces j = none ∧ ks.any (fun k => strstr layer.name (cubemap_face_name k j)) = true then
        Function.update faces j (some layer)
      else faces := by
  induction ks with
  | nil => simp [scan_face_names]
  | cons k ks ih =>
    unfold scan_face_names
    by_cases hk : strstr layer.name (cubemap_face_name k j) = true
    · by_cases hf : faces j = none
      · simp [hk, hf]
      · simp [hk, hf, ih]
    · simp [hk, ih]

theorem scan_faces_apply (layer : Layer) (js : List (Fin 6)) (faces : Faces) (j : Fin 6) :
    scan_faces layer js faces j =
      if j ∈ js ∧ faces j = none ∧ layer_names_face layer j = true then some layer
      else faces j := by
  induction js generalizing faces with
  | nil => simp [scan_faces]
  | cons i js ih =>
    unfold scan_faces
    rw [ih, scan_face_names_eq]
    by_cases hij : j = i
    · subst hij
      by_cases hf : faces j = none
      · by_cases hn : layer_names_face layer j = true
        · have hn2 := hn
          unfold layer_names_face at hn2
          simp [hf, hn, hn2]
        · have hn2 := hn
          unfold layer_names_face at hn2
          simp [hf, hn, hn2]
      · have : ∀ (c : Prop) [Decidable c], (if faces j = none ∧ c then
            Function.update faces j (some layer) else faces) = faces := by
          intro c _
          rw [if_neg (fun h => hf h.1)]
        rw [this]
        simp [hf]
    · have hupd : ∀ (c : Prop) [Decidable c], (if c then
          Function.update faces i (some layer) else faces) j = faces j := by
        intro c _
        split
        · exact Function.update_noteq hij _ _
        · rfl
      rw [hupd]
      simp [hij]

theorem scan_layer_apply (layer : Layer) (faces : Faces) (j : Fin 6) :
    scan_layer layer faces j =
      if faces j = none ∧ layer_names_face layer j = true then some layer else faces j := by
  unfold scan_layer
  rw [scan_faces_apply]
  have hj : j ∈ ([0, 1, 2, 3, 4, 5] : List (Fin 6)) := by
    revert j
    decide
  simp [hj]

/-- Face `j` after the level-0 scan: the entry it had, or else the first layer of size
`(w, h)` one of whose names for face `j` occurs in the layer name. -/
theorem scan_level0_layers_apply (w h : Nat) (layers : List Layer) (faces : Faces) (j : Fin 6) :
    scan_level0_layers w h layers faces j =
      match faces j with
      | some f => some f
      | none =>
        (layers.filter (fun l => decide (l.width = w ∧ l.height = h) &&
          layer_names_face l j)).head? := by
  induction layers generalizing faces with
  | nil =>
    unfold scan_level0_layers
    cases faces j <;> simp
  | cons d layers ih =>
    unfold scan_level0_layers
    by_cases hsz : d.width ≠ w ∨ d.height ≠ h
    · rw [if_pos hsz, ih]
      have : (decide (d.width = w ∧ d.height = h) && layer_names_face d j) = false := by
        have : ¬ (d.width = w ∧ d.height = h) := by omega
        simp [this]
      rw [List.filter_cons_of_neg (by rw [this]; simp)]
    · rw [if_neg hsz, ih, scan_layer_apply]
      have hsz2 : d.width = w ∧ d.height = h := by omega
      cases hf : faces j with
      | some f => simp
      | none =>
        by_cases hn : layer_names_face d j = true
        · simp [hn, hsz2]
        · simp [hn]

theorem six_valid_faces_iff (faces : Faces) :
    six_valid_faces faces = true ↔ ∀ j, ∃ l, faces j = some l := by
  unfold six_valid_faces
  simp only [List.all_eq_true, Option.isSome_iff_exists]
  constructor
  · intro hall j
    apply hall
    revert j
    decide
  · intro hall j _
    exact hall j

theorem faces_same_type_true (faces : Faces) (ty : GimpImageType) (is : List (Fin 6))
    (h : faces_same_type faces ty is = some true) :
    ∀ i ∈ is, ∀ l, faces i = some l → l.type = ty := by
  induction is with
  | nil => intro i hi; cases hi
  | cons a is ih =>
    unfold faces_same_type at h
    cases hfa : faces a with
    | none => rw [hfa] at h; cases h
    | some f =>
      rw [hfa] at h
      simp only at h
      by_cases hty : f.type ≠ ty
      · rw [if_pos hty] at h
        cases h
      · rw [if_neg hty] at h
        intro i hi l hl
        rcases List.mem_cons.mp hi with rfl | hi
        · rw [hfa] at hl
          cases hl
          exact not_not.mp hty
        · exact ih h i hi l hl

theorem faces_same_size_true (faces : Faces) (w h : Nat) (is : List (Fin 6))
    (hs : faces_same_size faces w h is = some true) :
    ∀ i ∈ is, ∀ l, faces i = some l → l.width = w ∧ l.height = h := by
  induction is with
  | nil => intro i hi; cases hi
  | cons a is ih =>
    unfold faces_same_size at hs
    cases hfa : faces a with
    | none => rw [hfa] at hs; cases hs
    | some f =>
      rw [hfa] at hs
      simp only at hs
      by_cases hsz : f.width ≠ w ∨ f.height ≠ h
      · rw [if_pos hsz] at hs
        cases hs
      · rw [if_neg hsz] at hs
        intro i hi l hl
        rcases List.mem_cons.mp hi with rfl | hi
        · rw [hfa] at hl
          cases hl
          omega
        · exact ih hs i hi l hl

theorem fin6_zero_or_mem (i : Fin 6) : i = 0 ∨ i ∈ ([1, 2, 3, 4, 5] : List (Fin 6)) := by
  revert i
  decide

theorem check_faces_type_true (faces : Faces) (c : Bool)
    (h : check_faces_type faces c = some true) :
    c = true ∧ ∀ i j li lj, faces i = some li → faces j = some lj → li.type = lj.type := by
  unfold check_faces_type at h
  cases c with
  | false => simp at h
  | true =>
    refine ⟨rfl, ?_⟩
    simp only [if_true] at h
    cases hf0 : faces 0 with
    | none => rw [hf0] at h; cases h
    | some f0 =>
      rw [hf0] at h
      have key : ∀ i l, faces i = some l → l.type = f0.type := by
        intro i l hl
        rcases fin6_zero_or_mem i with rfl | hi
        · rw [hf0] at hl
          cases hl
          rfl
        · exact faces_same_type_true faces _ _ h i hi l hl
      intro i j li lj hi hj
      rw [key i li hi, key j lj hj]

theorem check_faces_size_true (faces : Faces) (c : Bool)
    (h : check_faces_size faces c = some true) :
    c = true ∧ ∀ i j li lj, faces i = some li → faces j = some lj →
      li.width = lj.width ∧ li.height = lj.height := by
  unfold check_faces_size at h
  cases c with
  | false => simp at h
  | true =>
    refine ⟨rfl, ?_⟩
    simp only [if_true] at h
    cases hf0 : faces 0 with
    | none => rw [hf0] at h; cases h
    | some f0 =>
      rw [hf0] at h
      have key : ∀ i l, faces i = some l → l.width = f0.width ∧ l.height = f0.height := by
        intro i l hl
        rcases fin6_zero_or_mem i with rfl | hi
        · rw [hf0] at hl
          cases hl
          exact ⟨rfl, rfl⟩
        · exact faces_same_size_true faces _ _ _ h i hi l hl
      intro i j li lj hi hj
      have h1 := key i li hi
      have h2 := key j lj hj
      omega

/-- C3. For every image, with `global_image` set to that image, if `check_cubemap`
returns true then the layer count N satisfies N >= 6 and N mod 6 = 0, and if N > 6 then
`check_mipmaps (Cubemap)` returns true for the image. -/
theorem check_cubemap_layer_count (image : Image) (faces0 faces : Faces)
    (h : check_cubemap image faces0 image = some (true, faces)) :
    6 ≤ image.layers.length ∧ image.layers.length % 6 = 0 ∧
      (image.layers.length > 6 → check_mipmaps image SaveType.CUBEMAP = some true) := by
  unfold check_cubemap at h
  by_cases h6 : image.layers.length < 6
  · simp [h6] at h
  · by_cases hgt : image.layers.length > 6
    · simp only [h6, hgt, if_false, if_true] at h
      cases hm : check_mipmaps image SaveType.CUBEMAP with
      | none => rw [hm] at h; cases h
      | some b =>
        cases b with
        | false => rw [hm] at h; simp at h
        | true =>
          obtain ⟨s, h1, h2, h3⟩ := check_mipmaps_true_count image SaveType.CUBEMAP hm
          simp only [if_true] at h1 h2
          have hs : s = 6 := by omega
          subst hs
          refine ⟨by omega, ?_, fun _ => rfl⟩
          rw [h3]
          exact Nat.mul_mod_right _ _
    · have : image.layers.length = 6 := by omega
      refine ⟨by omega, by omega, fun hh => absurd hh hgt⟩

/-- What a `TRUE` from `check_cubemap` says about the face entries. -/
theorem check_cubemap_true_faces (image : Image) (faces0 faces : Faces)
    (h : check_cubemap image faces0 image = some (true, faces)) :
    (∀ j, ∃ l, faces j = some l) ∧
    (∀ i j li lj, faces i = some li → faces j = some lj →
      li.type = lj.type ∧ li.width = lj.width ∧ li.height = lj.height) ∧
    (image.layers.length > 6 → ∀ j l, faces j = some l →
      l.width = image.width ∧ l.height = image.height) := by
  unfold check_cubemap at h
  by_cases h6 : image.layers.length < 6
  · simp [h6] at h
  · by_cases hgt : image.layers.length > 6
    · simp only [h6, hgt, if_false, if_true] at h
      cases hm : check_mipmaps image SaveType.CUBEMAP with
      | none => rw [hm] at h; cases h
      | some b =>
        cases b with
        | false => rw [hm] at h; simp at h
        | true =>
          rw [hm] at h
          simp only at h
          generalize hf : scan_level0_layers image.width image.height image.layers
            (fun _ => none) = fs at h
          cases hc : check_faces_type fs (six_valid_faces fs) with
          | none => rw [hc] at h; cases h
          | some c =>
            rw [hc] at h
            simp only [Option.some.injEq, Prod.mk.injEq] at h
            obtain ⟨rfl, rfl⟩ := h
            obtain ⟨hv, hty⟩ := check_faces_type_true fs _ hc
            have hsz : ∀ j l, fs j = some l → l.width = image.width ∧ l.height = image.height := by
              intro j l hl
              rw [← hf, scan_level0_layers_apply] at hl
              simp only at hl
              have hmem := List.mem_of_mem_head? hl
              have := (List.mem_filter.mp hmem).2
              simp only [Bool.and_eq_true, decide_eq_true_eq] at this
              exact this.1
            refine ⟨(six_valid_faces_iff fs).mp hv, ?_, fun _ => hsz⟩
            intro i j li lj hi hj
            have h1 := hsz i li hi
            have h2 := hsz j lj hj
            exact ⟨hty i j li lj hi hj, by omega, by omega⟩
    · simp only [h6, hgt, if_false] at h
      cases hs : scan_six_layers image.layers [0, 1, 2, 3, 4, 5] image.layers (fun _ => none) with
      | none => rw [hs] at h; cases h
      | some fs =>
        rw [hs] at h
        simp only at h
        cases hc : check_faces_size fs (six_valid_faces fs) with
        | none => rw [hc] at h; cases h
        | some c =>
          rw [hc] at h
          simp only at h
          cases hc2 : check_faces_type fs c with
          | none => rw [hc2] at h; cases h
          | some c2 =>
            rw [hc2] at h
            simp only [Option.some.injEq, Prod.mk.injEq] at h
            obtain ⟨rfl, rfl⟩ := h
            obtain ⟨rfl, hty⟩ := check_faces_type_true fs _ hc2
            obtain ⟨hv, hsz⟩ := check_faces_size_true fs _ hc
            refine ⟨(six_valid_faces_iff fs).mp hv, ?_, fun hh => absurd hh hgt⟩
            intro i j li lj hi hj
            exact ⟨hty i j li lj hi hj, hsz i j li lj hi hj⟩

/-- The faces of `cube_mipmapped` found by the level-0 scan. -/
theorem check_cubemap_cube_mipmapped :
    check_cubemap cube_mipmapped no_faces cube_mipmapped =
      some (true, scan_level0_layers 2 2 cube_mipmapped.layers (fun _ => none)) := by
  rfl

/-- C3 at the 2x2 cube map with an existing chain (12 layers). -/
theorem check_cubemap_layer_count_witness :
    6 ≤ cube_mipmapped.layers.length ∧ cube_mipmapped.layers.length % 6 = 0 ∧
      (cube_mipmapped.layers.length > 6 →
        check_mipmaps cube_mipmapped SaveType.CUBEMAP = some true) :=
  check_cubemap_layer_count cube_mipmapped no_faces
    (scan_level0_layers 2 2 cube_mipmapped.layers (fun _ => none)) (by rfl)

/-- C2, the code at the claim's own witness. For six 16x16 RGBA layers named
"positive x" to "negative z", `check_cubemap` returns FALSE: the face scan of the
six-layer branch reads the first layer once and the second layer five times, so only
the faces +X and -X are assigned. The claim says it returns true with all six faces. -/
theorem check_cubemap_six_named_layers :
    (check_cubemap cube_six no_faces cube_six).map
        (fun r => (r.1, r.2.toList.map (Option.map Layer.name))) =
      some (false, [some "positive x", some "negative x", none, none, none, none]) := by
  decide

/-- C4 as stated fails: for a 16x16 image whose six layers are 8x8, `check_cubemap`
returns true and every face entry is an 8x8 layer, not a layer of the image size. -/
theorem check_cubemap_faces_not_image_size :
    (check_cubemap cube_small_faces no_faces cube_small_faces).map
        (fun r => (r.1, r.2.toList.map (Option.map (fun l => (l.width, l.height))))) =
      some (true, [some (8, 8), some (8, 8), some (8, 8), some (8, 8), some (8, 8), some (8, 8)]) ∧
    (cube_small_faces.width, cube_small_faces.height) = (16, 16) := by
  decide

/-- C4, amended. Whenever `check_cubemap` returns true, all six entries of
`cubemap_faces` are assigned and the six face layers have the same type and the same
size as one another; when the image has more than 6 layers that size is the image
size (W, H). -/
theorem check_cubemap_faces_uniform (image : Image) (faces0 faces : Faces)
    (h : check_cubemap image faces0 image = some (true, faces)) :
    (∀ j, ∃ l, faces j = some l) ∧
    (∀ i j li lj, faces i = some li → faces j = some lj →
      li.type = lj.type ∧ li.width = lj.width ∧ li.height = lj.height) ∧
    (image.layers.length > 6 → ∀ j l, faces j = some l →
      l.width = image.width ∧ l.height = image.height) :=
  check_cubemap_true_faces image faces0 faces h

/-- C4 amended, at the 2x2 cube map with an existing chain. -/
theorem check_cubemap_faces_uniform_witness :
    (∀ j, ∃ l, scan_level0_layers 2 2 cube_mipmapped.layers (fun _ => none) j = some l) ∧
    (∀ i j li lj, scan_level0_layers 2 2 cube_mipmapped.layers (fun _ => none) i = some li →
      scan_level0_layers 2 2 cube_mipmapped.layers (fun _ => none) j = some lj →
      li.type = lj.type ∧ li.width = lj.width ∧ li.height = lj.height) ∧
    (cube_mipmapped.layers.length > 6 → ∀ j l,
      scan_level0_layers 2 2 cube_mipmapped.layers (fun _ => none) j = some l →
      l.width = cube_mipmapped.width ∧ l.height = cube_mipmapped.height) :=
  check_cubemap_faces_uniform cube_mipmapped no_faces
    (scan_level0_layers 2 2 cube_mipmapped.layers (fun _ => none)) (by rfl)

theorem perm_eq_of_length_le_one {α : Type} (l1 l2 : List α) (hp : List.Perm l1 l2)
    (hlen : l1.length ≤ 1) : l2 = l1 := by
  match l1, hp, hlen with
  | [], hp, _ => exact List.Perm.nil_eq hp |>.symm
  | [a], hp, _ => exact (List.singleton_perm.mp hp).symm
  | _ :: _ :: _, _, hlen => simp at hlen

/-- C5 as stated fails: the layers of the 2x2 mipmapped cube map, reordered so that the six
faces come first, are a permutation under which every face name is carried by the
same single layer, yet `check_cubemap` is true on the original and false on the
reordered image. -/
theorem check_cubemap_perm_counterexample :
    List.Perm cube_mipmapped.layers cube_mipmapped_faces_first.layers ∧
    cube_mipmapped_faces_first.width = cube_mipmapped.width ∧
    cube_mipmapped_faces_first.height = cube_mipmapped.height ∧
    (∀ j : Fin 6,
      (cube_mipmapped.layers.filter (fun l => layer_names_face l j)).length = 1 ∧
      cube_mipmapped_faces_first.layers.filter (fun l => layer_names_face l j) =
        cube_mipmapped.layers.filter (fun l => layer_names_face l j)) ∧
    (check_cubemap cube_mipmapped no_faces cube_mipmapped).map Prod.fst = some true ∧
    (check_cubemap cube_mipmapped_faces_first no_faces cube_mipmapped_faces_first).map
      Prod.fst = some false := by
  decide

/-- C5, amended. For every image whose layer count is not 6 and every permutation of
its layer list for which `check_mipmaps (Cubemap)` gives the same answer and in which
each face is named by at most one layer of the image size, `check_cubemap` returns the
same flag and the same six face entries on the permuted image as on the original. -/
theorem check_cubemap_perm_invariant (image image2 : Image) (faces0 : Faces)
    (hw : image2.width = image.width) (hh : image2.height = image.height)
    (hperm : List.Perm image.layers image2.layers)
    (hn : image.layers.length ≠ 6)
    (hmip : check_mipmaps image2 SaveType.CUBEMAP = check_mipmaps image SaveType.CUBEMAP)
    (huniq : ∀ j : Fin 6, (image.layers.filter (fun l =>
      decide (l.width = image.width ∧ l.height = image.height) &&
        layer_names_face l j)).length ≤ 1) :
    check_cubemap image2 faces0 image2 = check_cubemap image faces0 image := by
  have hlen : image2.layers.length = image.layers.length := hperm.length_eq.symm
  have hfaces : scan_level0_layers image2.width image2.height image2.layers (fun _ => none) =
      scan_level0_layers image.width image.height image.layers (fun _ => none) := by
    funext j
    rw [scan_level0_layers_apply, scan_level0_layers_apply, hw, hh]
    simp only
    rw [perm_eq_of_length_le_one _ _ (hperm.filter _) (huniq j)]
  unfold check_cubemap
  simp only [hlen, hmip, hfaces]
  by_cases h6 : image.layers.length < 6
  · simp [h6]
  · have hgt : image.layers.length > 6 := by omega
    simp [h6, hgt]

/-- C5 amended, at the 2x2 mipmapped cube map and its copy with two face blocks
exchanged. -/
theorem check_cubemap_perm_invariant_witness :
    check_cubemap cube_mipmapped_swapped no_faces cube_mipmapped_swapped =
      check_cubemap cube_mipmapped no_faces cube_mipmapped :=
  check_cubemap_perm_invariant cube_mipmapped cube_mipmapped_swapped no_faces
    (by decide) (by decide) (by decide) (by decide) (by decide) (by decide)

/-! ## write_image and write_dds -/

theorem faces_same_type_some (faces : Faces) (ty : GimpImageType) (is : List (Fin 6))
    (hv : ∀ j, ∃ l, faces j = some l) : ∃ b, faces_same_type faces ty is = some b := by
  induction is with
  | nil => exact ⟨true, rfl⟩
  | cons a is ih =>
    obtain ⟨l, hl⟩ := hv a
    unfold faces_same_type
    rw [hl]
    simp only
    split
    · exact ⟨false, rfl⟩
    · exact ih

theorem faces_same_size_some (faces : Faces) (w h : Nat) (is : List (Fin 6))
    (hv : ∀ j, ∃ l, faces j = some l) : ∃ b, faces_same_size faces w h is = some b := by
  induction is with
  | nil => exact ⟨true, rfl⟩
  | cons a is ih =>
    obtain ⟨l, hl⟩ := hv a
    unfold faces_same_size
    rw [hl]
    simp only
    split
    · exact ⟨false, rfl⟩
    · exact ih

theorem check_faces_type_some (faces : Faces) (c : Bool)
    (hv : c = true → ∀ j, ∃ l, faces j = some l) : ∃ b, check_faces_type faces c = some b := by
  unfold check_faces_type
  cases c with
  | false => exact ⟨false, rfl⟩
  | true =>
    obtain ⟨l, hl⟩ := hv rfl 0
    simp only [if_true, hl]
    exact faces_same_type_some faces _ _ (hv rfl)

theorem check_faces_size_some (faces : Faces) (c : Bool)
    (hv : c = true → ∀ j, ∃ l, faces j = some l) :
    ∃ b, check_faces_size faces c = some b ∧ (b = true → c = true) := by
  unfold check_faces_size
  cases c with
  | false => exact ⟨false, rfl, fun hf => absurd hf (by decide)⟩
  | true =>
    obtain ⟨l, hl⟩ := hv rfl 0
    simp only [if_true, hl]
    obtain ⟨b, hb⟩ := faces_same_size_some faces l.width l.height [1, 2, 3, 4, 5] (hv rfl)
    exact ⟨b, hb, fun _ => trivial⟩

theorem scan_six_layers_some (layers : List Layer) (is : List Nat) (list : List Layer)
    (faces : Faces) (hlist : list ≠ []) (hnext : is.length ≤ 1 ∨ g_list_next layers ≠ []) :
    ∃ fs, scan_six_layers layers is list faces = some fs := by
  induction is generalizing list faces with
  | nil => exact ⟨faces, rfl⟩
  | cons i is ih =>
    obtain ⟨layer, rest, rfl⟩ := List.exists_cons_of_ne_nil hlist
    unfold scan_six_layers
    simp only
    cases is with
    | nil => exact ⟨_, rfl⟩
    | cons i2 is2 =>
      have hn : g_list_next layers ≠ [] := by
        rcases hnext with h | h
        · simp at h
        · exact h
      exact ih _ _ hn (Or.inr hn)

/-- The function `check_cubemap` returns for every image with a layer. -/
theorem check_cubemap_some (image : Image) (faces0 : Faces) (hne : image.layers ≠ []) :
    ∃ r, check_cubemap image faces0 image = some r := by
  unfold check_cubemap
  by_cases h6 : image.layers.length < 6
  · simp only [h6, if_true]
    exact ⟨_, rfl⟩
  · by_cases hgt : image.layers.length > 6
    · simp only [h6, hgt, if_false, if_true]
      obtain ⟨b, hb⟩ := check_mipmaps_some image SaveType.CUBEMAP hne
      rw [hb]
      cases b with
      | false => exact ⟨_, rfl⟩
      | true =>
        simp only
        obtain ⟨c, hc⟩ := check_faces_type_some
          (scan_level0_layers image.width image.height image.layers (fun _ => none))
          (six_valid_faces _) (six_valid_faces_iff _).mp
        rw [hc]
        exact ⟨_, rfl⟩
    · simp only [h6, hgt, if_false]
      have hlen : image.layers.length = 6 := by omega
      have hnext : g_list_next image.layers ≠ [] := by
        unfold g_list_next
        intro ht
        have := congrArg List.length ht
        simp at this
        omega
      obtain ⟨fs, hfs⟩ := scan_six_layers_some image.layers [0, 1, 2, 3, 4, 5] image.layers
        (fun _ => none) hne (Or.inr hnext)
      rw [hfs]
      simp only
      obtain ⟨c, hc, hcv⟩ := check_faces_size_some fs (six_valid_faces fs)
        (six_valid_faces_iff fs).mp
      rw [hc]
      simp only
      obtain ⟨c2, hc2⟩ := check_faces_type_some fs c
        (fun h => (six_valid_faces_iff fs).mp (hcv h))
      rw [hc2]
      exact ⟨_, rfl⟩

theorem lookup_format_info_some (pixel_format : PixelFormat)
    (h : pixel_format ≠ PixelFormat.DEFAULT) :
    ∃ fi, lookup_format_info pixel_format format_info = some fi := by
  cases pixel_format
  · exact absurd rfl h
  all_goals exact ⟨_, rfl⟩

theorem format_fields_some (pixel_format : PixelFormat) (bpp : Nat)
    (basetype : GimpImageBaseType) : ∃ fmt, format_fields pixel_format bpp basetype = some fmt := by
  unfold format_fields
  by_cases hpf : pixel_format ≠ PixelFormat.DEFAULT
  · obtain ⟨fi, hfi⟩ := lookup_format_info_some pixel_format hpf
    rw [if_pos hpf, hfi]
    exact ⟨_, rfl⟩
  · rw [if_neg hpf]
    split_ifs <;> exact ⟨_, rfl⟩

/-- The header part of `write_image` always completes. -/
theorem write_image_header_some (host : Host) (is_cubemap is_volume : Bool) (image : Image)
    (drawable : Layer) (config : Config) :
    ∃ r, write_image_header host is_cubemap is_volume image drawable config = some r := by
  unfold write_image_header
  obtain ⟨fmt, hfmt⟩ := format_fields_some config.format (drawable_bpp drawable.type)
    image.base_type
  simp only [hfmt]
  exact ⟨_, rfl⟩

theorem dispatch_visited_some_aux (layers : List Layer) (n : Nat) (list : List Layer)
    (hlist : n = 0 ∨ list ≠ []) (hnext : n ≤ 1 ∨ g_list_next layers ≠ []) :
    ∃ ds, dispatch_visited layers n list = some ds := by
  induction n generalizing list with
  | zero => exact ⟨[], rfl⟩
  | succ n ih =>
    have hl : list ≠ [] := by
      rcases hlist with h | h
      · omega
      · exact h
    obtain ⟨d, rest, rfl⟩ := List.exists_cons_of_ne_nil hl
    unfold dispatch_visited
    simp only
    obtain ⟨ds, hds⟩ := ih (g_list_next layers) (by
        rcases hnext with h | h
        · left; omega
        · right; exact h) (by
        rcases hnext with h | h
        · left; omega
        · right; exact h)
    rw [hds]
    exact ⟨_, rfl⟩

/-- The dispatch loops for volume maps and arrays never reach a `NULL` node. -/
theorem dispatch_visited_some (layers : List Layer) :
    ∃ ds, dispatch_visited layers layers.length layers = some ds := by
  apply dispatch_visited_some_aux
  · cases layers with
    | nil => left; rfl
    | cons a l => right; simp
  · match layers with
    | [] => left; simp
    | [_] => left; simp
    | _ :: _ :: _ => right; simp [g_list_next]

theorem dispatch_cubemap_some (faces : Faces) (w h bpp fmtbpp num_mipmaps : Nat)
    (is : List (Fin 6)) (hv : ∀ j, ∃ l, faces j = some l) :
    ∃ calls, dispatch_cubemap faces w h bpp fmtbpp num_mipmaps is = some calls := by
  induction is with
  | nil => exact ⟨[], rfl⟩
  | cons i is ih =>
    obtain ⟨l, hl⟩ := hv i
    obtain ⟨calls, hc⟩ := ih
    unfold dispatch_cubemap
    rw [hl]
    simp only
    rw [hc]
    exact ⟨_, rfl⟩

theorem write_image_dispatch_some (host : Host) (faces : Faces) (image : Image)
    (drawable : Layer) (config : Config) (r : HeaderResult)
    (hv : config.savetype = SaveType.CUBEMAP → ∀ j, ∃ l, faces j = some l) :
    ∃ calls, write_image_dispatch host faces image drawable config r = some calls := by
  unfold write_image_dispatch
  by_cases h1 : config.savetype = SaveType.CUBEMAP
  · simp only [h1, if_true]
    exact dispatch_cubemap_some _ _ _ _ _ _ _ (hv h1)
  · obtain ⟨ds, hds⟩ := dispatch_visited_some image.layers
    by_cases h2 : config.savetype = SaveType.VOLUMEMAP
    · simp only [h2, if_true, hds]
      simp
    · by_cases h3 : config.savetype = SaveType.ARRAY
      · simp only [h3, if_true, hds]
        simp
      · simp only [h1, h2, h3, if_false]
        exact ⟨_, rfl⟩

/-- The function `write_image` returns, and returns `TRUE`, whenever the image it is
given has a layer and, for a cube-map save, all six face entries are assigned. -/
theorem write_image_some (host : Host) (is_cubemap is_volume : Bool) (faces : Faces)
    (fp : FILE) (image : Image) (drawable : Layer) (config : Config)
    (hne : image.layers ≠ [])
    (hv : config.savetype = SaveType.CUBEMAP → ∀ j, ∃ l, faces j = some l) :
    ∃ fp2, write_image host is_cubemap is_volume faces fp image drawable config =
      some (true, fp2) := by
  unfold write_image
  have hne2 : (if config.flip_image = true then gimp_image_flip image else image).layers ≠ [] := by
    split
    · exact hne
    · exact hne
  generalize (if config.flip_image = true then gimp_image_flip image else image) = img at hne2
  obtain ⟨first, rest, hl⟩ := List.exists_cons_of_ne_nil hne2
  have hd : ∃ d, (if config.mipmaps = MipmapMode.EXISTING then img.layers.head?
      else some drawable) = some d := by
    split
    · exact ⟨first, by rw [hl]; rfl⟩
    · exact ⟨drawable, rfl⟩
  obtain ⟨d, hd⟩ := hd
  simp only [hd]
  obtain ⟨r, hr⟩ := write_image_header_some host is_cubemap is_volume img d config
  rw [hr]
  simp only
  obtain ⟨calls, hc⟩ := write_image_dispatch_some host faces img d config r hv
  rw [hc]
  exact ⟨_, rfl⟩

/-- Every return of `write_image` is the final `return TRUE`. -/
theorem write_image_returns_true (host : Host) (is_cubemap is_volume : Bool) (faces : Faces)
    (fp : FILE) (image : Image) (drawable : Layer) (config : Config) (ret : Bool) (fp2 : FILE)
    (h : write_image host is_cubemap is_volume faces fp image drawable config =
      some (ret, fp2)) : ret = true := by
  unfold write_image at h
  simp only at h
  split at h
  · cases h
  · split at h
    · cases h
    · split at h
      · cases h
      · simp only [Option.some.injEq, Prod.mk.injEq] at h
        exact h.1.symm

/-- C8. In non-interactive mode, for an image with a layer (and a duplicate with a
layer when `write_dds` duplicates the image), `write_dds` returns. It returns an
execution error without reaching `g_fopen`, and so without a stream or a written
byte, exactly when one of these holds: the save type is Cubemap and `check_cubemap`
is false; the save type is Volumemap and `check_volume` is false; the save type is
Volumemap and the compression is not None; the mipmap mode is Existing and
`check_mipmaps (savetype)` is false. In every other case `g_fopen` is called, and a
stream is open exactly when `g_fopen` succeeds. -/
theorem write_dds_noninteractive_validation (host : Host) (faces0 : Faces) (image : Image)
    (drawable : Layer) (config : Config) (is_duplicate_image : Bool)
    (hne : image.layers ≠ [])
    (hdup : is_duplicate_image = false → (host.gimp_image_duplicate image).layers ≠ []) :
    ∃ chain_valid is_cubemap faces res,
      check_mipmaps image config.savetype = some chain_valid ∧
      check_cubemap image faces0 image = some (is_cubemap, faces) ∧
      write_dds host faces0 image drawable false config is_duplicate_image = some res ∧
      ((res.status = GimpPDBStatusType.EXECUTION_ERROR ∧ res.fopen_called = false ∧
          res.fp = none) ↔
        ((config.savetype = SaveType.CUBEMAP ∧ is_cubemap = false) ∨
         (config.savetype = SaveType.VOLUMEMAP ∧ check_volume image = false) ∨
         (config.savetype = SaveType.VOLUMEMAP ∧ config.compression ≠ Compression.NONE) ∨
         (config.mipmaps = MipmapMode.EXISTING ∧ chain_valid = false))) ∧
      (¬ ((config.savetype = SaveType.CUBEMAP ∧ is_cubemap = false) ∨
         (config.savetype = SaveType.VOLUMEMAP ∧ check_volume image = false) ∨
         (config.savetype = SaveType.VOLUMEMAP ∧ config.compression ≠ Compression.NONE) ∨
         (config.mipmaps = MipmapMode.EXISTING ∧ chain_valid = false)) →
        res.fopen_called = true ∧ res.fp.isSome = host.g_fopen.isSome) := by
  obtain ⟨mm, hmm⟩ := check_mipmaps_some image config.savetype hne
  obtain ⟨⟨cm, faces⟩, hcm⟩ := check_cubemap_some image faces0 hne
  obtain ⟨ar, har0⟩ := check_mipmaps_some image SaveType.ARRAY hne
  have har := check_array_eq image ar har0
  suffices key : ∃ res,
      write_dds host faces0 image drawable false config is_duplicate_image = some res ∧
      ((res.status = GimpPDBStatusType.EXECUTION_ERROR ∧ res.fopen_called = false ∧
          res.fp = none) ↔
        ((config.savetype = SaveType.CUBEMAP ∧ cm = false) ∨
         (config.savetype = SaveType.VOLUMEMAP ∧ check_volume image = false) ∨
         (config.savetype = SaveType.VOLUMEMAP ∧ config.compression ≠ Compression.NONE) ∨
         (config.mipmaps = MipmapMode.EXISTING ∧ mm = false))) ∧
      (¬ ((config.savetype = SaveType.CUBEMAP ∧ cm = false) ∨
         (config.savetype = SaveType.VOLUMEMAP ∧ check_volume image = false) ∨
         (config.savetype = SaveType.VOLUMEMAP ∧ config.compression ≠ Compression.NONE) ∨
         (config.mipmaps = MipmapMode.EXISTING ∧ mm = false)) →
        res.fopen_called = true ∧ res.fp.isSome = host.g_fopen.isSome) by
    obtain ⟨res, h1, h2, h3⟩ := key
    exact ⟨mm, cm, faces, res, hmm, hcm, h1, h2, h3⟩
  have hval : write_dds_validate host mm cm (check_volume image) (ar || check_volume image)
      false config =
      if ((config.savetype = SaveType.CUBEMAP ∧ cm = false) ∨
         (config.savetype = SaveType.VOLUMEMAP ∧ check_volume image = false) ∨
         (config.savetype = SaveType.VOLUMEMAP ∧ config.compression ≠ Compression.NONE) ∨
         (config.mipmaps = MipmapMode.EXISTING ∧ mm = false)) then
        Except.error GimpPDBStatusType.EXECUTION_ERROR
      else Except.ok config := by
    unfold write_dds_validate
    simp only [Bool.false_eq_true, if_false, Bool.not_eq_true']
    by_cases h1 : config.savetype = SaveType.CUBEMAP ∧ cm = false
    · rw [if_pos h1, if_pos (Or.inl h1)]
    · rw [if_neg h1]
      by_cases h2 : config.savetype = SaveType.VOLUMEMAP ∧ check_volume image = false
      · rw [if_pos h2, if_pos (Or.inr (Or.inl h2))]
      · rw [if_neg h2]
        by_cases h3 : config.savetype = SaveType.VOLUMEMAP ∧
            config.compression ≠ Compression.NONE
        · rw [if_pos h3, if_pos (Or.inr (Or.inr (Or.inl h3)))]
        · rw [if_neg h3]
          by_cases h4 : config.mipmaps = MipmapMode.EXISTING ∧ mm = false
          · rw [if_pos h4, if_pos (Or.inr (Or.inr (Or.inr h4)))]
          · rw [if_neg h4, if_neg]
            rintro (h | h | h | h)
            · exact h1 h
            · exact h2 h
            · exact h3 h
            · exact h4 h
  unfold write_dds
  simp only [hmm, hcm, har, hval]
  by_cases hc : ((config.savetype = SaveType.CUBEMAP ∧ cm = false) ∨
         (config.savetype = SaveType.VOLUMEMAP ∧ check_volume image = false) ∨
         (config.savetype = SaveType.VOLUMEMAP ∧ config.compression ≠ Compression.NONE) ∨
         (config.mipmaps = MipmapMode.EXISTING ∧ mm = false))
  · rw [if_pos hc]
    exact ⟨⟨GimpPDBStatusType.EXECUTION_ERROR, false, none⟩, rfl,
      ⟨fun _ => hc, fun _ => ⟨rfl, rfl, rfl⟩⟩, fun hn => absurd hc hn⟩
  · rw [if_neg hc]
    simp only
    have hv : config.savetype = SaveType.CUBEMAP → ∀ j, ∃ l, faces j = some l := by
      intro hs
      have hcmt : cm = true := by
        cases cm with
        | true => rfl
        | false => exact absurd (Or.inl ⟨hs, rfl⟩) hc
      subst hcmt
      exact (check_cubemap_true_faces image faces0 faces hcm).1
    cases hfo : host.g_fopen with
    | none =>
      refine ⟨⟨GimpPDBStatusType.EXECUTION_ERROR, true, none⟩, rfl, ⟨?_, ?_⟩, ?_⟩
      · rintro ⟨_, h, _⟩
        cases h
      · intro h
        exact absurd h hc
      · intro _
        exact ⟨rfl, rfl⟩
    | some fp =>
      simp only
      have hwi : ∃ fp2, (if (! is_duplicate_image) = true then
          write_image host cm (check_volume image) faces fp (host.gimp_image_duplicate image)
            (host.selected_drawable (host.gimp_image_duplicate image)) config
        else write_image host cm (check_volume image) faces fp image drawable config) =
          some (true, fp2) := by
        cases is_duplicate_image with
        | false => exact write_image_some _ _ _ _ _ _ _ _ (hdup rfl) hv
        | true => exact write_image_some _ _ _ _ _ _ _ _ hne hv
      obtain ⟨fp2, hfp2⟩ := hwi
      rw [hfp2]
      refine ⟨⟨GimpPDBStatusType.SUCCESS, true, some fp2⟩, rfl, ⟨?_, ?_⟩, ?_⟩
      · rintro ⟨h, _, _⟩
        cases h
      · intro h
        exact absurd h hc
      · intro _
        exact ⟨rfl, rfl⟩

/-- C8 at the six named 16x16 layers saved as a cube map. -/
theorem write_dds_noninteractive_validation_witness :
    ∃ chain_valid is_cubemap faces res,
      check_mipmaps cube_six cubemap_config.savetype = some chain_valid ∧
      check_cubemap cube_six no_faces cube_six = some (is_cubemap, faces) ∧
      write_dds (quiet_host 1000) no_faces cube_six (rgba_layer 1 "positive x" 16 16) false
        cubemap_config true = some res ∧
      ((res.status = GimpPDBStatusType.EXECUTION_ERROR ∧ res.fopen_called = false ∧
          res.fp = none) ↔
        ((cubemap_config.savetype = SaveType.CUBEMAP ∧ is_cubemap = false) ∨
         (cubemap_config.savetype = SaveType.VOLUMEMAP ∧ check_volume cube_six = false) ∨
         (cubemap_config.savetype = SaveType.VOLUMEMAP ∧
            cubemap_config.compression ≠ Compression.NONE) ∨
         (cubemap_config.mipmaps = MipmapMode.EXISTING ∧ chain_valid = false))) ∧
      (¬ ((cubemap_config.savetype = SaveType.CUBEMAP ∧ is_cubemap = false) ∨
         (cubemap_config.savetype = SaveType.VOLUMEMAP ∧ check_volume cube_six = false) ∨
         (cubemap_config.savetype = SaveType.VOLUMEMAP ∧
            cubemap_config.compression ≠ Compression.NONE) ∨
         (cubemap_config.mipmaps = MipmapMode.EXISTING ∧ chain_valid = false)) →
        res.fopen_called = true ∧ res.fp.isSome = (quiet_host 1000).g_fopen.isSome) :=
  write_dds_noninteractive_validation (quiet_host 1000) no_faces cube_six
    (rgba_layer 1 "positive x" 16 16) cubemap_config true (by decide)
    (fun h => absurd h (by decide))

set_option maxRecDepth 100000 in
/-- C9, the code at a failing input. A 4x4 image with one RGBA layer is saved
interactively with mipmap mode Existing; `check_mipmaps` is false and the dialog is
accepted without a change. The written header still has the MIPMAPCOUNT flag and the
mipmap count 3, and `write_layer` is called with 3 levels: `write_dds` resets only its
local variable `mipmaps`, while `write_image` reads the mode from `config`. -/
theorem write_dds_interactive_existing_kept :
    check_mipmaps single_layer_image SaveType.SELECTED_LAYER = some false ∧
    (write_dds (quiet_host 1000) no_faces single_layer_image
        (rgba_layer 1 "Background" 4 4) true (plain_config MipmapMode.EXISTING) false).map
      (fun r => (r.status, r.fp.map (fun fp =>
        (GETL32 fp.data 8 &&& DDSD_MIPMAPCOUNT, GETL32 fp.data 28)))) =
      some (GimpPDBStatusType.SUCCESS, some (DDSD_MIPMAPCOUNT, 3)) ∧
    (write_image_header (quiet_host 1000) false false single_layer_image
        (rgba_layer 1 "Background" 4 4) (plain_config MipmapMode.EXISTING)).bind
      (write_image_dispatch (quiet_host 1000) no_faces single_layer_image
        (rgba_layer 1 "Background" 4 4) (plain_config MipmapMode.EXISTING)) =
      some [SurfaceWrite.layer (rgba_layer 1 "Background" 4 4) 4 4 4 4 3] := by
  refine ⟨by decide, by rfl, by rfl⟩

set_option maxRecDepth 100000 in
/-- C10 as stated fails: on a device that accepts no byte the header write is short and
the stream error indicator is set, yet `write_image` returns TRUE and `write_dds`
returns success. -/
theorem write_failure_reported_as_success :
    (write_image (quiet_host 0) false false no_faces
        { capacity := 0, data := [], error := false } single_layer_image
        (rgba_layer 1 "Background" 4 4) (plain_config MipmapMode.NONE)).map
      (fun r => (r.1, r.2.error, r.2.data)) = some (true, true, []) ∧
    (write_dds (quiet_host 0) no_faces single_layer_image
        (rgba_layer 1 "Background" 4 4) false (plain_config MipmapMode.NONE) false).map
      (fun r => (r.status, r.fp.map (fun fp => (fp.error, fp.data)))) =
      some (GimpPDBStatusType.SUCCESS, some (true, [])) := by
  refine ⟨by rfl, by rfl⟩

/-- C10, amended. A failed write does not propagate: every return of `write_image` is
TRUE whatever happened to the stream, and `write_dds` returns success whenever it
opened a stream. -/
theorem write_errors_not_propagated (host : Host) :
    (∀ (is_cubemap is_volume : Bool) (faces : Faces) (fp0 : FILE) (image : Image)
        (drawable : Layer) (config : Config) (ret : Bool) (fp : FILE),
      write_image host is_cubemap is_volume faces fp0 image drawable config = some (ret, fp) →
        ret = true) ∧
    (∀ (faces0 : Faces) (image : Image) (drawable : Layer) (interactive : Bool)
        (config : Config) (is_duplicate_image : Bool) (res : WriteResult) (fp : FILE),
      write_dds host faces0 image drawable interactive config is_duplicate_image = some res →
        res.fp = some fp → res.status = GimpPDBStatusType.SUCCESS) := by
  refine ⟨fun a b c d e f g ret fp h => write_image_returns_true host a b c d e f g ret fp h, ?_⟩
  intro faces0 image drawable interactive config is_dup res fp h hfp
  unfold write_dds at h
  simp only at h
  split at h
  · cases h
  · split at h
    · cases h
    · split at h
      · cases h
      · split at h
        · simp only [Option.some.injEq] at h
          subst h
          cases hfp
        · split at h
          · simp only [Option.some.injEq] at h
            subst h
            cases hfp
          · split at h
            · cases h
            · rename_i rc fp2 hrc
              have hrct : rc = true := by
                split at hrc
                · exact write_image_returns_true _ _ _ _ _ _ _ _ _ _ hrc
                · exact write_image_returns_true _ _ _ _ _ _ _ _ _ _ hrc
              simp only [Option.some.injEq] at h
              subst h
              simp [hrct]

set_option maxRecDepth 100000 in
/-- C10 amended, at the device that accepts no byte. -/
theorem write_errors_not_propagated_witness :
    write_dds (quiet_host 0) no_faces single_layer_image (rgba_layer 1 "Background" 4 4)
        false (plain_config MipmapMode.NONE) false =
      some ⟨GimpPDBStatusType.SUCCESS, true, some { capacity := 0, data := [], error := true }⟩ ∧
    (⟨GimpPDBStatusType.SUCCESS, true,
      some { capacity := 0, data := [], error := true }⟩ : WriteResult).status =
      GimpPDBStatusType.SUCCESS :=
  ⟨by rfl, (write_errors_not_propagated (quiet_host 0)).2 no_faces single_layer_image
    (rgba_layer 1 "Background" 4 4) false (plain_config MipmapMode.NONE) false
    ⟨GimpPDBStatusType.SUCCESS, true, some { capacity := 0, data := [], error := true }⟩
    { capacity := 0, data := [], error := true } (by rfl) rfl⟩

/-! ## The header fields -/

theorem length_PUTL32 (buf : List Nat) (off v : Nat) : (PUTL32 buf off v).length = buf.length := by
  simp [PUTL32]

theorem getD_set_ne (l : List Nat) (i j a : Nat) (h : i ≠ j) :
    (l.set i a).getD j 0 = l.getD j 0 := by
  simp [List.getD_eq_getElem?_getD, List.getElem?_set_ne h]

theorem getD_set_eq (l : List Nat) (i a : Nat) (h : i < l.length) :
    (l.set i a).getD i 0 = a := by
  simp [List.getD_eq_getElem?_getD, List.getElem?_set_self h]

theorem getD_PUTL32_ne (buf : List Nat) (off v k : Nat) (h : k < off ∨ off + 4 ≤ k) :
    (PUTL32 buf off v).getD k 0 = buf.getD k 0 := by
  unfold PUTL32
  rw [getD_set_ne _ _ _ _ (by omega), getD_set_ne _ _ _ _ (by omega),
    getD_set_ne _ _ _ _ (by omega), getD_set_ne _ _ _ _ (by omega)]

theorem GETL32_PUTL32_ne (buf : List Nat) (off2 v off : Nat)
    (h : off + 4 ≤ off2 ∨ off2 + 4 ≤ off) :
    GETL32 (PUTL32 buf off2 v) off = GETL32 buf off := by
  unfold GETL32
  rw [getD_PUTL32_ne _ _ _ _ (by omega), getD_PUTL32_ne _ _ _ _ (by omega),
    getD_PUTL32_ne _ _ _ _ (by omega), getD_PUTL32_ne _ _ _ _ (by omega)]

theorem GETL32_PUTL32_eq (buf : List Nat) (off v : Nat) (h : off + 4 ≤ buf.length) :
    GETL32 (PUTL32 buf off v) off = v % 4294967296 := by
  unfold GETL32 PUTL32
  rw [getD_set_ne _ _ _ _ (by omega), getD_set_ne _ _ _ _ (by omega),
    getD_set_ne _ _ _ _ (by omega), getD_set_eq _ _ _ (by omega)]
  rw [getD_set_ne _ _ _ _ (by omega), getD_set_ne _ _ _ _ (by omega),
    getD_set_eq _ _ _ (by simp; omega)]
  rw [getD_set_ne _ _ _ _ (by omega), getD_set_eq _ _ _ (by simp; omega)]
  rw [getD_set_eq _ _ _ (by simp; omega)]
  omega

theorem GETL32_replicate (n off : Nat) : GETL32 (List.replicate n 0) off = 0 := by
  have h : ∀ k, (List.replicate n 0).getD k 0 = 0 := by
    intro k
    simp only [List.getD_eq_getElem?_getD, List.getElem?_replicate]
    split <;> rfl
  simp [GETL32, h]

theorem GETL32_ite (c : Prop) [Decidable c] (a b : List Nat) (off : Nat) :
    GETL32 (if c then a else b) off = if c then GETL32 a off else GETL32 b off := by
  split <;> rfl

theorem length_ite (c : Prop) [Decidable c] (a b : List Nat) :
    (if c then a else b).length = if c then a.length else b.length := by
  split <;> rfl

theorem build_header_hdr (host : Host) (is_cubemap is_volume : Bool) (image : Image)
    (config : Config) (w h bpp : Nat) (fmt : FormatFields) :
    (build_header host is_cubemap is_volume image config w h bpp fmt).hdr =
      header_stage4 config (header_pflags config image.base_type bpp fmt)
        (header_stage3 config is_cubemap is_volume image.base_type w h bpp fmt
          (header_stage2 config is_cubemap is_volume image.layers.length w h
            (header_stage1 host config w h fmt))) := by
  unfold build_header header_stage4 header_stage3 header_stage2 header_stage1 header_pflags
    header_flags header_caps header_caps2 header_linear_size
  by_cases hs : config.savetype = SaveType.ARRAY
  · by_cases hc : config.compression = Compression.NONE
    · simp only [hs, hc, decide_True, if_true]
    · simp only [hs, hc, decide_True, if_true, if_false]
  · by_cases hc : config.compression = Compression.NONE
    · simp only [hs, hc, decide_False, if_true, if_false, Bool.false_eq_true]
    · simp only [hs, hc, decide_False, if_true, if_false, Bool.false_eq_true]

theorem length_header_stage1 (host : Host) (config : Config) (w h : Nat) (fmt : FormatFields) :
    (header_stage1 host config w h fmt).length = 128 := by
  unfold header_stage1
  simp only [length_ite, length_PUTL32, List.length_replicate, DDS_HEADERSIZE, ite_self]

theorem length_header_stage2 (config : Config) (is_cubemap is_volume : Bool)
    (num_layers w h : Nat) (hdr : List Nat) :
    (header_stage2 config is_cubemap is_volume num_layers w h hdr).length = hdr.length := by
  unfold header_stage2
  simp only [length_ite, length_PUTL32, ite_self]

theorem length_header_stage3 (config : Config) (is_cubemap is_volume : Bool)
    (basetype : GimpImageBaseType) (w h bpp : Nat) (fmt : FormatFields) (hdr : List Nat) :
    (header_stage3 config is_cubemap is_volume basetype w h bpp fmt hdr).length = hdr.length := by
  unfold header_stage3
  simp only [length_ite, length_PUTL32, ite_self]

theorem length_header_stage4 (config : Config) (pflags : Nat) (hdr : List Nat) :
    (header_stage4 config pflags hdr).length = hdr.length := by
  unfold header_stage4
  simp only [length_ite, length_PUTL32, ite_self]

/-- Fields that stage 4 leaves alone. -/
theorem GETL32_header_stage4_ne (config : Config) (pflags : Nat) (hdr : List Nat) (off : Nat)
    (hoff : off + 4 ≤ 80 ∨ 88 ≤ off) :
    GETL32 (header_stage4 config pflags hdr) off = GETL32 hdr off := by
  unfold header_stage4
  split
  · rw [GETL32_PUTL32_ne _ _ _ _ (by omega), GETL32_PUTL32_ne _ _ _ _ (by omega)]
  · rfl

/-- Fields that stage 3 leaves alone. -/
theorem GETL32_header_stage3_ne (config : Config) (is_cubemap is_volume : Bool)
    (basetype : GimpImageBaseType) (w h bpp : Nat) (fmt : FormatFields) (hdr : List Nat)
    (off : Nat)
    (hoff : off + 4 ≤ 8 ∨ (12 ≤ off ∧ off + 4 ≤ 20) ∨ (24 ≤ off ∧ off + 4 ≤ 44) ∨
      (48 ≤ off ∧ off + 4 ≤ 80) ∨ 88 ≤ off) :
    GETL32 (header_stage3 config is_cubemap is_volume basetype w h bpp fmt hdr) off =
      GETL32 hdr off := by
  unfold header_stage3
  simp (disch := omega) only [GETL32_ite, GETL32_PUTL32_ne, ite_self]

/-- Fields that stage 2 leaves alone. -/
theorem GETL32_header_stage2_ne (config : Config) (is_cubemap is_volume : Bool)
    (num_layers w h : Nat) (hdr : List Nat) (off : Nat)
    (hoff : off + 4 ≤ 24 ∨ (32 ≤ off ∧ off + 4 ≤ 108) ∨ 116 ≤ off) :
    GETL32 (header_stage2 config is_cubemap is_volume num_layers w h hdr) off =
      GETL32 hdr off := by
  unfold header_stage2
  simp (disch := omega) only [GETL32_ite, GETL32_PUTL32_ne, ite_self]

theorem GETL32_header_stage3_flags (config : Config) (is_cubemap is_volume : Bool)
    (basetype : GimpImageBaseType) (w h bpp : Nat) (fmt : FormatFields) (hdr : List Nat)
    (hlen : hdr.length = 128) :
    GETL32 (header_stage3 config is_cubemap is_volume basetype w h bpp fmt hdr) 8 =
      header_flags config is_cubemap is_volume % 4294967296 := by
  unfold header_stage3
  simp (disch := first | omega | (simp only [length_PUTL32, hlen]; omega)) only
    [GETL32_ite, GETL32_PUTL32_ne, GETL32_PUTL32_eq, ite_self]

theorem GETL32_header_stage3_pitch (config : Config) (is_cubemap is_volume : Bool)
    (basetype : GimpImageBaseType) (w h bpp : Nat) (fmt : FormatFields) (hdr : List Nat)
    (hlen : hdr.length = 128) :
    GETL32 (header_stage3 config is_cubemap is_volume basetype w h bpp fmt hdr) 20 =
      (if config.compression = Compression.NONE then w * fmt.fmtbpp
        else header_linear_size config w h) % 4294967296 := by
  unfold header_stage3
  simp (disch := first | omega | (simp only [length_PUTL32, hlen]; omega)) only
    [GETL32_ite, GETL32_PUTL32_ne, GETL32_PUTL32_eq, ite_self]
  split <;> rfl

theorem GETL32_header_stage3_pflags (config : Config) (is_cubemap is_volume : Bool)
    (basetype : GimpImageBaseType) (w h bpp : Nat) (fmt : FormatFields) (hdr : List Nat)
    (hlen : hdr.length = 128) :
    GETL32 (header_stage3 config is_cubemap is_volume basetype w h bpp fmt hdr) 80 =
      header_pflags config basetype bpp fmt % 4294967296 := by
  unfold header_stage3
  simp (disch := first | omega | (simp only [length_PUTL32, hlen]; omega)) only
    [GETL32_ite, GETL32_PUTL32_ne, GETL32_PUTL32_eq, ite_self]

theorem GETL32_header_stage3_fourcc (config : Config) (is_cubemap is_volume : Bool)
    (basetype : GimpImageBaseType) (w h bpp : Nat) (fmt : FormatFields) (hdr : List Nat)
    (hlen : hdr.length = 128) :
    GETL32 (header_stage3 config is_cubemap is_volume basetype w h bpp fmt hdr) 84 =
      if config.compression = Compression.NONE then GETL32 hdr 84
      else (compression_fourcc config.compression fmt.dxgi_format).1 % 4294967296 := by
  unfold header_stage3
  simp (disch := first | omega | (simp only [length_PUTL32, hlen]; omega)) only
    [GETL32_ite, GETL32_PUTL32_ne, GETL32_PUTL32_eq, ite_self]

theorem GETL32_header_stage3_tag (config : Config) (is_cubemap is_volume : Bool)
    (basetype : GimpImageBaseType) (w h bpp : Nat) (fmt : FormatFields) (hdr : List Nat)
    (hlen : hdr.length = 128) :
    GETL32 (header_stage3 config is_cubemap is_volume basetype w h bpp fmt hdr) 44 =
      if config.compression = Compression.NONE then
        (if config.format = PixelFormat.AEXP then FOURCC 'A' 'E' 'X' 'P' % 4294967296
        else if config.format = PixelFormat.YCOCG then FOURCC 'Y' 'C' 'G' '1' % 4294967296
        else GETL32 hdr 44)
      else
        (if config.compression = Compression.AEXP then FOURCC 'A' 'E' 'X' 'P' % 4294967296
        else if config.compression = Compression.YCOCG then
          FOURCC 'Y' 'C' 'G' '1' % 4294967296
        else if config.compression = Compression.YCOCGS then
          FOURCC 'Y' 'C' 'G' '2' % 4294967296
        else GETL32 hdr 44) := by
  unfold header_stage3
  simp (disch := first | omega | (simp only [length_PUTL32, hlen]; omega)) only
    [GETL32_ite, GETL32_PUTL32_ne, GETL32_PUTL32_eq, ite_self]

theorem GETL32_header_stage2_caps (config : Config) (is_cubemap is_volume : Bool)
    (num_layers w h : Nat) (hdr : List Nat) (hlen : hdr.length = 128) :
    GETL32 (header_stage2 config is_cubemap is_volume num_layers w h hdr) 108 =
      header_caps config is_cubemap is_volume % 4294967296 ∧
    GETL32 (header_stage2 config is_cubemap is_volume num_layers w h hdr) 112 =
      header_caps2 config is_cubemap is_volume % 4294967296 ∧
    GETL32 (header_stage2 config is_cubemap is_volume num_layers w h hdr) 28 =
      (if config.mipmaps ≠ MipmapMode.NONE then get_num_mipmaps w h else 1) % 4294967296 := by
  unfold header_stage2
  simp (disch := first | omega | (simp only [length_PUTL32, length_ite, ite_self, hlen]; omega))
    only [GETL32_ite, GETL32_PUTL32_ne, GETL32_PUTL32_eq, ite_self, and_self]

theorem GETL32_header_stage1 (host : Host) (config : Config) (w h : Nat) (fmt : FormatFields) :
    GETL32 (header_stage1 host config w h fmt) 12 = h % 4294967296 ∧
    GETL32 (header_stage1 host config w h fmt) 16 = w % 4294967296 ∧
    GETL32 (header_stage1 host config w h fmt) 32 = FOURCC 'G' 'I' 'M' 'P' % 4294967296 ∧
    GETL32 (header_stage1 host config w h fmt) 36 = FOURCC '-' 'D' 'D' 'S' % 4294967296 ∧
    GETL32 (header_stage1 host config w h fmt) 44 = 0 ∧
    GETL32 (header_stage1 host config w h fmt) 84 = 0 := by
  unfold header_stage1
  simp (disch := first | omega |
      (simp only [length_PUTL32, length_ite, ite_self, List.length_replicate, DDS_HEADERSIZE];
        omega))
    only [GETL32_ite, GETL32_PUTL32_ne, GETL32_PUTL32_eq, GETL32_replicate, ite_self, and_self]

theorem GETL32_header_stage1_masks (host : Host) (config : Config) (w h : Nat)
    (fmt : FormatFields) :
    GETL32 (header_stage1 host config w h fmt) 88 =
      (if config.compression = Compression.NONE then (fmt.fmtbpp <<< 3) % 4294967296 else 0) ∧
    GETL32 (header_stage1 host config w h fmt) 92 =
      (if config.compression = Compression.NONE then fmt.rmask % 4294967296 else 0) ∧
    GETL32 (header_stage1 host config w h fmt) 96 =
      (if config.compression = Compression.NONE then fmt.gmask % 4294967296 else 0) ∧
    GETL32 (header_stage1 host config w h fmt) 100 =
      (if config.compression = Compression.NONE then fmt.bmask % 4294967296 else 0) ∧
    GETL32 (header_stage1 host config w h fmt) 104 =
      (if config.compression = Compression.NONE then fmt.amask % 4294967296 else 0) := by
  unfold header_stage1
  simp (disch := first | omega |
      (simp only [length_PUTL32, length_ite, ite_self, List.length_replicate, DDS_HEADERSIZE];
        omega))
    only [GETL32_ite, GETL32_PUTL32_ne, GETL32_PUTL32_eq, GETL32_replicate, ite_self, and_self]

theorem write_image_header_eq (host : Host) (is_cubemap is_volume : Bool) (image : Image)
    (drawable : Layer) (config : Config) :
    ∃ fmt, format_fields config.format (drawable_bpp drawable.type) image.base_type = some fmt ∧
      write_image_header host is_cubemap is_volume image drawable config =
        some (build_header host is_cubemap is_volume image config
          (if config.savetype = SaveType.SELECTED_LAYER then drawable.width else image.width)
          (if config.savetype = SaveType.SELECTED_LAYER then drawable.height else image.height)
          (drawable_bpp drawable.type) fmt) := by
  obtain ⟨fmt, hfmt⟩ := format_fields_some config.format (drawable_bpp drawable.type)
    image.base_type
  refine ⟨fmt, hfmt, ?_⟩
  unfold write_image_header
  simp only [hfmt]

theorem header_flags_value (config : Config) (is_cubemap is_volume : Bool) :
    header_flags config is_cubemap is_volume =
      ((((DDSD_CAPS ||| DDSD_HEIGHT ||| DDSD_WIDTH ||| DDSD_PIXELFORMAT) |||
        (if config.mipmaps ≠ MipmapMode.NONE then DDSD_MIPMAPCOUNT else 0)) |||
        (if config.savetype = SaveType.VOLUMEMAP ∧ is_volume = true then DDSD_DEPTH else 0)) |||
        (if config.compression = Compression.NONE then DDSD_PITCH else DDSD_LINEARSIZE)) ∧
    header_flags config is_cubemap is_volume % 4294967296 =
      header_flags config is_cubemap is_volume := by
  unfold header_flags
  by_cases hm : config.mipmaps = MipmapMode.NONE <;>
  by_cases hv : config.savetype = SaveType.VOLUMEMAP <;>
  by_cases hc : config.compression = Compression.NONE <;>
  cases is_cubemap <;> cases is_volume <;>
  simp [hm, hv, hc] <;> decide

theorem header_caps_value (config : Config) (is_cubemap is_volume : Bool) :
    header_caps config is_cubemap is_volume =
      ((DDSCAPS_TEXTURE |||
        (if config.mipmaps ≠ MipmapMode.NONE then DDSCAPS_COMPLEX ||| DDSCAPS_MIPMAP else 0)) |||
        (if (config.savetype = SaveType.CUBEMAP ∧ is_cubemap = true) ∨
            (config.savetype = SaveType.VOLUMEMAP ∧ is_volume = true) then DDSCAPS_COMPLEX
          else 0)) ∧
    header_caps config is_cubemap is_volume % 4294967296 =
      header_caps config is_cubemap is_volume := by
  unfold header_caps
  by_cases hm : config.mipmaps = MipmapMode.NONE <;>
  by_cases hv : config.savetype = SaveType.VOLUMEMAP <;>
  by_cases hc : config.savetype = SaveType.CUBEMAP <;>
  cases is_cubemap <;> cases is_volume <;>
  simp [hm, hv, hc] <;> decide

theorem header_caps2_value (config : Config) (is_cubemap is_volume : Bool) :
    header_caps2 config is_cubemap is_volume =
      (if config.savetype = SaveType.CUBEMAP ∧ is_cubemap = true then
        DDSCAPS2_CUBEMAP ||| DDSCAPS2_CUBEMAP_ALL_FACES
      else if config.savetype = SaveType.VOLUMEMAP ∧ is_volume = true then DDSCAPS2_VOLUME
      else 0) ∧
    header_caps2 config is_cubemap is_volume % 4294967296 =
      header_caps2 config is_cubemap is_volume := by
  unfold header_caps2
  by_cases hv : config.savetype = SaveType.VOLUMEMAP <;>
  by_cases hc : config.savetype = SaveType.CUBEMAP <;>
  cases is_cubemap <;> cases is_volume <;>
  simp [hv, hc] <;> decide

/-- Bit relations between the three flag words. -/
theorem header_words_bits (config : Config) (is_cubemap is_volume : Bool) :
    ((header_flags config is_cubemap is_volume &&& DDSD_PITCH = DDSD_PITCH ↔
        config.compression = Compression.NONE) ∧
      (header_flags config is_cubemap is_volume &&& DDSD_LINEARSIZE = DDSD_LINEARSIZE ↔
        config.compression ≠ Compression.NONE)) ∧
    (header_caps config is_cubemap is_volume &&& DDSCAPS_MIPMAP = DDSCAPS_MIPMAP →
      header_caps config is_cubemap is_volume &&& DDSCAPS_COMPLEX = DDSCAPS_COMPLEX) ∧
    (header_flags config is_cubemap is_volume &&& DDSD_MIPMAPCOUNT = DDSD_MIPMAPCOUNT ↔
      header_caps config is_cubemap is_volume &&& DDSCAPS_MIPMAP = DDSCAPS_MIPMAP) ∧
    (header_flags config is_cubemap is_volume &&& DDSD_DEPTH = DDSD_DEPTH ↔
      header_caps2 config is_cubemap is_volume &&& DDSCAPS2_VOLUME = DDSCAPS2_VOLUME) := by
  unfold header_flags header_caps header_caps2
  by_cases hm : config.mipmaps = MipmapMode.NONE <;>
  by_cases hv : config.savetype = SaveType.VOLUMEMAP <;>
  by_cases hc : config.savetype = SaveType.CUBEMAP <;>
  by_cases hn : config.compression = Compression.NONE <;>
  cases is_cubemap <;> cases is_volume <;>
  simp [hm, hv, hc, hn] <;> decide

/-- The three flag words of the header that `write_image` builds. -/
theorem write_image_header_words (host : Host) (is_cubemap is_volume : Bool) (image : Image)
    (drawable : Layer) (config : Config) :
    ∃ r, write_image_header host is_cubemap is_volume image drawable config = some r ∧
      GETL32 r.hdr 8 = header_flags config is_cubemap is_volume ∧
      GETL32 r.hdr 108 = header_caps config is_cubemap is_volume ∧
      GETL32 r.hdr 112 = header_caps2 config is_cubemap is_volume := by
  obtain ⟨fmt, _, hr⟩ := write_image_header_eq host is_cubemap is_volume image drawable config
  refine ⟨_, hr, ?_, ?_, ?_⟩
  · rw [build_header_hdr, GETL32_header_stage4_ne _ _ _ _ (by omega),
      GETL32_header_stage3_flags _ _ _ _ _ _ _ _ _ (by
        rw [length_header_stage2, length_header_stage1]),
      (header_flags_value config is_cubemap is_volume).2]
  · rw [build_header_hdr, GETL32_header_stage4_ne _ _ _ _ (by omega),
      GETL32_header_stage3_ne _ _ _ _ _ _ _ _ _ _ (by omega),
      (GETL32_header_stage2_caps _ _ _ _ _ _ _ (length_header_stage1 _ _ _ _ _)).1,
      (header_caps_value config is_cubemap is_volume).2]
  · rw [build_header_hdr, GETL32_header_stage4_ne _ _ _ _ (by omega),
      GETL32_header_stage3_ne _ _ _ _ _ _ _ _ _ _ (by omega),
      (GETL32_header_stage2_caps _ _ _ _ _ _ _ (length_header_stage1 _ _ _ _ _)).2.1,
      (header_caps2_value config is_cubemap is_volume).2]

theorem lookup_format_info_mem (pixel_format : PixelFormat) (l : List FormatInfo)
    (fi : FormatInfo) (h : lookup_format_info pixel_format l = some fi) :
    fi ∈ l ∧ fi.format = pixel_format := by
  induction l with
  | nil => cases h
  | cons a l ih =>
    unfold lookup_format_info at h
    by_cases ha : a.format = pixel_format
    · rw [if_pos ha] at h
      cases h
      exact ⟨List.mem_cons_self _ _, ha⟩
    · rw [if_neg ha] at h
      exact ⟨List.mem_cons_of_mem _ (ih h).1, (ih h).2⟩

/-- Every row of `format_info` has a byte depth from 1 to 4, an alpha flag 0 or 1 and
32-bit masks, and no two rows have the same format. -/
theorem format_info_rows (fi : FormatInfo) (h : fi ∈ format_info) :
    1 ≤ fi.bpp ∧ fi.bpp ≤ 4 ∧ fi.alpha ≤ 1 ∧ fi.rmask < 4294967296 ∧ fi.gmask < 4294967296 ∧
      fi.bmask < 4294967296 ∧ fi.amask < 4294967296 ∧
      lookup_format_info fi.format format_info = some fi := by
  unfold format_info at h
  simp only [List.mem_cons, List.mem_singleton, List.not_mem_nil, or_false] at h
  rcases h with h | h | h | h | h | h | h | h | h | h | h | h | h | h <;>
    subst h <;>
    exact ⟨by decide, by decide, by decide, by decide, by decide, by decide, by decide, rfl⟩

theorem format_fields_bounds (pixel_format : PixelFormat) (bpp : Nat)
    (basetype : GimpImageBaseType) (fmt : FormatFields)
    (h : format_fields pixel_format bpp basetype = some fmt) :
    1 ≤ fmt.fmtbpp ∧ fmt.fmtbpp ≤ 4 ∧ fmt.rmask < 4294967296 ∧ fmt.gmask < 4294967296 ∧
      fmt.bmask < 4294967296 ∧ fmt.amask < 4294967296 := by
  unfold format_fields at h
  by_cases hpf : pixel_format ≠ PixelFormat.DEFAULT
  · rw [if_pos hpf] at h
    cases hl : lookup_format_info pixel_format format_info with
    | none => rw [hl] at h; cases h
    | some fi =>
      rw [hl] at h
      simp only [Option.some.injEq] at h
      subst h
      have := format_info_rows fi (lookup_format_info_mem _ _ _ hl).1
      simp only
      omega
  · rw [if_neg hpf] at h
    split_ifs at h <;> (simp only [Option.some.injEq] at h; subst h; decide)

theorem ceil_div_four (w : Nat) : ⌈(w : ℚ) / 4⌉₊ = (w + 3) / 4 := by
  apply le_antisymm
  · rw [Nat.ceil_le, div_le_iff₀ (by norm_num)]
    have h : w ≤ (w + 3) / 4 * 4 := by omega
    exact_mod_cast h
  · by_contra hlt
    push_neg at hlt
    have h1 : ⌈(w : ℚ) / 4⌉₊ + 1 ≤ (w + 3) / 4 := hlt
    have h2 : (w : ℚ) / 4 ≤ ⌈(w : ℚ) / 4⌉₊ := Nat.le_ceil _
    have h3 : (w : ℚ) ≤ ⌈(w : ℚ) / 4⌉₊ * 4 := by
      rw [div_le_iff₀ (by norm_num)] at h2
      exact h2
    have h4 : w ≤ ⌈(w : ℚ) / 4⌉₊ * 4 := by exact_mod_cast h3
    omega

theorem build_header_fields (host : Host) (is_cubemap is_volume : Bool) (image : Image)
    (config : Config) (w h bpp : Nat) (fmt : FormatFields) :
    (build_header host is_cubemap is_volume image config w h bpp fmt).w = w ∧
    (build_header host is_cubemap is_volume image config w h bpp fmt).h = h ∧
    (build_header host is_cubemap is_volume image config w h bpp fmt).bpp = bpp ∧
    (build_header host is_cubemap is_volume image config w h bpp fmt).fmtbpp = fmt.fmtbpp ∧
    (build_header host is_cubemap is_volume image config w h bpp fmt).num_mipmaps =
      (if config.mipmaps ≠ MipmapMode.NONE then get_num_mipmaps w h else 1) ∧
    (build_header host is_cubemap is_volume image config w h bpp fmt).is_dx10 =
      decide (config.savetype = SaveType.ARRAY) := by
  unfold build_header
  by_cases hs : config.savetype = SaveType.ARRAY
  · simp only [hs, decide_True, if_true, and_self]
  · simp only [hs, decide_False, if_false, Bool.false_eq_true, and_self]

theorem build_header_length (host : Host) (is_cubemap is_volume : Bool) (image : Image)
    (config : Config) (w h bpp : Nat) (fmt : FormatFields) :
    (build_header host is_cubemap is_volume image config w h bpp fmt).hdr.length = 128 := by
  rw [build_header_hdr, length_header_stage4, length_header_stage3, length_header_stage2,
    length_header_stage1]

/-- C11. For every image and configuration the header that `write_image` builds has
the three flag words: flags (offset 8) = CAPS|HEIGHT|WIDTH|PIXELFORMAT, plus MIPMAPCOUNT
iff the mipmap mode is not None, plus DEPTH iff the save type is Volumemap and
`is_volume`, plus PITCH for compression None and LINEARSIZE otherwise; caps1 (offset
108) = TEXTURE, plus COMPLEX|MIPMAP iff the mipmap mode is not None, plus COMPLEX iff
(Cubemap and `is_cubemap`) or (Volumemap and `is_volume`); caps2 (offset 112) =
CUBEMAP|CUBEMAP_ALLFACES for (Cubemap and `is_cubemap`), VOLUME for (Volumemap and
`is_volume`), 0 otherwise. PITCH is set iff the file is uncompressed and LINEARSIZE iff
it is compressed, MIPMAP implies COMPLEX, MIPMAPCOUNT is set iff MIPMAP is, and DEPTH
is set iff VOLUME is. -/
theorem header_flag_words (host : Host) (is_cubemap is_volume : Bool) (image : Image)
    (drawable : Layer) (config : Config) :
    ∃ r, write_image_header host is_cubemap is_volume image drawable config = some r ∧
      GETL32 r.hdr 8 =
        ((((DDSD_CAPS ||| DDSD_HEIGHT ||| DDSD_WIDTH ||| DDSD_PIXELFORMAT) |||
          (if config.mipmaps ≠ MipmapMode.NONE then DDSD_MIPMAPCOUNT else 0)) |||
          (if config.savetype = SaveType.VOLUMEMAP ∧ is_volume = true then DDSD_DEPTH else 0)) |||
          (if config.compression = Compression.NONE then DDSD_PITCH else DDSD_LINEARSIZE)) ∧
      GETL32 r.hdr 108 =
        ((DDSCAPS_TEXTURE |||
          (if config.mipmaps ≠ MipmapMode.NONE then DDSCAPS_COMPLEX ||| DDSCAPS_MIPMAP else 0)) |||
          (if (config.savetype = SaveType.CUBEMAP ∧ is_cubemap = true) ∨
              (config.savetype = SaveType.VOLUMEMAP ∧ is_volume = true) then DDSCAPS_COMPLEX
            else 0)) ∧
      GETL32 r.hdr 112 =
        (if config.savetype = SaveType.CUBEMAP ∧ is_cubemap = true then
          DDSCAPS2_CUBEMAP ||| DDSCAPS2_CUBEMAP_ALL_FACES
        else if config.savetype = SaveType.VOLUMEMAP ∧ is_volume = true then DDSCAPS2_VOLUME
        else 0) ∧
      (GETL32 r.hdr 8 &&& DDSD_PITCH = DDSD_PITCH ↔ config.compression = Compression.NONE) ∧
      (GETL32 r.hdr 8 &&& DDSD_LINEARSIZE = DDSD_LINEARSIZE ↔
        config.compression ≠ Compression.NONE) ∧
      (GETL32 r.hdr 108 &&& DDSCAPS_MIPMAP = DDSCAPS_MIPMAP →
        GETL32 r.hdr 108 &&& DDSCAPS_COMPLEX = DDSCAPS_COMPLEX) ∧
      (GETL32 r.hdr 8 &&& DDSD_MIPMAPCOUNT = DDSD_MIPMAPCOUNT ↔
        GETL32 r.hdr 108 &&& DDSCAPS_MIPMAP = DDSCAPS_MIPMAP) ∧
      (GETL32 r.hdr 8 &&& DDSD_DEPTH = DDSD_DEPTH ↔
        GETL32 r.hdr 112 &&& DDSCAPS2_VOLUME = DDSCAPS2_VOLUME) := by
  obtain ⟨r, hr, h8, h108, h112⟩ :=
    write_image_header_words host is_cubemap is_volume image drawable config
  have hb := header_words_bits config is_cubemap is_volume
  refine ⟨r, hr, ?_, ?_, ?_, ?_, ?_, ?_, ?_, ?_⟩
  · rw [h8]; exact (header_flags_value config is_cubemap is_volume).1
  · rw [h108]; exact (header_caps_value config is_cubemap is_volume).1
  · rw [h112]; exact (header_caps2_value config is_cubemap is_volume).1
  · rw [h8]; exact hb.1.1
  · rw [h8]; exact hb.1.2
  · rw [h108]; exact hb.2.1
  · rw [h8, h108]; exact hb.2.2.1
  · rw [h8, h112]; exact hb.2.2.2

/-- Height, width, pitch or linear size, bit count and masks of the header. -/
theorem write_image_header_sizes (host : Host) (is_cubemap is_volume : Bool) (image : Image)
    (drawable : Layer) (config : Config) :
    ∃ r fmt, write_image_header host is_cubemap is_volume image drawable config = some r ∧
      format_fields config.format (drawable_bpp drawable.type) image.base_type = some fmt ∧
      r.w = (if config.savetype = SaveType.SELECTED_LAYER then drawable.width
        else image.width) ∧
      r.h = (if config.savetype = SaveType.SELECTED_LAYER then drawable.height
        else image.height) ∧
      r.bpp = drawable_bpp drawable.type ∧
      r.fmtbpp = fmt.fmtbpp ∧
      r.num_mipmaps = (if config.mipmaps ≠ MipmapMode.NONE then get_num_mipmaps r.w r.h else 1) ∧
      r.hdr.length = 128 ∧
      GETL32 r.hdr 12 = r.h % 4294967296 ∧
      GETL32 r.hdr 16 = r.w % 4294967296 ∧
      GETL32 r.hdr 20 = (if config.compression = Compression.NONE then r.w * fmt.fmtbpp
        else header_linear_size config r.w r.h) % 4294967296 ∧
      GETL32 r.hdr 28 = r.num_mipmaps % 4294967296 ∧
      GETL32 r.hdr 88 =
        (if config.compression = Compression.NONE then 8 * fmt.fmtbpp else 0) ∧
      GETL32 r.hdr 92 = (if config.compression = Compression.NONE then fmt.rmask else 0) ∧
      GETL32 r.hdr 96 = (if config.compression = Compression.NONE then fmt.gmask else 0) ∧
      GETL32 r.hdr 100 = (if config.compression = Compression.NONE then fmt.bmask else 0) ∧
      GETL32 r.hdr 104 = (if config.compression = Compression.NONE then fmt.amask else 0) := by
  obtain ⟨fmt, hfmt, hr⟩ := write_image_header_eq host is_cubemap is_volume image drawable config
  have hf := build_header_fields host is_cubemap is_volume image config
    (if config.savetype = SaveType.SELECTED_LAYER then drawable.width else image.width)
    (if config.savetype = SaveType.SELECTED_LAYER then drawable.height else image.height)
    (drawable_bpp drawable.type) fmt
  have hb := format_fields_bounds _ _ _ _ hfmt
  have hm := GETL32_header_stage1_masks host config
    (if config.savetype = SaveType.SELECTED_LAYER then drawable.width else image.width)
    (if config.savetype = SaveType.SELECTED_LAYER then drawable.height else image.height) fmt
  have h1 := GETL32_header_stage1 host config
    (if config.savetype = SaveType.SELECTED_LAYER then drawable.width else image.width)
    (if config.savetype = SaveType.SELECTED_LAYER then drawable.height else image.height) fmt
  have hl1 := length_header_stage1 host config
    (if config.savetype = SaveType.SELECTED_LAYER then drawable.width else image.width)
    (if config.savetype = SaveType.SELECTED_LAYER then drawable.height else image.height) fmt
  refine ⟨_, fmt, hr, hfmt, hf.1, hf.2.1, hf.2.2.1, hf.2.2.2.1, ?_, ?_, ?_, ?_, ?_, ?_, ?_, ?_, ?_,
    ?_, ?_⟩
  · rw [hf.2.2.2.2.1, hf.1, hf.2.1]
  · exact build_header_length _ _ _ _ _ _ _ _ _
  · rw [build_header_hdr, GETL32_header_stage4_ne _ _ _ _ (by omega),
      GETL32_header_stage3_ne _ _ _ _ _ _ _ _ _ _ (by omega),
      GETL32_header_stage2_ne _ _ _ _ _ _ _ _ (by omega), h1.1, hf.2.1]
  · rw [build_header_hdr, GETL32_header_stage4_ne _ _ _ _ (by omega),
      GETL32_header_stage3_ne _ _ _ _ _ _ _ _ _ _ (by omega),
      GETL32_header_stage2_ne _ _ _ _ _ _ _ _ (by omega), h1.2.1, hf.1]
  · rw [build_header_hdr, GETL32_header_stage4_ne _ _ _ _ (by omega),
      GETL32_header_stage3_pitch _ _ _ _ _ _ _ _ _ (by rw [length_header_stage2, hl1]),
      hf.1, hf.2.1]
  · rw [build_header_hdr, GETL32_header_stage4_ne _ _ _ _ (by omega),
      GETL32_header_stage3_ne _ _ _ _ _ _ _ _ _ _ (by omega),
      (GETL32_header_stage2_caps _ _ _ _ _ _ _ hl1).2.2, hf.2.2.2.2.1]
  · rw [build_header_hdr, GETL32_header_stage4_ne _ _ _ _ (by omega),
      GETL32_header_stage3_ne _ _ _ _ _ _ _ _ _ _ (by omega),
      GETL32_header_stage2_ne _ _ _ _ _ _ _ _ (by omega), hm.1]
    split
    · rw [Nat.shiftLeft_eq]
      omega
    · rfl
  · rw [build_header_hdr, GETL32_header_stage4_ne _ _ _ _ (by omega),
      GETL32_header_stage3_ne _ _ _ _ _ _ _ _ _ _ (by omega),
      GETL32_header_stage2_ne _ _ _ _ _ _ _ _ (by omega), hm.2.1]
    split
    · omega
    · rfl
  · rw [build_header_hdr, GETL32_header_stage4_ne _ _ _ _ (by omega),
      GETL32_header_stage3_ne _ _ _ _ _ _ _ _ _ _ (by omega),
      GETL32_header_stage2_ne _ _ _ _ _ _ _ _ (by omega), hm.2.2.1]
    split
    · omega
    · rfl
  · rw [build_header_hdr, GETL32_header_stage4_ne _ _ _ _ (by omega),
      GETL32_header_stage3_ne _ _ _ _ _ _ _ _ _ _ (by omega),
      GETL32_header_stage2_ne _ _ _ _ _ _ _ _ (by omega), hm.2.2.2.1]
    split
    · omega
    · rfl
  · rw [build_header_hdr, GETL32_header_stage4_ne _ _ _ _ (by omega),
      GETL32_header_stage3_ne _ _ _ _ _ _ _ _ _ _ (by omega),
      GETL32_header_stage2_ne _ _ _ _ _ _ _ _ (by omega), hm.2.2.2.2]
    split
    · omega
    · rfl

theorem format_fields_row (pixel_format : PixelFormat) (bpp : Nat)
    (basetype : GimpImageBaseType) (h : pixel_format ≠ PixelFormat.DEFAULT) :
    ∃ fi, lookup_format_info pixel_format format_info = some fi ∧
      fi ∈ format_info ∧ fi.format = pixel_format ∧
      format_fields pixel_format bpp basetype =
        some ⟨fi.bpp, fi.alpha, fi.rmask, fi.gmask, fi.bmask, fi.amask, fi.dxgi_format⟩ := by
  obtain ⟨fi, hfi⟩ := lookup_format_info_some pixel_format h
  refine ⟨fi, hfi, (lookup_format_info_mem _ _ _ hfi).1, (lookup_format_info_mem _ _ _ hfi).2, ?_⟩
  unfold format_fields
  rw [if_pos h, hfi]

/-- C12. For an uncompressed encode of a `W` x `H` surface (`W` below 2^30, so that the
pitch fits the 32-bit field) the 128-byte header of `write_image` reads back the
encoder's own values: height at offset 12, width at 16, pitch `W * fmtbpp` at 20, bit
count `8 * fmtbpp` at 88, and at 92..104 the masks of the `format_info` row of the
requested pixel format; for the default format and an RGBA source the masks are
0x00ff0000, 0x0000ff00, 0x000000ff, 0xff000000 with 4 bytes per pixel. -/
theorem uncompressed_header_round_trip (host : Host) (is_cubemap is_volume : Bool)
    (image : Image) (drawable : Layer) (config : Config) (W H : Nat)
    (hc : config.compression = Compression.NONE)
    (hW : (if config.savetype = SaveType.SELECTED_LAYER then drawable.width
      else image.width) = W)
    (hH : (if config.savetype = SaveType.SELECTED_LAYER then drawable.height
      else image.height) = H)
    (hWb : W < 1073741824) (hHb : H < 4294967296) :
    ∃ r, write_image_header host is_cubemap is_volume image drawable config = some r ∧
      r.hdr.length = 128 ∧ r.w = W ∧ r.h = H ∧
      GETL32 r.hdr 12 = H ∧ GETL32 r.hdr 16 = W ∧
      GETL32 r.hdr 20 = W * r.fmtbpp ∧ GETL32 r.hdr 88 = 8 * r.fmtbpp ∧
      (config.format ≠ PixelFormat.DEFAULT →
        ∃ fi, lookup_format_info config.format format_info = some fi ∧
          fi ∈ format_info ∧ fi.format = config.format ∧ r.fmtbpp = fi.bpp ∧
          GETL32 r.hdr 92 = fi.rmask ∧ GETL32 r.hdr 96 = fi.gmask ∧
          GETL32 r.hdr 100 = fi.bmask ∧ GETL32 r.hdr 104 = fi.amask) ∧
      (config.format = PixelFormat.DEFAULT → drawable.type = GimpImageType.RGBA_IMAGE →
        r.fmtbpp = 4 ∧
          GETL32 r.hdr 92 = 0x00ff0000 ∧ GETL32 r.hdr 96 = 0x0000ff00 ∧
          GETL32 r.hdr 100 = 0x000000ff ∧ GETL32 r.hdr 104 = 0xff000000) := by
  obtain ⟨r, fmt, hr, hfmt, hw, hh, -, hfb, -, hlen, h12, h16, h20, -, h88, h92, h96, h100,
    h104⟩ := write_image_header_sizes host is_cubemap is_volume image drawable config
  have hb := format_fields_bounds _ _ _ _ hfmt
  rw [hW] at hw
  rw [hH] at hh
  rw [if_pos hc] at h20 h88 h92 h96 h100 h104
  rw [hw] at h16 h20
  rw [hh] at h12
  have hmul : W * fmt.fmtbpp < 4294967296 := by
    have : W * fmt.fmtbpp ≤ W * 4 := Nat.mul_le_mul_left _ hb.2.1
    omega
  refine ⟨r, hr, hlen, hw, hh, ?_, ?_, ?_, ?_, ?_, ?_⟩
  · rw [h12, Nat.mod_eq_of_lt hHb]
  · rw [h16, Nat.mod_eq_of_lt (by omega)]
  · rw [h20, Nat.mod_eq_of_lt hmul, hfb]
  · rw [h88, hfb]
  · intro hpf
    obtain ⟨fi, hl, hmem, hfi, hff⟩ :=
      format_fields_row config.format (drawable_bpp drawable.type) image.base_type hpf
    rw [hff] at hfmt
    simp only [Option.some.injEq] at hfmt
    subst hfmt
    exact ⟨fi, hl, hmem, hfi, hfb, h92, h96, h100, h104⟩
  · intro hpf hty
    have hff : format_fields config.format (drawable_bpp drawable.type) image.base_type =
        some ⟨4, 1, 0x00ff0000, 0x0000ff00, 0x000000ff, 0xff000000,
          DXGI_FORMAT.B8G8R8A8_UNORM⟩ := by
      rw [hpf, hty]
      rfl
    rw [hff] at hfmt
    simp only [Option.some.injEq] at hfmt
    subst hfmt
    exact ⟨hfb, h92, h96, h100, h104⟩

set_option maxRecDepth 100000 in
/-- C12 at a 4x4 RGBA layer saved uncompressed in the default format: pitch 16, bit
count 32 and the four RGBA8 masks. -/
theorem uncompressed_header_round_trip_witness :
    ∃ r, write_image_header (quiet_host 4096) false false single_layer_image
        (rgba_layer 1 "Background" 4 4) (plain_config MipmapMode.NONE) = some r ∧
      r.hdr.length = 128 ∧ r.w = 4 ∧ r.h = 4 ∧
      GETL32 r.hdr 12 = 4 ∧ GETL32 r.hdr 16 = 4 ∧
      GETL32 r.hdr 20 = 4 * r.fmtbpp ∧ GETL32 r.hdr 88 = 8 * r.fmtbpp ∧
      ((plain_config MipmapMode.NONE).format ≠ PixelFormat.DEFAULT →
        ∃ fi, lookup_format_info (plain_config MipmapMode.NONE).format format_info = some fi ∧
          fi ∈ format_info ∧ fi.format = (plain_config MipmapMode.NONE).format ∧
          r.fmtbpp = fi.bpp ∧
          GETL32 r.hdr 92 = fi.rmask ∧ GETL32 r.hdr 96 = fi.gmask ∧
          GETL32 r.hdr 100 = fi.bmask ∧ GETL32 r.hdr 104 = fi.amask) ∧
      ((plain_config MipmapMode.NONE).format = PixelFormat.DEFAULT →
        (rgba_layer 1 "Background" 4 4).type = GimpImageType.RGBA_IMAGE →
        r.fmtbpp = 4 ∧
          GETL32 r.hdr 92 = 0x00ff0000 ∧ GETL32 r.hdr 96 = 0x0000ff00 ∧
          GETL32 r.hdr 100 = 0x000000ff ∧ GETL32 r.hdr 104 = 0xff000000) :=
  uncompressed_header_round_trip (quiet_host 4096) false false single_layer_image
    (rgba_layer 1 "Background" 4 4) (plain_config MipmapMode.NONE) 4 4 rfl rfl rfl
    (by decide) (by decide)

/-- C13. For a compressed encode of a `W` x `H` surface (with a linear size that fits
the 32-bit field) the field at header offset 20 is `ceil(W/4) * ceil(H/4) * blockbytes`
with 8 block bytes for BC1 and BC4 and 16 for every other compression; the PITCH flag
is clear, and the bit count and the masks at offsets 88..104 are zero. -/
theorem compressed_header_linear_size (host : Host) (is_cubemap is_volume : Bool)
    (image : Image) (drawable : Layer) (config : Config) (W H : Nat)
    (hc : config.compression ≠ Compression.NONE)
    (hW : (if config.savetype = SaveType.SELECTED_LAYER then drawable.width
      else image.width) = W)
    (hH : (if config.savetype = SaveType.SELECTED_LAYER then drawable.height
      else image.height) = H)
    (hsize : ⌈(W : ℚ) / 4⌉₊ * ⌈(H : ℚ) / 4⌉₊ * 16 < 4294967296) :
    ∃ r, write_image_header host is_cubemap is_volume image drawable config = some r ∧
      r.w = W ∧ r.h = H ∧
      GETL32 r.hdr 20 = ⌈(W : ℚ) / 4⌉₊ * ⌈(H : ℚ) / 4⌉₊ *
        (if config.compression = Compression.BC1 ∨ config.compression = Compression.BC4
          then 8 else 16) ∧
      GETL32 r.hdr 8 &&& DDSD_PITCH = 0 ∧
      GETL32 r.hdr 88 = 0 ∧ GETL32 r.hdr 92 = 0 ∧ GETL32 r.hdr 96 = 0 ∧
      GETL32 r.hdr 100 = 0 ∧ GETL32 r.hdr 104 = 0 := by
  obtain ⟨r, fmt, hr, hfmt, hw, hh, -, hfb, -, hlen, h12, h16, h20, -, h88, h92, h96, h100,
    h104⟩ := write_image_header_sizes host is_cubemap is_volume image drawable config
  obtain ⟨r2, hr2, h8, -, -⟩ :=
    write_image_header_words host is_cubemap is_volume image drawable config
  rw [hr] at hr2
  cases hr2
  rw [hW] at hw
  rw [hH] at hh
  rw [if_neg hc] at h20 h88 h92 h96 h100 h104
  rw [hw, hh] at h20
  rw [ceil_div_four, ceil_div_four] at hsize ⊢
  refine ⟨r, hr, hw, hh, ?_, ?_, h88, h92, h96, h100, h104⟩
  · rw [h20]
    unfold header_linear_size
    simp only [Nat.shiftRight_eq_div_pow]
    have h4 : (2 : Nat) ^ 2 = 4 := rfl
    rw [h4]
    by_cases hb : config.compression = Compression.BC1 ∨ config.compression = Compression.BC4
    · rw [if_pos hb, if_pos hb]
      apply Nat.mod_eq_of_lt
      omega
    · rw [if_neg hb, if_neg hb]
      exact Nat.mod_eq_of_lt hsize
  · rw [h8]
    have := (header_words_bits config is_cubemap is_volume).1
    have hv := (header_flags_value config is_cubemap is_volume).1
    rw [hv, if_neg hc]
    by_cases hm : config.mipmaps = MipmapMode.NONE <;>
    by_cases hvv : config.savetype = SaveType.VOLUMEMAP ∧ is_volume = true <;>
    simp [hm, hvv] <;> decide

/-- C13 at the 8x8 RGB layer saved with BC1: linear size 2 * 2 * 8. -/
theorem compressed_header_linear_size_witness :
    ∃ r, write_image_header (quiet_host 4096) false false rgb_image_8x8 rgb_layer_8x8
        bc1_mipmap_config = some r ∧
      r.w = 8 ∧ r.h = 8 ∧
      GETL32 r.hdr 20 = ⌈((8 : Nat) : ℚ) / 4⌉₊ * ⌈((8 : Nat) : ℚ) / 4⌉₊ *
        (if bc1_mipmap_config.compression = Compression.BC1 ∨
            bc1_mipmap_config.compression = Compression.BC4
          then 8 else 16) ∧
      GETL32 r.hdr 8 &&& DDSD_PITCH = 0 ∧
      GETL32 r.hdr 88 = 0 ∧ GETL32 r.hdr 92 = 0 ∧ GETL32 r.hdr 96 = 0 ∧
      GETL32 r.hdr 100 = 0 ∧ GETL32 r.hdr 104 = 0 :=
  compressed_header_linear_size (quiet_host 4096) false false rgb_image_8x8 rgb_layer_8x8
    bc1_mipmap_config 8 8 (by decide) rfl rfl
    (by rw [ceil_div_four]; decide)

theorem GETL32_header_stage4 (config : Config) (pflags : Nat) (hdr : List Nat)
    (hlen : hdr.length = 128) :
    GETL32 (header_stage4 config pflags hdr) 80 =
      (if config.savetype = SaveType.ARRAY then (pflags ||| DDPF_FOURCC) % 4294967296
        else GETL32 hdr 80) ∧
    GETL32 (header_stage4 config pflags hdr) 84 =
      (if config.savetype = SaveType.ARRAY then FOURCC 'D' 'X' '1' '0' % 4294967296
        else GETL32 hdr 84) := by
  unfold header_stage4
  simp (disch := first | omega | (simp only [length_PUTL32, length_ite, ite_self, hlen]; omega))
    only [GETL32_ite, GETL32_PUTL32_ne, GETL32_PUTL32_eq, ite_self, and_self]

theorem build_header_hdr10 (host : Host) (is_cubemap is_volume : Bool) (image : Image)
    (config : Config) (w h bpp : Nat) (fmt : FormatFields)
    (hs : config.savetype = SaveType.ARRAY) :
    (build_header host is_cubemap is_volume image config w h bpp fmt).hdr10 =
      header_dx10 host config image fmt := by
  unfold build_header header_dx10 header_dxgi_format
  by_cases hc : config.compression = Compression.NONE
  · simp only [hs, hc, decide_True, if_true]
  · simp only [hs, hc, decide_True, if_true, if_false]

theorem header_pflags_lt (config : Config) (basetype : GimpImageBaseType) (bpp : Nat)
    (fmt : FormatFields) :
    header_pflags config basetype bpp fmt < 4294967296 ∧
    (header_pflags config basetype bpp fmt ||| DDPF_FOURCC) < 4294967296 := by
  unfold header_pflags
  split_ifs <;> decide

theorem compression_fourcc_lt (compression : Compression) (dxgi_format : DXGI_FORMAT) :
    (compression_fourcc compression dxgi_format).1 < 4294967296 := by
  cases compression <;> simp only [compression_fourcc] <;> decide

/-- The pixel-format flags, FourCC and writer tags of the header. -/
theorem write_image_header_tags (host : Host) (is_cubemap is_volume : Bool) (image : Image)
    (drawable : Layer) (config : Config) :
    ∃ r fmt, write_image_header host is_cubemap is_volume image drawable config = some r ∧
      format_fields config.format (drawable_bpp drawable.type) image.base_type = some fmt ∧
      r.is_dx10 = decide (config.savetype = SaveType.ARRAY) ∧
      (config.savetype = SaveType.ARRAY → r.hdr10 = header_dx10 host config image fmt) ∧
      GETL32 r.hdr 32 = FOURCC 'G' 'I' 'M' 'P' ∧
      GETL32 r.hdr 36 = FOURCC '-' 'D' 'D' 'S' ∧
      GETL32 r.hdr 44 =
        (if config.compression = Compression.NONE then
          (if config.format = PixelFormat.AEXP then FOURCC 'A' 'E' 'X' 'P'
          else if config.format = PixelFormat.YCOCG then FOURCC 'Y' 'C' 'G' '1'
          else 0)
        else
          (if config.compression = Compression.AEXP then FOURCC 'A' 'E' 'X' 'P'
          else if config.compression = Compression.YCOCG then FOURCC 'Y' 'C' 'G' '1'
          else if config.compression = Compression.YCOCGS then FOURCC 'Y' 'C' 'G' '2'
          else 0)) ∧
      GETL32 r.hdr 80 =
        (if config.savetype = SaveType.ARRAY then
          header_pflags config image.base_type (drawable_bpp drawable.type) fmt ||| DDPF_FOURCC
        else header_pflags config image.base_type (drawable_bpp drawable.type) fmt) ∧
      GETL32 r.hdr 84 =
        (if config.savetype = SaveType.ARRAY then FOURCC 'D' 'X' '1' '0'
        else (compression_fourcc config.compression fmt.dxgi_format).1) := by
  obtain ⟨fmt, hfmt, hr⟩ := write_image_header_eq host is_cubemap is_volume image drawable config
  have hf := build_header_fields host is_cubemap is_volume image config
    (if config.savetype = SaveType.SELECTED_LAYER then drawable.width else image.width)
    (if config.savetype = SaveType.SELECTED_LAYER then drawable.height else image.height)
    (drawable_bpp drawable.type) fmt
  have h1 := GETL32_header_stage1 host config
    (if config.savetype = SaveType.SELECTED_LAYER then drawable.width else image.width)
    (if config.savetype = SaveType.SELECTED_LAYER then drawable.height else image.height) fmt
  have hl1 := length_header_stage1 host config
    (if config.savetype = SaveType.SELECTED_LAYER then drawable.width else image.width)
    (if config.savetype = SaveType.SELECTED_LAYER then drawable.height else image.height) fmt
  have hp := header_pflags_lt config image.base_type (drawable_bpp drawable.type) fmt
  refine ⟨_, fmt, hr, hfmt, hf.2.2.2.2.2, build_header_hdr10 _ _ _ _ _ _ _ _ _, ?_, ?_, ?_, ?_,
    ?_⟩
  · rw [build_header_hdr, GETL32_header_stage4_ne _ _ _ _ (by omega),
      GETL32_header_stage3_ne _ _ _ _ _ _ _ _ _ _ (by omega),
      GETL32_header_stage2_ne _ _ _ _ _ _ _ _ (by omega), h1.2.2.1]
    decide
  · rw [build_header_hdr, GETL32_header_stage4_ne _ _ _ _ (by omega),
      GETL32_header_stage3_ne _ _ _ _ _ _ _ _ _ _ (by omega),
      GETL32_header_stage2_ne _ _ _ _ _ _ _ _ (by omega), h1.2.2.2.1]
    decide
  · rw [build_header_hdr, GETL32_header_stage4_ne _ _ _ _ (by omega),
      GETL32_header_stage3_tag _ _ _ _ _ _ _ _ _ (by rw [length_header_stage2, hl1]),
      GETL32_header_stage2_ne _ _ _ _ _ _ _ _ (by omega), h1.2.2.2.2.1]
    split_ifs <;> decide
  · rw [build_header_hdr,
      (GETL32_header_stage4 _ _ _ (by rw [length_header_stage3, length_header_stage2, hl1])).1,
      GETL32_header_stage3_pflags _ _ _ _ _ _ _ _ _ (by rw [length_header_stage2, hl1])]
    split
    · exact Nat.mod_eq_of_lt hp.2
    · exact Nat.mod_eq_of_lt hp.1
  · rw [build_header_hdr,
      (GETL32_header_stage4 _ _ _ (by rw [length_header_stage3, length_header_stage2, hl1])).2,
      GETL32_header_stage3_fourcc _ _ _ _ _ _ _ _ _ (by rw [length_header_stage2, hl1]),
      GETL32_header_stage2_ne _ _ _ _ _ _ _ _ (by omega), h1.2.2.2.2.2]
    split
    · decide
    · split
      · rename_i hc
        rw [hc]
        rfl
      · exact Nat.mod_eq_of_lt (compression_fourcc_lt _ _)

set_option maxRecDepth 100000 in
/-- C14, the scenario as the code runs it. For the 8x8 RGB layer saved as selected layer
with BC1 and generated mipmaps, the 128 bytes that `write_image` sends first hold the
linear size 32 (2 x 2 blocks of 8 bytes) at offset 20, not 8. -/
theorem scenario2_linear_size_is_32 :
    (write_image (quiet_host 4096) false false no_faces (empty_stream 4096) rgb_image_8x8
        rgb_layer_8x8 bc1_mipmap_config).map
      (fun p => (p.2.data.length, GETL32 p.2.data 20, decide (GETL32 p.2.data 20 = 8))) =
    some (128, 32, false) := by
  decide

set_option maxRecDepth 100000 in
/-- C14 with the linear size 32. For the 8x8 RGB layer saved as selected layer with BC1
and generated mipmaps, `write_image` returns TRUE and its header has the flags
MIPMAPCOUNT and LINEARSIZE, mipmap count 4, pixel-format flags FOURCC, FourCC "DXT1"
and linear size 32. -/
theorem scenario2_header :
    (write_image (quiet_host 4096) false false no_faces (empty_stream 4096) rgb_image_8x8
        rgb_layer_8x8 bc1_mipmap_config).map
      (fun p => (p.1, p.2.data.length,
        GETL32 p.2.data 8 &&& (DDSD_MIPMAPCOUNT ||| DDSD_LINEARSIZE),
        GETL32 p.2.data 28, GETL32 p.2.data 80, GETL32 p.2.data 84, GETL32 p.2.data 20)) =
    some (true, 128, DDSD_MIPMAPCOUNT ||| DDSD_LINEARSIZE, 4, DDPF_FOURCC,
      FOURCC 'D' 'X' 'T' '1', 32) := by
  rfl

theorem header_pflags_spec (config : Config) (type : GimpImageType)
    (basetype : GimpImageBaseType) (fmt : FormatFields)
    (hbt : config.format = PixelFormat.DEFAULT → basetype = drawable_base_type type)
    (hfmt : format_fields config.format (drawable_bpp type) basetype = some fmt) :
    header_pflags config basetype (drawable_bpp type) fmt =
      spec_pixel_format_flags config.compression config.format type := by
  rcases config with ⟨compression, format, m, s, t, f, p⟩
  simp only at hbt hfmt ⊢
  by_cases hc : compression = Compression.NONE
  · subst hc
    cases format
    · have hb := hbt rfl
      subst hb
      cases type <;>
        (simp only [format_fields, drawable_bpp, drawable_base_type] at hfmt
         simp at hfmt
         subst hfmt
         rfl)
    all_goals
      (simp only [format_fields] at hfmt
       simp [lookup_format_info, format_info] at hfmt
       subst hfmt
       rfl)
  · unfold header_pflags spec_pixel_format_flags
    simp only [hc, if_false]

theorem compression_fourcc_spec (compression : Compression) (dxgi_format : DXGI_FORMAT) :
    (compression_fourcc compression dxgi_format).1 = spec_fourcc compression := by
  cases compression <;> rfl

theorem spec_pixel_format_flags_bits (format : PixelFormat) (type : GimpImageType) :
    (format = PixelFormat.A8 →
      spec_pixel_format_flags Compression.NONE format type &&& DDPF_RGB = 0 ∧
      spec_pixel_format_flags Compression.NONE format type &&& DDPF_ALPHAPIXELS = 0) ∧
    (format = PixelFormat.R3G3B2 →
      spec_pixel_format_flags Compression.NONE format type &&& DDPF_LUMINANCE = 0) := by
  constructor
  · intro h
    subst h
    cases type <;> decide
  · intro h
    subst h
    cases type <;> decide

theorem spec_pixel_format_flags_indexed (format : PixelFormat) (type : GimpImageType)
    (hty : type = GimpImageType.INDEXED_IMAGE ∨ type = GimpImageType.INDEXEDA_IMAGE) :
    ((spec_pixel_format_flags Compression.NONE format type &&& DDPF_PALETTEINDEXED8 =
        DDPF_PALETTEINDEXED8 ↔ format = PixelFormat.DEFAULT) ∧
    ((spec_pixel_format_flags Compression.NONE format type ||| DDPF_FOURCC) &&&
        DDPF_PALETTEINDEXED8 = DDPF_PALETTEINDEXED8 ↔ format = PixelFormat.DEFAULT)) := by
  rcases hty with h | h <;> subst h <;> cases format <;> decide

/-- C15. For every encode whose save type is not Array (and, for the default format, a
drawable whose type agrees with the base type of the image) the pixel-format flags at
header offset 80 are the ones of the specification table `spec_pixel_format_flags`:
uncompressed with a non-default format ALPHA for A8, LUMINANCE for L8,
LUMINANCE|ALPHAPIXELS for L8A8 and RGB (plus ALPHAPIXELS iff the `format_info` row has
alpha 1) for the others; uncompressed with the default format PALETTEINDEXED8 for
Indexed and IndexedA, LUMINANCE for Gray, RGB for RGB, RGB|ALPHAPIXELS for GrayA and
RGBA; compressed FOURCC, plus NORMAL for BC3n and RXGB. A8 sets neither RGB nor
ALPHAPIXELS, and R3G3B2 does not set LUMINANCE. -/
theorem pixel_format_flags_table (host : Host) (is_cubemap is_volume : Bool) (image : Image)
    (drawable : Layer) (config : Config)
    (hs : config.savetype ≠ SaveType.ARRAY)
    (hbt : config.format = PixelFormat.DEFAULT →
      image.base_type = drawable_base_type drawable.type) :
    ∃ r, write_image_header host is_cubemap is_volume image drawable config = some r ∧
      GETL32 r.hdr 80 =
        spec_pixel_format_flags config.compression config.format drawable.type ∧
      (config.compression = Compression.NONE → config.format = PixelFormat.A8 →
        GETL32 r.hdr 80 &&& DDPF_RGB = 0 ∧ GETL32 r.hdr 80 &&& DDPF_ALPHAPIXELS = 0) ∧
      (config.compression = Compression.NONE → config.format = PixelFormat.R3G3B2 →
        GETL32 r.hdr 80 &&& DDPF_LUMINANCE = 0) := by
  obtain ⟨r, fmt, hr, hfmt, -, -, -, -, -, h80, -⟩ :=
    write_image_header_tags host is_cubemap is_volume image drawable config
  rw [if_neg hs, header_pflags_spec config drawable.type image.base_type fmt hbt hfmt] at h80
  refine ⟨r, hr, h80, ?_, ?_⟩
  · intro hc hf
    rw [h80, hc]
    exact (spec_pixel_format_flags_bits _ _).1 hf
  · intro hc hf
    rw [h80, hc]
    exact (spec_pixel_format_flags_bits _ _).2 hf

/-- C15 at the 2x2 indexed image saved uncompressed as A8. -/
theorem pixel_format_flags_table_witness :
    ∃ r, write_image_header (quiet_host 4096) false false indexed_image_2x2 indexed_layer_2x2
        (format_config PixelFormat.A8) = some r ∧
      GETL32 r.hdr 80 =
        spec_pixel_format_flags (format_config PixelFormat.A8).compression
          (format_config PixelFormat.A8).format indexed_layer_2x2.type ∧
      ((format_config PixelFormat.A8).compression = Compression.NONE →
        (format_config PixelFormat.A8).format = PixelFormat.A8 →
        GETL32 r.hdr 80 &&& DDPF_RGB = 0 ∧ GETL32 r.hdr 80 &&& DDPF_ALPHAPIXELS = 0) ∧
      ((format_config PixelFormat.A8).compression = Compression.NONE →
        (format_config PixelFormat.A8).format = PixelFormat.R3G3B2 →
        GETL32 r.hdr 80 &&& DDPF_LUMINANCE = 0) :=
  pixel_format_flags_table (quiet_host 4096) false false indexed_image_2x2 indexed_layer_2x2
    (format_config PixelFormat.A8) (by decide) (fun _ => rfl)

set_option maxRecDepth 100000 in
/-- C16, a counterexample. The 2x2 indexed image saved uncompressed with the
non-default pixel format RGB8 gets the pixel-format flags RGB at offset 80, without
PALETTEINDEXED8. -/
theorem indexed_rgb8_not_paletteindexed :
    (write_image (quiet_host 4096) false false no_faces (empty_stream 4096) indexed_image_2x2
        indexed_layer_2x2 (format_config PixelFormat.RGB8)).map
      (fun p => (p.2.data.length, GETL32 p.2.data 80,
        GETL32 p.2.data 80 &&& DDPF_PALETTEINDEXED8)) =
    some (128, DDPF_RGB, 0) := by
  rfl

/-- C16 amended. For an Indexed or IndexedA drawable of an indexed image saved
uncompressed, the pixel-format flags at header offset 80 include PALETTEINDEXED8
exactly when the pixel format is the default one. -/
theorem indexed_palette_flag_iff_default (host : Host) (is_cubemap is_volume : Bool)
    (image : Image) (drawable : Layer) (config : Config)
    (hc : config.compression = Compression.NONE)
    (hbt : image.base_type = GimpImageBaseType.INDEXED)
    (hty : drawable.type = GimpImageType.INDEXED_IMAGE ∨
      drawable.type = GimpImageType.INDEXEDA_IMAGE) :
    ∃ r, write_image_header host is_cubemap is_volume image drawable config = some r ∧
      (GETL32 r.hdr 80 &&& DDPF_PALETTEINDEXED8 = DDPF_PALETTEINDEXED8 ↔
        config.format = PixelFormat.DEFAULT) := by
  obtain ⟨r, fmt, hr, hfmt, -, -, -, -, -, h80, -⟩ :=
    write_image_header_tags host is_cubemap is_volume image drawable config
  have hb : config.format = PixelFormat.DEFAULT →
      image.base_type = drawable_base_type drawable.type := by
    intro _
    rw [hbt]
    rcases hty with h | h <;> rw [h] <;> rfl
  rw [header_pflags_spec config drawable.type image.base_type fmt hb hfmt, hc] at h80
  refine ⟨r, hr, ?_⟩
  rw [h80]
  split
  · exact (spec_pixel_format_flags_indexed _ _ hty).2
  · exact (spec_pixel_format_flags_indexed _ _ hty).1

/-- C16 amended, at the 2x2 indexed image saved uncompressed in the default format. -/
theorem indexed_palette_flag_iff_default_witness :
    ∃ r, write_image_header (quiet_host 4096) false false indexed_image_2x2 indexed_layer_2x2
        (plain_config MipmapMode.NONE) = some r ∧
      (GETL32 r.hdr 80 &&& DDPF_PALETTEINDEXED8 = DDPF_PALETTEINDEXED8 ↔
        (plain_config MipmapMode.NONE).format = PixelFormat.DEFAULT) :=
  indexed_palette_flag_iff_default (quiet_host 4096) false false indexed_image_2x2
    indexed_layer_2x2 (plain_config MipmapMode.NONE) rfl rfl (Or.inl rfl)

theorem header_tag_cases (compression : Compression) (format : PixelFormat) (x : Nat)
    (hx : x =
      (if compression = Compression.NONE then
        (if format = PixelFormat.AEXP then FOURCC 'A' 'E' 'X' 'P'
        else if format = PixelFormat.YCOCG then FOURCC 'Y' 'C' 'G' '1'
        else 0)
      else
        (if compression = Compression.AEXP then FOURCC 'A' 'E' 'X' 'P'
        else if compression = Compression.YCOCG then FOURCC 'Y' 'C' 'G' '1'
        else if compression = Compression.YCOCGS then FOURCC 'Y' 'C' 'G' '2'
        else 0))) :
    (x = FOURCC 'A' 'E' 'X' 'P' ↔
      (compression = Compression.AEXP ∨
        (compression = Compression.NONE ∧ format = PixelFormat.AEXP))) ∧
    (x = FOURCC 'Y' 'C' 'G' '1' ↔
      (compression = Compression.YCOCG ∨
        (compression = Compression.NONE ∧ format = PixelFormat.YCOCG))) ∧
    (x = FOURCC 'Y' 'C' 'G' '2' ↔ compression = Compression.YCOCGS) ∧
    (¬ (compression = Compression.AEXP ∨
        (compression = Compression.NONE ∧ format = PixelFormat.AEXP)) →
      ¬ (compression = Compression.YCOCG ∨
        (compression = Compression.NONE ∧ format = PixelFormat.YCOCG)) →
      ¬ compression = Compression.YCOCGS → x = 0) := by
  subst hx
  cases compression <;> cases format <;> decide

/-- C17. For every encode whose save type is not Array: the FourCC at offset 84 is the
one of the specification table `spec_fourcc` ("DXT1" for BC1, "DXT3" for BC2, "DXT5" for
BC3, BC3n, YCoCg, YCoCgS and AExp, "RXGB" for RXGB, "ATI1" for BC4, "ATI2" for BC5, 0
for None); the tag at offset 44 is "AEXP" iff the compression is AExp or the file is
uncompressed with pixel format AExp, "YCG1" iff the compression is YCoCg or the file is
uncompressed with pixel format YCoCg, "YCG2" iff the compression is YCoCgS, and 0 in
every other case; offsets 32 and 36 hold "GIMP" and "-DDS". -/
theorem header_format_tags (host : Host) (is_cubemap is_volume : Bool) (image : Image)
    (drawable : Layer) (config : Config) (hs : config.savetype ≠ SaveType.ARRAY) :
    ∃ r, write_image_header host is_cubemap is_volume image drawable config = some r ∧
      GETL32 r.hdr 84 = spec_fourcc config.compression ∧
      (GETL32 r.hdr 44 = FOURCC 'A' 'E' 'X' 'P' ↔
        (config.compression = Compression.AEXP ∨
          (config.compression = Compression.NONE ∧ config.format = PixelFormat.AEXP))) ∧
      (GETL32 r.hdr 44 = FOURCC 'Y' 'C' 'G' '1' ↔
        (config.compression = Compression.YCOCG ∨
          (config.compression = Compression.NONE ∧ config.format = PixelFormat.YCOCG))) ∧
      (GETL32 r.hdr 44 = FOURCC 'Y' 'C' 'G' '2' ↔ config.compression = Compression.YCOCGS) ∧
      (¬ (config.compression = Compression.AEXP ∨
          (config.compression = Compression.NONE ∧ config.format = PixelFormat.AEXP)) →
        ¬ (config.compression = Compression.YCOCG ∨
          (config.compression = Compression.NONE ∧ config.format = PixelFormat.YCOCG)) →
        ¬ config.compression = Compression.YCOCGS → GETL32 r.hdr 44 = 0) ∧
      GETL32 r.hdr 32 = FOURCC 'G' 'I' 'M' 'P' ∧
      GETL32 r.hdr 36 = FOURCC '-' 'D' 'D' 'S' := by
  obtain ⟨r, fmt, hr, -, -, -, h32, h36, h44, -, h84⟩ :=
    write_image_header_tags host is_cubemap is_volume image drawable config
  rw [if_neg hs, compression_fourcc_spec] at h84
  obtain ⟨t1, t2, t3, t4⟩ := header_tag_cases config.compression config.format _ h44
  exact ⟨r, hr, h84, t1, t2, t3, t4, h32, h36⟩

/-- C17 at the 8x8 RGB layer saved with BC1: FourCC "DXT1" and no writer tag. -/
theorem header_format_tags_witness :
    ∃ r, write_image_header (quiet_host 4096) false false rgb_image_8x8 rgb_layer_8x8
        bc1_mipmap_config = some r ∧
      GETL32 r.hdr 84 = spec_fourcc bc1_mipmap_config.compression ∧
      (GETL32 r.hdr 44 = FOURCC 'A' 'E' 'X' 'P' ↔
        (bc1_mipmap_config.compression = Compression.AEXP ∨
          (bc1_mipmap_config.compression = Compression.NONE ∧
            bc1_mipmap_config.format = PixelFormat.AEXP))) ∧
      (GETL32 r.hdr 44 = FOURCC 'Y' 'C' 'G' '1' ↔
        (bc1_mipmap_config.compression = Compression.YCOCG ∨
          (bc1_mipmap_config.compression = Compression.NONE ∧
            bc1_mipmap_config.format = PixelFormat.YCOCG))) ∧
      (GETL32 r.hdr 44 = FOURCC 'Y' 'C' 'G' '2' ↔
        bc1_mipmap_config.compression = Compression.YCOCGS) ∧
      (¬ (bc1_mipmap_config.compression = Compression.AEXP ∨
          (bc1_mipmap_config.compression = Compression.NONE ∧
            bc1_mipmap_config.format = PixelFormat.AEXP)) →
        ¬ (bc1_mipmap_config.compression = Compression.YCOCG ∨
          (bc1_mipmap_config.compression = Compression.NONE ∧
            bc1_mipmap_config.format = PixelFormat.YCOCG)) →
        ¬ bc1_mipmap_config.compression = Compression.YCOCGS → GETL32 r.hdr 44 = 0) ∧
      GETL32 r.hdr 32 = FOURCC 'G' 'I' 'M' 'P' ∧
      GETL32 r.hdr 36 = FOURCC '-' 'D' 'D' 'S' :=
  header_format_tags (quiet_host 4096) false false rgb_image_8x8 rgb_layer_8x8
    bc1_mipmap_config (by decide)

/-! ## The stream of write_image: headers and palette -/

/-- The function `write_image` is its input stage, the header computation, the two
header writes, the palette block and the dispatch to the payload writers, in this
order. -/
theorem write_image_stages (host : Host) (is_cubemap is_volume : Bool)
    (cubemap_faces : Faces) (fp : FILE) (image : Image) (drawable : Layer) (config : Config) :
    write_image host is_cubemap is_volume cubemap_faces fp image drawable config =
      (write_image_inputs image drawable config).bind (fun p =>
        (write_image_header host is_cubemap is_volume p.1 p.2 config).bind (fun r =>
          (write_image_dispatch host cubemap_faces p.1 p.2 config r).map (fun calls =>
            (true, calls.foldl (run_surface_write host p.1 config)
              (write_image_palette p.1 config (write_image_headers r fp)))))) := by
  unfold write_image write_image_inputs write_image_palette write_image_headers
  simp only []
  cases (if config.mipmaps = MipmapMode.EXISTING then
      (if config.flip_image = true then gimp_image_flip image else image).layers.head?
    else some drawable) with
  | none => rfl
  | some d =>
    simp only [Option.bind]
    cases write_image_header host is_cubemap is_volume
      (if config.flip_image = true then gimp_image_flip image else image) d config with
    | none => rfl
    | some r =>
      simp only []
      cases write_image_dispatch host cubemap_faces
        (if config.flip_image = true then gimp_image_flip image else image) d config r with
      | none => rfl
      | some calls => rfl

theorem write_image_inputs_some (image : Image) (drawable : Layer) (config : Config)
    (hd : config.mipmaps = MipmapMode.EXISTING → image.layers ≠ []) :
    ∃ p, write_image_inputs image drawable config = some p ∧
      p.1.width = image.width ∧ p.1.height = image.height ∧ p.1.layers = image.layers ∧
      p.1.base_type = image.base_type ∧ p.1.colormap = image.colormap := by
  unfold write_image_inputs
  by_cases hm : config.mipmaps = MipmapMode.EXISTING
  · have hne := hd hm
    have hl : (if config.flip_image = true then gimp_image_flip image else image).layers =
        image.layers := by
      split <;> rfl
    cases hlay : image.layers with
    | nil => exact absurd hlay hne
    | cons a l =>
      simp only [hm, if_true, hl, hlay, List.head?_cons]
      refine ⟨_, rfl, ?_⟩
      simp only []
      split <;> simp [gimp_image_flip, hlay]
  · simp only [hm, if_false]
    refine ⟨_, rfl, ?_⟩
    simp only []
    split <;> simp [gimp_image_flip]

theorem fwrite_data (fp : FILE) (bytes : List Nat)
    (h : fp.data.length + bytes.length ≤ fp.capacity) :
    (fwrite fp bytes).data = fp.data ++ bytes ∧ (fwrite fp bytes).capacity = fp.capacity ∧
      (fwrite fp bytes).error = fp.error := by
  unfold fwrite
  rw [if_pos h]
  exact ⟨rfl, rfl, rfl⟩

theorem get_array_size_loop_eq (w h : Nat) (layers : List Layer) (elements : Nat) :
    get_array_size_loop w h layers elements =
      elements + (layers.filter (fun l => decide (l.width = w ∧ l.height = h))).length := by
  induction layers generalizing elements with
  | nil => rfl
  | cons l list ih =>
    unfold get_array_size_loop
    by_cases hl : l.width = w ∧ l.height = h
    · rw [if_pos hl, ih, List.filter_cons_of_pos (by simpa using hl), List.length_cons]
      omega
    · rw [if_neg hl, ih, List.filter_cons_of_neg (by simpa using hl)]

theorem get_array_size_eq (image : Image) :
    get_array_size image =
      (image.layers.filter
        (fun l => decide (l.width = image.width ∧ l.height = image.height))).length ∧
    get_array_size image ≤ image.layers.length := by
  unfold get_array_size
  rw [get_array_size_loop_eq, Nat.zero_add]
  exact ⟨rfl, List.length_filter_le _ _⟩

theorem header_dx10_fields (host : Host) (config : Config) (image : Image)
    (fmt : FormatFields) (hs : config.savetype = SaveType.ARRAY) :
    (header_dx10 host config image fmt).length = 20 ∧
    GETL32 (header_dx10 host config image fmt) 0 =
      host.dxgi_code (header_dxgi_format config fmt) % 4294967296 ∧
    GETL32 (header_dx10 host config image fmt) 4 = 3 ∧
    GETL32 (header_dx10 host config image fmt) 8 = 0 ∧
    GETL32 (header_dx10 host config image fmt) 12 = get_array_size image % 4294967296 ∧
    GETL32 (header_dx10 host config image fmt) 16 = 0 := by
  unfold header_dx10
  have h1 : ¬ (config.savetype = SaveType.SELECTED_LAYER ∨
      config.savetype = SaveType.VISIBLE_LAYERS) := by
    rw [hs]
    decide
  simp only [if_neg h1]
  refine ⟨?_, ?_⟩
  · simp only [length_PUTL32, List.length_replicate, DDS_HEADERSIZE_DX10]
  · simp (disch := first | omega |
        (simp only [length_PUTL32, List.length_replicate, DDS_HEADERSIZE_DX10]; omega))
      only [GETL32_PUTL32_ne, GETL32_PUTL32_eq, GETL32_replicate, and_self, true_and,
        D3D10_RESOURCE_DIMENSION_TEXTURE2D, Nat.zero_mod]

theorem header_pflags_fourcc (config : Config) (basetype : GimpImageBaseType) (bpp : Nat)
    (fmt : FormatFields) :
    (header_pflags config basetype bpp fmt ||| DDPF_FOURCC) &&& DDPF_FOURCC = DDPF_FOURCC := by
  unfold header_pflags
  split_ifs <;> decide

/-- C18. For every image and configuration (a stream with room for both headers, and a
layer to take when the mipmap mode is Existing), `write_image` sends the 128-byte DDS
header and then, exactly when the save type is Array, the 20-byte DX10 header. The DX10
header holds five little-endian 32-bit words: the DXGI format, the resource dimension
3, misc flag 0, the array size `get_array_size (image)`, which is the number of layers
of size (W, H), and misc flag 0; the FourCC of the DDS header at offset 84 is then
"DX10" and its pixel-format flags at offset 80 include FOURCC. An RGBA source saved
uncompressed in the default format has the DXGI format B8G8R8A8_UNORM. -/
theorem dx10_header_iff_array (host : Host) (is_cubemap is_volume : Bool) (fp : FILE)
    (image : Image) (drawable : Layer) (config : Config)
    (hd : config.mipmaps = MipmapMode.EXISTING → image.layers ≠ [])
    (hlayers : image.layers.length < 4294967296)
    (hroom : fp.data.length + 148 ≤ fp.capacity) :
    ∃ p r fmt, write_image_inputs image drawable config = some p ∧
      write_image_header host is_cubemap is_volume p.1 p.2 config = some r ∧
      format_fields config.format (drawable_bpp p.2.type) p.1.base_type = some fmt ∧
      (∀ cubemap_faces,
        write_image host is_cubemap is_volume cubemap_faces fp image drawable config =
          (write_image_dispatch host cubemap_faces p.1 p.2 config r).map (fun calls =>
            (true, calls.foldl (run_surface_write host p.1 config)
              (write_image_palette p.1 config (write_image_headers r fp))))) ∧
      r.hdr.length = 128 ∧
      ((write_image_headers r fp).data.length = fp.data.length + 128 + 20 ↔
        config.savetype = SaveType.ARRAY) ∧
      (config.savetype ≠ SaveType.ARRAY → (write_image_headers r fp).data = fp.data ++ r.hdr) ∧
      (config.savetype = SaveType.ARRAY →
        (write_image_headers r fp).data = fp.data ++ r.hdr ++ r.hdr10 ∧
        r.hdr10.length = 20 ∧
        GETL32 r.hdr10 0 = host.dxgi_code (header_dxgi_format config fmt) % 4294967296 ∧
        GETL32 r.hdr10 4 = 3 ∧
        GETL32 r.hdr10 8 = 0 ∧
        GETL32 r.hdr10 12 = get_array_size image ∧
        get_array_size image =
          (image.layers.filter (fun l => decide (l.width = r.w ∧ l.height = r.h))).length ∧
        GETL32 r.hdr10 16 = 0 ∧
        GETL32 r.hdr 84 = FOURCC 'D' 'X' '1' '0' ∧
        GETL32 r.hdr 80 &&& DDPF_FOURCC = DDPF_FOURCC ∧
        (config.compression = Compression.NONE → config.format = PixelFormat.DEFAULT →
          p.2.type = GimpImageType.RGBA_IMAGE →
          header_dxgi_format config fmt = DXGI_FORMAT.B8G8R8A8_UNORM)) := by
  obtain ⟨p, hp, hpw, hph, hpl, -, -⟩ := write_image_inputs_some image drawable config hd
  obtain ⟨r, fmt, hr, hfmt, hdx, h10, -, -, -, h80, h84⟩ :=
    write_image_header_tags host is_cubemap is_volume p.1 p.2 config
  obtain ⟨r2, fmt2, hr2, -, hw, hh, -, -, -, hlen, -⟩ :=
    write_image_header_sizes host is_cubemap is_volume p.1 p.2 config
  rw [hr] at hr2
  cases hr2
  have hf1 := fwrite_data fp r.hdr (by omega)
  refine ⟨p, r, fmt, hp, hr, hfmt, ?_, hlen, ?_, ?_, ?_⟩
  · intro cubemap_faces
    rw [write_image_stages, hp, Option.bind, hr, Option.bind]
  · unfold write_image_headers
    rw [hdx]
    by_cases hs : config.savetype = SaveType.ARRAY
    · have hl10 := (header_dx10_fields host config p.1 fmt hs).1
      rw [← h10 hs] at hl10
      have hf2 := fwrite_data (fwrite fp r.hdr) r.hdr10
        (by rw [hf1.1, hf1.2.1, List.length_append]; omega)
      simp only [hs, decide_True, if_true, hf2.1, hf1.1, List.length_append, hlen, hl10]
    · simp only [hs, decide_False, if_false, hf1.1, List.length_append, hlen,
        Bool.false_eq_true, iff_false]
      omega
  · intro hs
    unfold write_image_headers
    rw [hdx]
    simp only [hs, decide_False, if_false, hf1.1, Bool.false_eq_true]
  · intro hs
    obtain ⟨hl10, g0, g4, g8, g12, g16⟩ := header_dx10_fields host config p.1 fmt hs
    rw [← h10 hs] at hl10 g0 g4 g8 g12 g16
    have hf2 := fwrite_data (fwrite fp r.hdr) r.hdr10
      (by rw [hf1.1, hf1.2.1, List.length_append]; omega)
    have hga : get_array_size p.1 = get_array_size image := by
      unfold get_array_size
      rw [hpw, hph, hpl]
    have hge := get_array_size_eq image
    have hns : ¬ config.savetype = SaveType.SELECTED_LAYER := by
      rw [hs]
      decide
    rw [if_neg hns, hpw] at hw
    rw [if_neg hns, hph] at hh
    refine ⟨?_, hl10, g0, g4, g8, ?_, ?_, g16, ?_, ?_, ?_⟩
    · unfold write_image_headers
      rw [hdx]
      simp only [hs, decide_True, if_true, hf2.1, hf1.1]
    · rw [g12, hga]
      exact Nat.mod_eq_of_lt (by omega)
    · rw [hw, hh]
      exact hge.1
    · rw [h84, if_pos hs]
    · rw [h80, if_pos hs]
      exact header_pflags_fourcc _ _ _ _
    · intro hc hf hty
      unfold header_dxgi_format
      rw [if_pos hc]
      rw [hf, hty] at hfmt
      have : fmt = ⟨4, 1, 0x00ff0000, 0x0000ff00, 0x000000ff, 0xff000000,
          DXGI_FORMAT.B8G8R8A8_UNORM⟩ := by
        have h2 : format_fields PixelFormat.DEFAULT (drawable_bpp GimpImageType.RGBA_IMAGE)
            p.1.base_type = some ⟨4, 1, 0x00ff0000, 0x0000ff00, 0x000000ff, 0xff000000,
              DXGI_FORMAT.B8G8R8A8_UNORM⟩ := rfl
        rw [h2] at hfmt
        exact (Option.some.inj hfmt).symm
      rw [this]

/-- C18 at two 4x4 RGBA layers saved uncompressed in the default format as a texture
array: the DX10 header follows the DDS header, with the DXGI format B8G8R8A8_UNORM and
the array size 2. -/
theorem dx10_header_iff_array_witness :
    ∃ p r fmt, write_image_inputs array_image (rgba_layer 1 "a" 4 4) array_config = some p ∧
      write_image_header (quiet_host 4096) false false p.1 p.2 array_config = some r ∧
      format_fields array_config.format (drawable_bpp p.2.type) p.1.base_type = some fmt ∧
      (∀ cubemap_faces,
        write_image (quiet_host 4096) false false cubemap_faces (empty_stream 4096) array_image
            (rgba_layer 1 "a" 4 4) array_config =
          (write_image_dispatch (quiet_host 4096) cubemap_faces p.1 p.2 array_config r).map (fun
              calls =>
            (true, calls.foldl (run_surface_write (quiet_host 4096) p.1 array_config)
              (write_image_palette p.1 array_config (write_image_headers r (empty_stream
                  4096)))))) ∧
      r.hdr.length = 128 ∧
      ((write_image_headers r (empty_stream 4096)).data.length = (empty_stream 4096).data.length
          + 128 + 20 ↔
        array_config.savetype = SaveType.ARRAY) ∧
      (array_config.savetype ≠ SaveType.ARRAY → (write_image_headers r (empty_stream 4096)).data
          = (empty_stream 4096).data ++ r.hdr) ∧
      (array_config.savetype = SaveType.ARRAY →
        (write_image_headers r (empty_stream 4096)).data = (empty_stream 4096).data ++ r.hdr ++
            r.hdr10 ∧
        r.hdr10.length = 20 ∧
        GETL32 r.hdr10 0 = (quiet_host 4096).dxgi_code (header_dxgi_format array_config fmt) %
            4294967296 ∧
        GETL32 r.hdr10 4 = 3 ∧
        GETL32 r.hdr10 8 = 0 ∧
        GETL32 r.hdr10 12 = get_array_size array_image ∧
        get_array_size array_image =
          (array_image.layers.filter (fun l => decide (l.width = r.w ∧ l.height = r.h))).length ∧
        GETL32 r.hdr10 16 = 0 ∧
        GETL32 r.hdr 84 = FOURCC 'D' 'X' '1' '0' ∧
        GETL32 r.hdr 80 &&& DDPF_FOURCC = DDPF_FOURCC ∧
        (array_config.compression = Compression.NONE → array_config.format = PixelFormat.DEFAULT →
          p.2.type = GimpImageType.RGBA_IMAGE →
          header_dxgi_format array_config fmt = DXGI_FORMAT.B8G8R8A8_UNORM)) :=
  dx10_header_iff_array (quiet_host 4096) false false (empty_stream 4096) array_image
    (rgba_layer 1 "a" 4 4) array_config (fun h => absurd h (by decide)) (by decide) (by decide)

theorem write_palette_colors_data (transindex : Int) (cmap : List (Nat × Nat × Nat)) (i : Nat)
    (fp : FILE) (h : fp.data.length + 4 * cmap.length ≤ fp.capacity) :
    (write_palette_colors transindex cmap i fp).data =
        fp.data ++ spec_palette_colors transindex cmap i ∧
      (write_palette_colors transindex cmap i fp).capacity = fp.capacity := by
  induction cmap generalizing i fp with
  | nil =>
    unfold write_palette_colors spec_palette_colors
    exact ⟨(List.append_nil _).symm, rfl⟩
  | cons c cmap ih =>
    obtain ⟨r, g, b⟩ := c
    rw [List.length_cons] at h
    unfold write_palette_colors spec_palette_colors
    simp only []
    have h1 := fwrite_data fp [r, g, b] (by simp only [List.length_cons, List.length_nil]; omega)
    have h2 : ∀ a : Nat, (fwrite (fwrite fp [r, g, b]) [a]).data = fp.data ++ [r, g, b, a] ∧
        (fwrite (fwrite fp [r, g, b]) [a]).capacity = fp.capacity := by
      intro a
      have := fwrite_data (fwrite fp [r, g, b]) [a]
        (by rw [h1.1, h1.2.1]; simp only [List.length_append, List.length_cons,
          List.length_nil]; omega)
      rw [this.1, this.2.1, h1.1, h1.2.1]
      simp
    by_cases ht : (i : Int) = transindex
    · rw [if_pos ht, if_pos ht]
      have := ih (i + 1) (fwrite (fwrite fp [r, g, b]) [0])
        (by rw [(h2 0).1, (h2 0).2]; simp only [List.length_append, List.length_cons,
          List.length_nil]; omega)
      rw [this.1, this.2, (h2 0).1, (h2 0).2]
      simp
    · rw [if_neg ht, if_neg ht]
      have := ih (i + 1) (fwrite (fwrite fp [r, g, b]) [255])
        (by rw [(h2 255).1, (h2 255).2]; simp only [List.length_append, List.length_cons,
          List.length_nil]; omega)
      rw [this.1, this.2, (h2 255).1, (h2 255).2]
      simp

theorem write_palette_zero_data (n : Nat) (fp : FILE)
    (h : fp.data.length + 4 * n ≤ fp.capacity) :
    (write_palette_zero n fp).data = fp.data ++ List.replicate (4 * n) 0 := by
  induction n generalizing fp with
  | zero =>
    unfold write_palette_zero
    simp
  | succ n ih =>
    unfold write_palette_zero
    have h1 := fwrite_data fp [0, 0, 0, 0]
      (by simp only [List.length_cons, List.length_nil]; omega)
    rw [ih _ (by rw [h1.1, h1.2.1]; simp only [List.length_append, List.length_cons,
      List.length_nil]; omega), h1.1]
    have : 4 * (n + 1) = 4 + 4 * n := by omega
    rw [this, List.replicate_add]
    simp [List.replicate]

theorem length_spec_palette_colors (transindex : Int) (cmap : List (Nat × Nat × Nat))
    (i : Nat) : (spec_palette_colors transindex cmap i).length = 4 * cmap.length := by
  induction cmap generalizing i with
  | nil => rfl
  | cons c cmap ih =>
    obtain ⟨r, g, b⟩ := c
    unfold spec_palette_colors
    rw [List.length_append, ih, List.length_cons]
    simp only [List.length_cons, List.length_nil]
    omega

theorem palette_entry_cons4 (a b c d : Nat) (l : List Nat) (j : Nat) :
    palette_entry (a :: b :: c :: d :: l) 0 (j + 1) = palette_entry l 0 j := by
  unfold palette_entry
  rw [show 0 + 4 * (j + 1) = (0 + 4 * j) + 4 by omega,
    show 0 + 4 * j + 4 + 1 = (0 + 4 * j + 1) + 4 by omega,
    show 0 + 4 * j + 4 + 2 = (0 + 4 * j + 2) + 4 by omega,
    show 0 + 4 * j + 4 + 3 = (0 + 4 * j + 3) + 4 by omega]
  rfl

theorem spec_palette_colors_entry (transindex : Int) (cmap : List (Nat × Nat × Nat))
    (i j : Nat) (tail : List Nat) (hj : j < cmap.length) :
    ∃ c, cmap.get? j = some c ∧
      palette_entry (spec_palette_colors transindex cmap i ++ tail) 0 j =
        (c.1, c.2.1, c.2.2, if ((i + j : Nat) : Int) = transindex then 0 else 255) := by
  induction cmap generalizing i j with
  | nil => exact absurd hj (Nat.not_lt_zero _)
  | cons c cmap ih =>
    obtain ⟨r, g, b⟩ := c
    cases j with
    | zero =>
      refine ⟨(r, g, b), rfl, ?_⟩
      unfold spec_palette_colors palette_entry
      simp
    | succ j =>
      obtain ⟨c, hc, he⟩ := ih (i + 1) j (Nat.lt_of_succ_lt_succ hj)
      refine ⟨c, by simpa using hc, ?_⟩
      have e : i + (j + 1) = i + 1 + j := by omega
      have hs : spec_palette_colors transindex ((r, g, b) :: cmap) i ++ tail =
          r :: g :: b :: (if (i : Int) = transindex then 0 else 255) ::
            (spec_palette_colors transindex cmap (i + 1) ++ tail) := rfl
      rw [hs, palette_entry_cons4, he, e]

theorem palette_zero_entry (front : List Nat) (n j : Nat) (hf : front.length = 4 * n)
    (m : Nat) (hj : n ≤ j) :
    palette_entry (front ++ List.replicate m 0) 0 j = (0, 0, 0, 0) := by
  unfold palette_entry
  have key : ∀ k, 4 * n ≤ k → (front ++ List.replicate m 0).getD k 0 = 0 := by
    intro k hk
    rw [List.getD_eq_getElem?_getD, List.getElem?_append_right (by omega)]
    rw [List.getElem?_replicate]
    split <;> rfl
  rw [key _ (by omega), key _ (by omega), key _ (by omega), key _ (by omega)]

theorem write_image_headers_room (host : Host) (is_cubemap is_volume : Bool) (image : Image)
    (drawable : Layer) (config : Config) (r : HeaderResult) (fp : FILE)
    (hr : write_image_header host is_cubemap is_volume image drawable config = some r)
    (hroom : fp.data.length + 148 ≤ fp.capacity) :
    (write_image_headers r fp).capacity = fp.capacity ∧
    (write_image_headers r fp).data.length ≤ fp.data.length + 148 ∧
    (write_image_headers r fp).data =
      fp.data ++ r.hdr ++ (if config.savetype = SaveType.ARRAY then r.hdr10 else []) := by
  obtain ⟨r1, fmt, hr1, -, hdx, h10, -⟩ :=
    write_image_header_tags host is_cubemap is_volume image drawable config
  obtain ⟨r2, fmt2, hr2, -, -, -, -, -, -, hlen, -⟩ :=
    write_image_header_sizes host is_cubemap is_volume image drawable config
  rw [hr] at hr1 hr2
  cases hr1
  cases hr2
  have hf1 := fwrite_data fp r.hdr (by omega)
  unfold write_image_headers
  rw [hdx]
  by_cases hs : config.savetype = SaveType.ARRAY
  · have hl10 := (header_dx10_fields host config image fmt hs).1
    rw [← h10 hs] at hl10
    have hf2 := fwrite_data (fwrite fp r.hdr) r.hdr10
      (by rw [hf1.1, hf1.2.1, List.length_append]; omega)
    simp only [hs, decide_True, if_true]
    refine ⟨by rw [hf2.2.1, hf1.2.1], ?_, by rw [hf2.1, hf1.1]⟩
    rw [hf2.1, hf1.1, List.length_append, List.length_append]
    omega
  · simp only [hs, decide_False, if_false, Bool.false_eq_true, List.append_nil]
    refine ⟨hf1.2.1, ?_, hf1.1⟩
    rw [hf1.1, List.length_append]
    omega

/-- C19. `write_image` emits a palette exactly when the image is indexed, the pixel
format is the default one and the compression is None; otherwise the palette block
leaves the stream as it is after the header(s). When emitted (a colormap of at most
256 colours, a stream with room) the palette is 1024 bytes directly after the
header(s): entry `i` below `colors` is (R_i, G_i, B_i, A_i) with A_i = 0 when `i` is the
transparent index and 255 otherwise, and every entry from `colors` to 255 is
(0, 0, 0, 0). -/
theorem palette_emission (host : Host) (is_cubemap is_volume : Bool) (fp : FILE)
    (image : Image) (drawable : Layer) (config : Config)
    (hd : config.mipmaps = MipmapMode.EXISTING → image.layers ≠ [])
    (hcolors : image.colormap.length ≤ 256)
    (hroom : fp.data.length + 148 + 1024 ≤ fp.capacity) :
    ∃ p r, write_image_inputs image drawable config = some p ∧
      write_image_header host is_cubemap is_volume p.1 p.2 config = some r ∧
      (∀ cubemap_faces,
        write_image host is_cubemap is_volume cubemap_faces fp image drawable config =
          (write_image_dispatch host cubemap_faces p.1 p.2 config r).map (fun calls =>
            (true, calls.foldl (run_surface_write host p.1 config)
              (write_image_palette p.1 config (write_image_headers r fp))))) ∧
      (write_image_headers r fp).data =
        fp.data ++ r.hdr ++ (if config.savetype = SaveType.ARRAY then r.hdr10 else []) ∧
      (¬ (image.base_type = GimpImageBaseType.INDEXED ∧
          config.format = PixelFormat.DEFAULT ∧ config.compression = Compression.NONE) →
        write_image_palette p.1 config (write_image_headers r fp) =
          write_image_headers r fp) ∧
      ((image.base_type = GimpImageBaseType.INDEXED ∧
          config.format = PixelFormat.DEFAULT ∧ config.compression = Compression.NONE) →
        ∃ pal,
          (write_image_palette p.1 config (write_image_headers r fp)).data =
            (write_image_headers r fp).data ++ pal ∧
          pal.length = 1024 ∧
          (∀ i, i < image.colormap.length →
            ∃ c, image.colormap.get? i = some c ∧
              palette_entry pal 0 i =
                (c.1, c.2.1, c.2.2, if (i : Int) = config.transparent_index then 0 else 255)) ∧
          (∀ i, image.colormap.length ≤ i → i < 256 →
            palette_entry pal 0 i = (0, 0, 0, 0))) := by
  obtain ⟨p, hp, -, -, -, hpb, hpc⟩ := write_image_inputs_some image drawable config hd
  obtain ⟨r, hr⟩ := write_image_header_some host is_cubemap is_volume p.1 p.2 config
  obtain ⟨hcap, hlen, hdata⟩ :=
    write_image_headers_room host is_cubemap is_volume p.1 p.2 config r fp hr (by omega)
  refine ⟨p, r, hp, hr, ?_, hdata, ?_, ?_⟩
  · intro cubemap_faces
    rw [write_image_stages, hp, Option.bind, hr, Option.bind]
  · intro hn
    unfold write_image_palette
    rw [hpb, if_neg hn]
  · intro hy
    refine ⟨spec_palette_colors config.transparent_index image.colormap 0 ++
      List.replicate (4 * (256 - image.colormap.length)) 0, ?_, ?_, ?_, ?_⟩
    · unfold write_image_palette
      rw [hpb, if_pos hy, hpc]
      have h1 := write_palette_colors_data config.transparent_index image.colormap 0
        (write_image_headers r fp) (by omega)
      rw [write_palette_zero_data _ _ (by
        rw [h1.1, h1.2, List.length_append, length_spec_palette_colors]; omega), h1.1,
        List.append_assoc]
    · rw [List.length_append, length_spec_palette_colors, List.length_replicate]
      omega
    · intro i hi
      obtain ⟨c, hc, he⟩ := spec_palette_colors_entry config.transparent_index image.colormap
        0 i (List.replicate (4 * (256 - image.colormap.length)) 0) hi
      rw [Nat.zero_add] at he
      exact ⟨c, hc, he⟩
    · intro i hi _
      exact palette_zero_entry _ image.colormap.length i
        (length_spec_palette_colors _ _ _) _ hi

/-- C19 at the 2x2 indexed image with the palette {(255,0,0), (0,255,0)} and the
transparent index 0, saved uncompressed in the default format. -/
theorem palette_emission_witness :
    ∃ p r, write_image_inputs indexed_image_2x2 indexed_layer_2x2 (plain_config MipmapMode.NONE)
        = some p ∧
      write_image_header (quiet_host 4096) false false p.1 p.2 (plain_config MipmapMode.NONE) =
          some r ∧
      (∀ cubemap_faces,
        write_image (quiet_host 4096) false false cubemap_faces (empty_stream 4096)
            indexed_image_2x2 indexed_layer_2x2 (plain_config MipmapMode.NONE) =
          (write_image_dispatch (quiet_host 4096) cubemap_faces p.1 p.2 (plain_config
              MipmapMode.NONE) r).map (fun calls =>
            (true, calls.foldl (run_surface_write (quiet_host 4096) p.1 (plain_config
                MipmapMode.NONE))
              (write_image_palette p.1 (plain_config MipmapMode.NONE) (write_image_headers r
                  (empty_stream 4096)))))) ∧
      (write_image_headers r (empty_stream 4096)).data =
        (empty_stream 4096).data ++ r.hdr ++ (if (plain_config MipmapMode.NONE).savetype =
            SaveType.ARRAY then r.hdr10 else []) ∧
      (¬ (indexed_image_2x2.base_type = GimpImageBaseType.INDEXED ∧
          (plain_config MipmapMode.NONE).format = PixelFormat.DEFAULT ∧ (plain_config
              MipmapMode.NONE).compression = Compression.NONE) →
        write_image_palette p.1 (plain_config MipmapMode.NONE) (write_image_headers r
            (empty_stream 4096)) =
          write_image_headers r (empty_stream 4096)) ∧
      ((indexed_image_2x2.base_type = GimpImageBaseType.INDEXED ∧
          (plain_config MipmapMode.NONE).format = PixelFormat.DEFAULT ∧ (plain_config
              MipmapMode.NONE).compression = Compression.NONE) →
        ∃ pal,
          (write_image_palette p.1 (plain_config MipmapMode.NONE) (write_image_headers r
              (empty_stream 4096))).data =
            (write_image_headers r (empty_stream 4096)).data ++ pal ∧
          pal.length = 1024 ∧
          (∀ i, i < indexed_image_2x2.colormap.length →
            ∃ c, indexed_image_2x2.colormap.get? i = some c ∧
              palette_entry pal 0 i =
                (c.1, c.2.1, c.2.2, if (i : Int) = (plain_config
                    MipmapMode.NONE).transparent_index then 0 else 255)) ∧
          (∀ i, indexed_image_2x2.colormap.length ≤ i → i < 256 →
            palette_entry pal 0 i = (0, 0, 0, 0))) :=
  palette_emission (quiet_host 4096) false false (empty_stream 4096) indexed_image_2x2
    indexed_layer_2x2 (plain_config MipmapMode.NONE) (fun h => absurd h (by decide))
    (by decide) (by decide)

/-! ## The payload of write_layer -/

theorem length_buffer_of (n : Nat) (bytes : List Nat) : (buffer_of n bytes).length = n := by
  unfold buffer_of
  rw [List.length_take, List.length_append, List.length_replicate]
  omega

theorem sum_map_range (f : Nat → Nat) (n : Nat) :
    ((List.range n).map f).sum = ∑ k ∈ Finset.range n, f k := by
  induction n with
  | zero => rfl
  | succ n ih =>
    rw [List.range_succ, List.map_append, List.sum_append, ih, Finset.sum_range_succ,
      List.map_singleton, List.sum_singleton]

theorem get_mipmapped_size_one (w h bpp i : Nat) (format : Compression) :
    get_mipmapped_size w h bpp i 1 format =
      level_size (max 1 (w >>> i)) (max 1 (h >>> i)) bpp format := by
  unfold get_mipmapped_size
  rw [sum_map_range, Finset.sum_range_one, Nat.add_zero]

theorem get_mipmapped_size_succ (w h bpp i n : Nat) (format : Compression) :
    get_mipmapped_size w h bpp i (n + 1) format =
      get_mipmapped_size w h bpp i 1 format + get_mipmapped_size w h bpp (i + 1) n format := by
  unfold get_mipmapped_size
  rw [sum_map_range, sum_map_range, sum_map_range, Finset.sum_range_succ',
    Finset.sum_range_one, Nat.add_zero, Nat.add_comm]
  congr 1
  apply Finset.sum_congr rfl
  intro k _
  rw [show i + (k + 1) = i + 1 + k by omega]

/-- The loop of `get_mipmap_chain` ends before `max w h + 1` rounds: more fuel does not
change its result. -/
theorem get_mipmap_chain_loop_fuel (k : Kernels) (layers : List Layer) (bpp : Nat)
    (fuel1 fuel2 w h idx : Nat) (h1 : max w h < fuel1) (h2 : max w h < fuel2) :
    get_mipmap_chain_loop k layers bpp fuel1 w h idx =
      get_mipmap_chain_loop k layers bpp fuel2 w h idx := by
  induction fuel1 generalizing fuel2 w h idx with
  | zero => exact absurd h1 (Nat.not_lt_zero _)
  | succ fuel1 ih =>
    cases fuel2 with
    | zero => exact absurd h2 (Nat.not_lt_zero _)
    | succ fuel2 =>
      unfold get_mipmap_chain_loop
      cases hn : get_next_mipmap_dimensions w h with
      | none => rfl
      | some d =>
        obtain ⟨mipw, miph⟩ := d
        simp only []
        unfold get_next_mipmap_dimensions at hn
        by_cases hs : w ≤ 1 ∧ h ≤ 1
        · rw [if_pos hs] at hn
          cases hn
        · rw [if_neg hs] at hn
          simp only [Option.some.injEq, Prod.mk.injEq] at hn
          obtain ⟨hw, hh⟩ := hn
          have hlt : max mipw miph < max w h := by
            rw [← hw, ← hh, Nat.shiftRight_eq_div_pow, Nat.shiftRight_eq_div_pow]
            have e : (2 : Nat) ^ 1 = 2 := rfl
            rw [e]
            omega
          rw [ih fuel2 mipw miph (idx + 1) (by omega) (by omega)]

/-! ## Pixel kernels, mipmap chains and the volume writer -/

theorem swap_rb_succ (pixels : List Nat) (n bpp : Nat) :
    swap_rb pixels (n + 1) bpp =
      ((swap_rb pixels n bpp).set (bpp * n + 0)
        ((swap_rb pixels n bpp).getD (bpp * n + 2) 0)).set (bpp * n + 2)
        ((swap_rb pixels n bpp).getD (bpp * n + 0) 0) := by
  unfold swap_rb
  rw [List.range_succ, List.foldl_append]
  rfl

theorem length_swap_rb (pixels : List Nat) (n bpp : Nat) :
    (swap_rb pixels n bpp).length = pixels.length := by
  induction n with
  | zero => rfl
  | succ n ih => rw [swap_rb_succ, List.length_set, List.length_set, ih]

/-- The rounding of `float_round` at three constants: the binary32 values of 1/10, 1/3
and 1/10000 are 13421773 * 2^-27, 11184811 * 2^-25 and 13743895 * 2^-37. -/
theorem float_round_constants :
    float_round 1 10 = 13421773 * 2 ^ 13 ∧ float_round 1 3 = 11184811 * 2 ^ 15 ∧
      float_round 1 10000 = 13743895 * 2 ^ 3 := by
  decide

/-- One round of the bisection of `float_shift`: the least shift lies from `s` on and
below `s + 2 * b` before the round, and from the new `s` on and below it plus `b`
after it. -/
theorem float_shift_step (num lim s b : Nat) (hb : 1 ≤ b)
    (hlow : s = 0 ∨ num * 2 ^ (s - 1) < lim)
    (hhigh : lim ≤ num * 2 ^ (s + 2 * b - 1)) (hmax : s + 2 * b ≤ 64) :
    ((if num * 2 ^ (s + b - 1) < lim then s + b else s) = 0 ∨
      num * 2 ^ ((if num * 2 ^ (s + b - 1) < lim then s + b else s) - 1) < lim) ∧
    lim ≤ num * 2 ^ ((if num * 2 ^ (s + b - 1) < lim then s + b else s) + b - 1) ∧
    (if num * 2 ^ (s + b - 1) < lim then s + b else s) + b ≤ 64 := by
  by_cases hc : num * 2 ^ (s + b - 1) < lim
  · rw [if_pos hc]
    refine ⟨Or.inr hc, ?_, by omega⟩
    rw [show s + b + b - 1 = s + 2 * b - 1 by omega]
    exact hhigh
  · rw [if_neg hc]
    exact ⟨hlow, Nat.le_of_not_lt hc, by omega⟩

/-- The shift found by `float_shift` is the least one whose quotient reaches `2^23`. -/
theorem float_shift_spec (num den : Nat) (h63 : 2 ^ 23 * den ≤ num * 2 ^ 63) :
    2 ^ 23 * den ≤ num * 2 ^ float_shift num den ∧
    (float_shift num den = 0 ∨ num * 2 ^ (float_shift num den - 1) < 2 ^ 23 * den) ∧
    float_shift num den ≤ 63 := by
  have h0 := float_shift_step num (2 ^ 23 * den) 0 32 (by omega) (Or.inl rfl) h63 (by omega)
  have h1 := float_shift_step num (2 ^ 23 * den) _ 16 (by omega) h0.1 h0.2.1 h0.2.2
  have h2 := float_shift_step num (2 ^ 23 * den) _ 8 (by omega) h1.1 h1.2.1 h1.2.2
  have h3 := float_shift_step num (2 ^ 23 * den) _ 4 (by omega) h2.1 h2.2.1 h2.2.2
  have h4 := float_shift_step num (2 ^ 23 * den) _ 2 (by omega) h3.1 h3.2.1 h3.2.2
  have h5 := float_shift_step num (2 ^ 23 * den) _ 1 (by omega) h4.1 h4.2.1 h4.2.2
  exact ⟨h5.2.1, h5.1, by have := h5.2.2; exact Nat.le_of_lt_succ this⟩

theorem float_shift_le_40 (num den : Nat) (h40 : 2 ^ 23 * den ≤ num * 2 ^ 40) :
    float_shift num den ≤ 40 := by
  have h63 : 2 ^ 23 * den ≤ num * 2 ^ 63 :=
    le_trans h40 (Nat.mul_le_mul_left _ (Nat.pow_le_pow_right (by omega) (by omega)))
  obtain ⟨_, hlow, _⟩ := float_shift_spec num den h63
  by_contra hgt
  rcases hlow with h0 | hlt
  · omega
  · have : num * 2 ^ 40 ≤ num * 2 ^ (float_shift num den - 1) :=
      Nat.mul_le_mul_left _ (Nat.pow_le_pow_right (by omega) (by omega))
    omega

/-- The rounding of `float_round`: the result is `m * 2^(40 - s)` for a shift `s` with
`2^23 * den <= num * 2^s` and an integer `m` within one half of `num * 2^s / den`. -/
theorem float_round_near (num den : Nat) (hden : 0 < den)
    (h40 : 2 ^ 23 * den ≤ num * 2 ^ 40) :
    ∃ s m : Nat, s ≤ 40 ∧ float_round num den = m * 2 ^ (40 - s) ∧
      2 ^ 23 * den ≤ num * 2 ^ s ∧
      2 * (m * den) ≤ 2 * (num * 2 ^ s) + den ∧ 2 * (num * 2 ^ s) ≤ 2 * (m * den) + den := by
  have hnum : num ≠ 0 := by
    intro hz
    rw [hz, Nat.zero_mul] at h40
    have : 0 < 2 ^ 23 * den := Nat.mul_pos (Nat.two_pow_pos 23) hden
    omega
  have h63 : 2 ^ 23 * den ≤ num * 2 ^ 63 :=
    le_trans h40 (Nat.mul_le_mul_left _ (Nat.pow_le_pow_right (by omega) (by omega)))
  obtain ⟨hs, _, _⟩ := float_shift_spec num den h63
  have hs40 := float_shift_le_40 num den h40
  have hdm := Nat.div_add_mod (num * 2 ^ float_shift num den) den
  have hlt := Nat.mod_lt (num * 2 ^ float_shift num den) hden
  refine ⟨float_shift num den,
    if den < 2 * (num * 2 ^ float_shift num den % den) ∨
        (2 * (num * 2 ^ float_shift num den % den) = den ∧
          num * 2 ^ float_shift num den / den % 2 = 1) then
      num * 2 ^ float_shift num den / den + 1
    else num * 2 ^ float_shift num den / den, hs40, ?_, hs, ?_⟩
  · unfold float_round
    rw [if_neg hnum]
  · generalize num * 2 ^ float_shift num den = t at hdm hlt ⊢
    generalize hq : t / den = q at hdm ⊢
    generalize hr : t % den = rest at hdm hlt ⊢
    rw [Nat.mul_comm den q] at hdm
    by_cases hup : den < 2 * rest ∨ (2 * rest = den ∧ q % 2 = 1)
    · rw [if_pos hup, Nat.add_mul, Nat.one_mul]
      generalize q * den = p at hdm ⊢
      omega
    · rw [if_neg hup]
      generalize q * den = p at hdm ⊢
      omega

/-- The error of one binary32 operation: the rounded value of `num / den` differs from
it by at most the fraction `2^-24` of it, for `num / den` from `2^-17` on. -/
theorem float_round_error (num den : Nat) (hden : 0 < den)
    (h40 : 2 ^ 23 * den ≤ num * 2 ^ 40) :
    (1 - 1 / 2 ^ 24) * ((num : ℚ) / den) ≤ (float_round num den : ℚ) / 2 ^ 40 ∧
    (float_round num den : ℚ) / 2 ^ 40 ≤ (1 + 1 / 2 ^ 24) * ((num : ℚ) / den) := by
  obtain ⟨s, m, hs, hR, hlo, hm1, hm2⟩ := float_round_near num den hden h40
  have hD : (0 : ℚ) < den := by exact_mod_cast hden
  have hS : (0 : ℚ) < 2 ^ s := by positivity
  have hval : (float_round num den : ℚ) / 2 ^ 40 = (m : ℚ) / 2 ^ s := by
    rw [hR]
    push_cast
    have h2 : (2 : ℚ) ^ 40 = 2 ^ (40 - s) * 2 ^ s := by
      rw [← pow_add]
      congr 1
      omega
    rw [h2]
    field_simp
    ring
  have q1 : (2 : ℚ) * (m * den) ≤ 2 * (num * 2 ^ s) + den := by exact_mod_cast hm1
  have q2 : (2 : ℚ) * (num * 2 ^ s) ≤ 2 * (m * den) + den := by exact_mod_cast hm2
  have q3 : (2 : ℚ) ^ 23 * den ≤ num * 2 ^ s := by exact_mod_cast hlo
  rw [hval]
  constructor
  · rw [le_div_iff₀ hS, mul_assoc, div_mul_eq_mul_div, mul_div_assoc']
    rw [div_le_iff₀ hD]
    nlinarith
  · rw [div_le_iff₀ hS, mul_assoc, div_mul_eq_mul_div, mul_div_assoc', le_div_iff₀ hD]
    nlinarith

theorem float_value_of_int (n : Nat) : float_value (float_of_int n) = n := by
  unfold float_value float_of_int
  push_cast
  norm_num

theorem float_value_half : float_value (float_round 1 2) = 1 / 2 := by
  have h : float_round 1 2 = 2 ^ 39 := by decide
  rw [h]
  unfold float_value
  norm_num

theorem float_value_pos (x : Nat) (hx : 0 < float_value x) : 0 < x := by
  unfold float_value at hx
  by_contra hz
  have : x = 0 := by omega
  rw [this] at hx
  simp at hx

theorem float_value_le (x y : Nat) (h : float_value x ≤ float_value y) : x ≤ y := by
  unfold float_value at h
  have h2 : (x : ℚ) ≤ y := by
    have hp : (0 : ℚ) < 2 ^ 40 := by positivity
    exact (div_le_div_iff_of_pos_right hp).mp h
  exact_mod_cast h2

/-- The error of a `float` division of positive values whose quotient is at least
`2^-17`. -/
theorem float_div_error (x y : Nat) (hy : 0 < y) (hr : y ≤ x * 2 ^ 17) :
    (1 - 1 / 2 ^ 24) * (float_value x / float_value y) ≤ float_value (float_div x y) ∧
    float_value (float_div x y) ≤ (1 + 1 / 2 ^ 24) * (float_value x / float_value y) := by
  have h40 : 2 ^ 23 * y ≤ x * 2 ^ 40 := by
    have : x * 2 ^ 40 = x * 2 ^ 17 * 2 ^ 23 := by
      rw [Nat.mul_assoc, ← Nat.pow_add]
    rw [this, Nat.mul_comm (2 ^ 23) y]
    exact Nat.mul_le_mul_right _ hr
  have e : float_value x / float_value y = (x : ℚ) / y := by
    unfold float_value
    have hy' : (y : ℚ) ≠ 0 := by
      have : (0 : ℚ) < y := by exact_mod_cast hy
      exact ne_of_gt this
    field_simp
  rw [e]
  exact float_round_error x y hy h40

/-- The error of a `float` product that is at least `2^-17`. -/
theorem float_mul_error (x y : Nat) (hr : 2 ^ 63 ≤ x * y) :
    (1 - 1 / 2 ^ 24) * (float_value x * float_value y) ≤ float_value (float_mul x y) ∧
    float_value (float_mul x y) ≤ (1 + 1 / 2 ^ 24) * (float_value x * float_value y) := by
  have h40 : 2 ^ 23 * (2 ^ 40 * 2 ^ 40) ≤ x * y * 2 ^ 40 := by
    have : 2 ^ 23 * (2 ^ 40 * 2 ^ 40) = 2 ^ 63 * 2 ^ 40 := by norm_num
    rw [this]
    exact Nat.mul_le_mul_right _ hr
  have e : float_value x * float_value y = ((x * y : Nat) : ℚ) / ((2 ^ 40 * 2 ^ 40 : Nat) : ℚ) := by
    unfold float_value
    push_cast
    rw [div_mul_div_comm]
    norm_num
  rw [e]
  exact float_round_error (x * y) (2 ^ 40 * 2 ^ 40) (by positivity) h40

/-- The error of a `float` sum that is at least `2^-17`. -/
theorem float_add_error (x y : Nat) (hr : 2 ^ 23 ≤ x + y) :
    (1 - 1 / 2 ^ 24) * (float_value x + float_value y) ≤ float_value (float_add x y) ∧
    float_value (float_add x y) ≤ (1 + 1 / 2 ^ 24) * (float_value x + float_value y) := by
  have h40 : 2 ^ 23 * 2 ^ 40 ≤ (x + y) * 2 ^ 40 := Nat.mul_le_mul_right _ hr
  have e : float_value x + float_value y = ((x + y : Nat) : ℚ) / ((2 ^ 40 : Nat) : ℚ) := by
    unfold float_value
    push_cast
    rw [add_div]
    norm_num
  rw [e]
  exact float_round_error (x + y) (2 ^ 40) (by positivity) h40

/-- The `float` quotient `c / 255.0f` for `1 <= c`: within the fraction `2^-24` of
`c / 255`. -/
theorem float_div_255_bounds (c : Nat) (hc : 1 ≤ c) :
    (1 - 1 / 2 ^ 24) * ((c : ℚ) / 255) ≤
        float_value (float_div (float_of_int c) (float_of_int 255)) ∧
      float_value (float_div (float_of_int c) (float_of_int 255)) ≤
        (1 + 1 / 2 ^ 24) * ((c : ℚ) / 255) := by
  have h := float_div_error (float_of_int c) (float_of_int 255)
    (by unfold float_of_int; norm_num) (by unfold float_of_int; omega)
  rw [float_value_of_int, float_value_of_int] at h
  exact_mod_cast h

/-- The `float` passed to `floorf` for a channel `c` and the largest channel `m`, `1 <= c
<= m <= 255`, is nearer than 1/512 to the exact `255 * c / m + 1/2`. -/
theorem alpha_exp_scaled_near (c m : Nat) (hc : 1 ≤ c) (hcm : c ≤ m) (_hm : m ≤ 255) :
    255 * ((c : ℚ) / m) + 1 / 2 - 1 / 512 < float_value (alpha_exp_scaled c m) ∧
    float_value (alpha_exp_scaled c m) < 255 * ((c : ℚ) / m) + 1 / 2 + 1 / 512 := by
  obtain ⟨a1, a2⟩ := float_div_255_bounds c hc
  obtain ⟨b1, b2⟩ := float_div_255_bounds m (by omega)
  unfold alpha_exp_scaled
  generalize float_div (float_of_int c) (float_of_int 255) = A at a1 a2 ⊢
  generalize float_div (float_of_int m) (float_of_int 255) = B at b1 b2 ⊢
  have hc0 : (1 : ℚ) ≤ c := by exact_mod_cast hc
  have hm0 : (1 : ℚ) ≤ m := by exact_mod_cast (show 1 ≤ m by omega)
  have hcm0 : (c : ℚ) ≤ m := by exact_mod_cast hcm
  have hm255 : (m : ℚ) ≤ 255 := by exact_mod_cast _hm
  have ht0 : (0 : ℚ) < (c : ℚ) / m := by positivity
  have ht1 : (c : ℚ) / m ≤ 1 := by
    rw [div_le_iff₀ (by linarith)]
    linarith
  have htm : (c : ℚ) / m * m = c := by
    field_simp
  have hvB : 0 < float_value B := by
    have : (0 : ℚ) < (1 - 1 / 2 ^ 24) * ((m : ℚ) / 255) := by
      apply mul_pos (by norm_num)
      positivity
    linarith
  have hvA : (1 - 1 / 2 ^ 24) * (1 / 255) ≤ float_value A := by
    have : (1 - 1 / 2 ^ 24) * ((1 : ℚ) / 255) ≤ (1 - 1 / 2 ^ 24) * ((c : ℚ) / 255) := by
      apply mul_le_mul_of_nonneg_left _ (by norm_num)
      exact div_le_div_of_nonneg_right hc0 (by norm_num)
    linarith
  have hvB1 : float_value B ≤ (1 + 1 / 2 ^ 24) := by
    have : (1 + 1 / 2 ^ 24) * ((m : ℚ) / 255) ≤ (1 + 1 / 2 ^ 24) * 1 := by
      apply mul_le_mul_of_nonneg_left _ (by norm_num)
      rw [div_le_iff₀ (by norm_num)]
      linarith
    linarith
  have hB : 0 < B := float_value_pos B hvB
  have hAB : B ≤ A * 2 ^ 17 := by
    have h1 : float_value B ≤ float_value A * 2 ^ 17 := by
      norm_num at hvA hvB1 ⊢
      linarith
    unfold float_value at h1
    have h2 : (B : ℚ) ≤ (A : ℚ) * 2 ^ 17 := by
      have hp : (0 : ℚ) < 2 ^ 40 := by positivity
      rw [div_mul_eq_mul_div, div_le_div_iff_of_pos_right hp] at h1
      exact h1
    exact_mod_cast h2
  obtain ⟨x1, x2⟩ := float_div_error A B hB hAB
  have r2 : float_value A / float_value B ≤ (1 + 1 / 2 ^ 24) / (1 - 1 / 2 ^ 24) * ((c : ℚ) / m) := by
    rw [div_le_iff₀ hvB]
    have e : (1 + 1 / 2 ^ 24) * ((c : ℚ) / 255) =
        (1 + 1 / 2 ^ 24) / (1 - 1 / 2 ^ 24) * ((c : ℚ) / m) *
          ((1 - 1 / 2 ^ 24) * ((m : ℚ) / 255)) := by
      have hmne : (m : ℚ) ≠ 0 := by linarith
      field_simp
    have : (1 + 1 / 2 ^ 24) / (1 - 1 / 2 ^ 24) * ((c : ℚ) / m) *
          ((1 - 1 / 2 ^ 24) * ((m : ℚ) / 255)) ≤
        (1 + 1 / 2 ^ 24) / (1 - 1 / 2 ^ 24) * ((c : ℚ) / m) * float_value B := by
      apply mul_le_mul_of_nonneg_left b1
      apply mul_nonneg (by norm_num) (le_of_lt ht0)
    linarith
  have r1 : (1 - 1 / 2 ^ 24) / (1 + 1 / 2 ^ 24) * ((c : ℚ) / m) ≤ float_value A / float_value B := by
    rw [le_div_iff₀ hvB]
    have e : (1 - 1 / 2 ^ 24) * ((c : ℚ) / 255) =
        (1 - 1 / 2 ^ 24) / (1 + 1 / 2 ^ 24) * ((c : ℚ) / m) *
          ((1 + 1 / 2 ^ 24) * ((m : ℚ) / 255)) := by
      have hmne : (m : ℚ) ≠ 0 := by linarith
      field_simp
    have : (1 - 1 / 2 ^ 24) / (1 + 1 / 2 ^ 24) * ((c : ℚ) / m) * float_value B ≤
        (1 - 1 / 2 ^ 24) / (1 + 1 / 2 ^ 24) * ((c : ℚ) / m) *
          ((1 + 1 / 2 ^ 24) * ((m : ℚ) / 255)) := by
      apply mul_le_mul_of_nonneg_left b2
      apply mul_nonneg (by norm_num) (le_of_lt ht0)
    linarith
  generalize float_value A / float_value B = R at x1 x2 r1 r2
  generalize hX : float_div A B = X at x1 x2 ⊢
  have hmin : (1 : ℚ) / 255 ≤ (c : ℚ) / m := by
    rw [div_le_div_iff₀ (by norm_num) (by linarith)]
    linarith
  have hvX : (1 : ℚ) / 2 ^ 17 ≤ float_value X := by
    norm_num at x1 r1 hmin ⊢
    linarith
  have hX23 : 2 ^ 23 ≤ X := by
    unfold float_value at hvX
    have hp : (0 : ℚ) < 2 ^ 40 := by positivity
    rw [le_div_iff₀ hp] at hvX
    have : ((2 ^ 23 : Nat) : ℚ) ≤ (X : ℚ) := by
      norm_num at hvX ⊢
      linarith
    exact_mod_cast this
  obtain ⟨y1, y2⟩ := float_mul_error (float_of_int 255) X (by
    unfold float_of_int
    have : 2 ^ 63 = 1 * 2 ^ 40 * 2 ^ 23 := by norm_num
    rw [this]
    exact Nat.mul_le_mul (Nat.mul_le_mul_right _ (by omega)) hX23)
  rw [float_value_of_int] at y1 y2
  generalize float_mul (float_of_int 255) X = Y at y1 y2 ⊢
  obtain ⟨z1, z2⟩ := float_add_error Y (float_round 1 2) (by
    have h : float_round 1 2 = 2 ^ 39 := by decide
    rw [h]
    omega)
  rw [float_value_half] at z1 z2
  generalize float_value (float_add Y (float_round 1 2)) = Z at z1 z2 ⊢
  generalize float_value Y = vY at y1 y2 z1 z2
  generalize float_value X = vX at x1 x2 y1 y2 hvX
  generalize (c : ℚ) / m = t at ht0 ht1 r1 r2 hmin ⊢
  norm_num at x1 x2 r1 r2 y1 y2 z1 z2 ⊢
  constructor
  · linarith
  · linarith

/-- The exact value `255 * c / m + 1/2` split into its integer part and the rest. -/
theorem exact_channel_split (c m : Nat) (hm : 1 ≤ m) :
    255 * ((c : ℚ) / m) + 1 / 2 =
      (((510 * c + m) / (2 * m) : Nat) : ℚ) + (((510 * c + m) % (2 * m) : Nat) : ℚ) / (2 * m) := by
  have h := Nat.div_add_mod (510 * c + m) (2 * m)
  have hq : ((2 * m * ((510 * c + m) / (2 * m)) + (510 * c + m) % (2 * m) : Nat) : ℚ) =
      ((510 * c + m : Nat) : ℚ) := by rw [h]
  generalize (510 * c + m) / (2 * m) = E at hq ⊢
  generalize (510 * c + m) % (2 * m) = rest at hq ⊢
  push_cast at hq
  have hm0 : (m : ℚ) ≠ 0 := by
    have : (1 : ℚ) ≤ m := by exact_mod_cast hm
    linarith
  field_simp
  linear_combination (-2 * (m : ℚ)) * hq

/-- The floor of the exact value, as a natural number. -/
theorem exact_channel_floor (c m : Nat) (hm : 1 ≤ m) :
    ⌊255 * ((c : ℚ) / m) + 1 / 2⌋ = (((510 * c + m) / (2 * m) : Nat) : Int) := by
  rw [Int.floor_eq_iff, exact_channel_split c m hm]
  have hlt := Nat.mod_lt (510 * c + m) (show 0 < 2 * m by omega)
  have hm0 : (0 : ℚ) < 2 * m := by
    have : (1 : ℚ) ≤ m := by exact_mod_cast hm
    linarith
  generalize (510 * c + m) / (2 * m) = E
  generalize (510 * c + m) % (2 * m) = rest at hlt
  have h1 : (0 : ℚ) ≤ (rest : ℚ) / (2 * m) := by positivity
  have h2 : (rest : ℚ) / (2 * m) < 1 := by
    rw [div_lt_one hm0]
    exact_mod_cast hlt
  rw [Int.cast_natCast]
  constructor
  · linarith
  · linarith

/-- The byte of a channel `c` for the largest channel `m`, `1 <= c <= m <= 255`: the
floor of the exact `255 * c / m + 1/2`, or one less when that value is an integer. -/
theorem alpha_exp_scaled_floor (c m : Nat) (hc : 1 ≤ c) (hcm : c ≤ m) (hm : m ≤ 255) :
    alpha_exp_scaled c m / 2 ^ 40 = (510 * c + m) / (2 * m) ∨
    (alpha_exp_scaled c m / 2 ^ 40 + 1 = (510 * c + m) / (2 * m) ∧
      (510 * c + m) % (2 * m) = 0) := by
  obtain ⟨n1, n2⟩ := alpha_exp_scaled_near c m hc hcm hm
  rw [exact_channel_split c m (by omega)] at n1 n2
  have hlt := Nat.mod_lt (510 * c + m) (show 0 < 2 * m by omega)
  have hdm := Nat.div_add_mod (510 * c + m) (2 * m)
  generalize alpha_exp_scaled c m = Zn at n1 n2 ⊢
  generalize (510 * c + m) / (2 * m) = E at n1 n2 hdm ⊢
  generalize (510 * c + m) % (2 * m) = rest at n1 n2 hlt hdm ⊢
  unfold float_value at n1 n2
  have hp : (0 : ℚ) < 2 ^ 40 := by positivity
  have hm1 : (1 : ℚ) ≤ m := by exact_mod_cast (show 1 ≤ m by omega)
  have hm255 : (m : ℚ) ≤ 255 := by exact_mod_cast hm
  have h2m : (0 : ℚ) < 2 * m := by linarith
  rw [lt_div_iff₀ hp] at n1
  rw [div_lt_iff₀ hp] at n2
  by_cases hz : rest = 0
  · rw [hz] at n1 n2 hdm
    simp only [Nat.cast_zero, zero_div, add_zero] at n1 n2
    have hE : 1 ≤ E := by
      by_contra hE0
      have : E = 0 := by omega
      rw [this] at hdm
      omega
    have hE1 : (1 : ℚ) ≤ E := by exact_mod_cast hE
    by_cases hlow : E * 2 ^ 40 ≤ Zn
    · left
      apply Nat.div_eq_of_lt_le hlow
      have : (Zn : ℚ) < ((E + 1 : Nat) : ℚ) * 2 ^ 40 := by
        push_cast
        linarith
      exact_mod_cast this
    · right
      refine ⟨?_, hz⟩
      have e : Zn / 2 ^ 40 = E - 1 := by
        apply Nat.div_eq_of_lt_le
        · have : (((E - 1 : Nat) : ℚ)) * 2 ^ 40 ≤ Zn := by
            push_cast [hE]
            linarith
          exact_mod_cast this
        · have hs : E - 1 + 1 = E := by omega
          rw [hs]
          omega
      omega
  · left
    have hr1 : (1 : ℚ) ≤ rest := by exact_mod_cast (show 1 ≤ rest by omega)
    have hr2 : (rest : ℚ) + 1 ≤ 2 * m := by exact_mod_cast (show rest + 1 ≤ 2 * m by omega)
    have f1 : (1 : ℚ) / 510 ≤ (rest : ℚ) / (2 * m) := by
      rw [div_le_div_iff₀ (by norm_num) h2m]
      linarith
    have f2 : (rest : ℚ) / (2 * m) ≤ 1 - 1 / 510 := by
      rw [div_le_iff₀ h2m]
      nlinarith
    apply Nat.div_eq_of_lt_le
    · have : ((E : Nat) : ℚ) * 2 ^ 40 ≤ Zn := by
        nlinarith
      exact_mod_cast this
    · have : (Zn : ℚ) < ((E + 1 : Nat) : ℚ) * 2 ^ 40 := by
        push_cast
        nlinarith
      exact_mod_cast this

theorem clamp_byte_eq (x : Int) (h0 : 0 ≤ x) (h1 : x ≤ 255) : clamp_byte x = x.toNat := by
  unfold clamp_byte
  rw [min_eq_right h1, max_eq_right h0]

theorem clamp_byte_floorf (x : Nat) (h : x / 2 ^ 40 ≤ 255) :
    clamp_byte (floorf x) = x / 2 ^ 40 := by
  unfold floorf
  rw [clamp_byte_eq _ (Int.natCast_nonneg _) (by exact_mod_cast h), Int.toNat_natCast]

theorem float_round_zero (den : Nat) : float_round 0 den = 0 := by
  unfold float_round
  rw [if_pos rfl]

theorem float_div_255_zero : float_div (float_of_int 0) (float_of_int 255) = 0 := by
  unfold float_div float_of_int
  rw [Nat.zero_mul]
  exact float_round_zero _

/-- The quotient `c / 255.0f` does not decrease with `c`. -/
theorem float_div_255_mono (c d : Nat) (hcd : c ≤ d) (hd : d ≤ 255) :
    float_div (float_of_int c) (float_of_int 255) ≤
      float_div (float_of_int d) (float_of_int 255) := by
  rcases Nat.eq_zero_or_pos c with hc | hc
  · rw [hc, float_div_255_zero]
    exact Nat.zero_le _
  · rcases Nat.eq_or_lt_of_le hcd with he | hlt
    · rw [he]
    · apply float_value_le
      obtain ⟨_, a2⟩ := float_div_255_bounds c hc
      obtain ⟨b1, _⟩ := float_div_255_bounds d (by omega)
      have hc1 : (c : ℚ) + 1 ≤ d := by exact_mod_cast hlt
      have hd1 : (d : ℚ) ≤ 255 := by exact_mod_cast hd
      have hc0 : (0 : ℚ) ≤ c := by positivity
      norm_num at a2 b1
      linarith

theorem float_div_255_max (c d : Nat) (hc : c ≤ 255) (hd : d ≤ 255) :
    max (float_div (float_of_int c) (float_of_int 255))
        (float_div (float_of_int d) (float_of_int 255)) =
      float_div (float_of_int (max c d)) (float_of_int 255) := by
  rcases Nat.le_total c d with h | h
  · rw [Nat.max_eq_right h, Nat.max_eq_right (float_div_255_mono c d h hd)]
  · rw [Nat.max_eq_left h, Nat.max_eq_left (float_div_255_mono d c h hc)]

/-- The threshold test `aa < 1e-04f` holds for the largest channel 0 only. -/
theorem float_div_255_threshold (m : Nat) (hm : m ≤ 255) :
    float_div (float_of_int m) (float_of_int 255) < float_round 1 10000 ↔ m = 0 := by
  constructor
  · intro hlt
    by_contra hne
    have h1 := float_div_255_mono 1 m (by omega) hm
    have h2 : float_round 1 10000 ≤ float_div (float_of_int 1) (float_of_int 255) := by decide
    omega
  · intro hz
    rw [hz, float_div_255_zero]
    decide

theorem alpha_exp_scaled_zero (m : Nat) : alpha_exp_scaled 0 m / 2 ^ 40 = 0 := by
  unfold alpha_exp_scaled
  rw [float_div_255_zero]
  have h1 : float_div 0 (float_div (float_of_int m) (float_of_int 255)) = 0 :=
    float_round_zero _
  rw [h1]
  have h2 : float_mul (float_of_int 255) 0 = 0 := by
    unfold float_mul
    rw [Nat.mul_zero]
    exact float_round_zero _
  rw [h2]
  decide

/-- The alpha byte: `floorf (255.0f * aa + 0.5f)` is the largest channel. -/
theorem alpha_exp_alpha (m : Nat) (hm1 : 1 ≤ m) (hm : m ≤ 255) :
    float_add (float_mul (float_of_int 255) (float_div (float_of_int m) (float_of_int 255)))
        (float_round 1 2) / 2 ^ 40 = m := by
  obtain ⟨b1, b2⟩ := float_div_255_bounds m hm1
  generalize float_div (float_of_int m) (float_of_int 255) = B at b1 b2 ⊢
  have hm0 : (1 : ℚ) ≤ m := by exact_mod_cast hm1
  have hm255 : (m : ℚ) ≤ 255 := by exact_mod_cast hm
  have hvB : (1 : ℚ) / 2 ^ 17 ≤ float_value B := by
    norm_num at b1 ⊢
    linarith
  have hB23 : 2 ^ 23 ≤ B := by
    unfold float_value at hvB
    have hp : (0 : ℚ) < 2 ^ 40 := by positivity
    rw [le_div_iff₀ hp] at hvB
    have : ((2 ^ 23 : Nat) : ℚ) ≤ (B : ℚ) := by
      norm_num at hvB ⊢
      linarith
    exact_mod_cast this
  obtain ⟨y1, y2⟩ := float_mul_error (float_of_int 255) B (by
    unfold float_of_int
    have : 2 ^ 63 = 1 * 2 ^ 40 * 2 ^ 23 := by norm_num
    rw [this]
    exact Nat.mul_le_mul (Nat.mul_le_mul_right _ (by omega)) hB23)
  rw [float_value_of_int] at y1 y2
  generalize float_mul (float_of_int 255) B = Y at y1 y2 ⊢
  obtain ⟨z1, z2⟩ := float_add_error Y (float_round 1 2) (by
    have h : float_round 1 2 = 2 ^ 39 := by decide
    rw [h]
    omega)
  rw [float_value_half] at z1 z2
  generalize float_add Y (float_round 1 2) = Zn at z1 z2 ⊢
  have hp : (0 : ℚ) < 2 ^ 40 := by positivity
  generalize float_value Y = vY at y1 y2 z1 z2
  generalize float_value B = vB at b1 b2 y1 y2 hvB
  unfold float_value at z1 z2
  norm_num at b1 b2 y1 y2 z1 z2
  apply Nat.div_eq_of_lt_le
  · have : ((m : Nat) : ℚ) * 2 ^ 40 ≤ Zn := by
      norm_num
      linarith
    exact_mod_cast this
  · have : (Zn : ℚ) < ((m + 1 : Nat) : ℚ) * 2 ^ 40 := by
      push_cast
      norm_num
      linarith
    exact_mod_cast this

/-- The byte of a channel `c <= m` for the largest channel `m`, `1 <= m <= 255`. -/
theorem alpha_exp_scaled_byte (c m : Nat) (hcm : c ≤ m) (hm1 : 1 ≤ m) (hm : m ≤ 255) :
    alpha_exp_scaled c m / 2 ^ 40 ≤ 255 ∧ NearestChannel (alpha_exp_scaled c m / 2 ^ 40) c m ∧
      (c = m → alpha_exp_scaled c m / 2 ^ 40 = 255) := by
  have hfl := exact_channel_floor c m hm1
  have hsp := exact_channel_split c m hm1
  rw [← mul_div_assoc] at hfl hsp
  have hE : (510 * c + m) / (2 * m) ≤ 255 := by
    apply Nat.le_of_lt_succ
    rw [Nat.div_lt_iff_lt_mul (by omega)]
    nlinarith
  unfold NearestChannel
  rw [hfl]
  rcases Nat.eq_zero_or_pos c with hc | hc
  · rw [hc, alpha_exp_scaled_zero]
    refine ⟨by omega, Or.inl ?_, fun h => by omega⟩
    have : (510 * 0 + m) / (2 * m) = 0 := by
      rw [Nat.div_eq_zero_iff (by omega)]
      omega
    rw [this]
  · rcases alpha_exp_scaled_floor c m hc hcm hm with h | ⟨h, hz⟩
    · rw [h]
      refine ⟨hE, Or.inl rfl, ?_⟩
      intro hcm2
      rw [hcm2]
      have : 510 * m + m = m + 255 * (2 * m) := by ring
      rw [this, Nat.add_mul_div_right _ _ (by omega), Nat.div_eq_of_lt (by omega)]
    · refine ⟨by omega, Or.inr ⟨?_, ?_⟩, ?_⟩
      · rw [← h]
        push_cast
        rfl
      · rw [hsp, hz, Nat.cast_zero, zero_div, add_zero, Int.cast_natCast]
      · intro hcm2
        rw [hcm2] at hz
        have : 510 * m + m = m + 255 * (2 * m) := by ring
        rw [this, Nat.add_mul_mod_self_right, Nat.mod_eq_of_lt (by omega)] at hz
        omega

/-- The bytes that `alpha_exp` stores, by the largest channel. -/
theorem alpha_exp_eq (r g b a : Nat) (hr : r ≤ 255) (hg : g ≤ 255) (hb : b ≤ 255) :
    alpha_exp r g b a =
      if r = 0 ∧ g = 0 ∧ b = 0 then [0, 0, 0, 255]
      else
        [alpha_exp_scaled b (max r (max g b)) / 2 ^ 40,
          alpha_exp_scaled g (max r (max g b)) / 2 ^ 40,
          alpha_exp_scaled r (max r (max g b)) / 2 ^ 40, max r (max g b)] := by
  by_cases hz : r = 0 ∧ g = 0 ∧ b = 0
  · rw [if_pos hz]
    obtain ⟨h1, h2, h3⟩ := hz
    rw [h1, h2, h3]
    rfl
  · rw [if_neg hz]
    have hM1 : 1 ≤ max r (max g b) := by omega
    have hM : max r (max g b) ≤ 255 := by omega
    have hthr := (float_div_255_threshold _ hM).not.mpr (by omega)
    have hmax := float_div_255_max g b hg hb
    have hmax2 := float_div_255_max r (max g b) hr (by omega)
    unfold alpha_exp
    simp only []
    rw [hmax, hmax2, if_neg hthr]
    have hbyte : ∀ c, c ≤ max r (max g b) →
        clamp_byte (floorf (float_add (float_mul (float_of_int 255)
          (float_div (float_div (float_of_int c) (float_of_int 255))
            (float_div (float_of_int (max r (max g b))) (float_of_int 255))))
          (float_round 1 2))) = alpha_exp_scaled c (max r (max g b)) / 2 ^ 40 := by
      intro c hc
      exact clamp_byte_floorf _ (alpha_exp_scaled_byte c _ hc hM1 hM).1
    rw [hbyte b (by omega), hbyte g (by omega), hbyte r (by omega)]
    have ha : clamp_byte (floorf (float_add (float_mul (float_of_int 255)
        (float_div (float_of_int (max r (max g b))) (float_of_int 255)))
        (float_round 1 2))) = max r (max g b) := by
      have h := alpha_exp_alpha _ hM1 hM
      rw [clamp_byte_floorf _ (by rw [h]; exact hM), h]
    rw [ha]

/-- C26 as stated fails: for (r, g, b) = (3, 10, 0) the exact value 255 * 3 / 10 + 1/2 is
77, and `alpha_exp`, whose arithmetic is binary32, stores 76 for the red channel. -/
theorem alpha_exp_3_10_0_stores_76 :
    alpha_exp 3 10 0 255 = [0, 255, 76, 10] ∧
    ⌊255 * ((3 : Nat) : ℚ) / ((max 3 (max 10 0) : Nat) : ℚ) + 1 / 2⌋ = 77 := by
  refine ⟨by decide, ?_⟩
  rw [Int.floor_eq_iff]
  norm_num

/-- C26, amended. In binary32 arithmetic `alpha_exp` stores (0, 0, 0, 255) for
r = g = b = 0 and otherwise (B, G, R, M) with M = max (r, g, b), where each of B, G, R
is floor (255 c / M + 1/2) for its channel c, or one less than that where
255 c / M + 1/2 is an integer: the largest channel is stored as 255, the alpha byte is
M, the threshold branch is taken exactly for r = g = b = 0, and the input alpha has no
influence. The inputs (0, 0, 0), (128, 64, 32) and (3, 10, 0) give (0, 0, 0, 255),
(64, 128, 255, 128) and (0, 255, 76, 10). -/
theorem alpha_exp_binary32 (r g b a : Nat) (hr : r ≤ 255) (hg : g ≤ 255) (hb : b ≤ 255) :
    (r = 0 ∧ g = 0 ∧ b = 0 → alpha_exp r g b a = [0, 0, 0, 255]) ∧
    (¬ (r = 0 ∧ g = 0 ∧ b = 0) →
      ∃ B G R : Nat, alpha_exp r g b a = [B, G, R, max r (max g b)] ∧
        NearestChannel B b (max r (max g b)) ∧
        NearestChannel G g (max r (max g b)) ∧
        NearestChannel R r (max r (max g b)) ∧
        (b = max r (max g b) → B = 255) ∧
        (g = max r (max g b) → G = 255) ∧
        (r = max r (max g b) → R = 255)) ∧
    (max (float_div (float_of_int r) (float_of_int 255))
        (max (float_div (float_of_int g) (float_of_int 255))
          (float_div (float_of_int b) (float_of_int 255))) < float_round 1 10000 ↔
      (r = 0 ∧ g = 0 ∧ b = 0)) ∧
    (∀ a', alpha_exp r g b a' = alpha_exp r g b a) ∧
    (∀ a', alpha_exp 0 0 0 a' = [0, 0, 0, 255]) ∧
    (∀ a', alpha_exp 128 64 32 a' = [64, 128, 255, 128]) ∧
    (∀ a', alpha_exp 3 10 0 a' = [0, 255, 76, 10]) := by
  have hM : max r (max g b) ≤ 255 := by omega
  refine ⟨?_, ?_, ?_, fun _ => rfl, fun _ => rfl, fun _ => rfl, fun _ => rfl⟩
  · intro hz
    rw [alpha_exp_eq r g b a hr hg hb, if_pos hz]
  · intro hz
    have hM1 : 1 ≤ max r (max g b) := by omega
    have hB := alpha_exp_scaled_byte b _ (by omega) hM1 hM
    have hG := alpha_exp_scaled_byte g _ (by omega) hM1 hM
    have hR := alpha_exp_scaled_byte r _ (by omega) hM1 hM
    refine ⟨_, _, _, ?_, hB.2.1, hG.2.1, hR.2.1, hB.2.2, hG.2.2, hR.2.2⟩
    rw [alpha_exp_eq r g b a hr hg hb, if_neg hz]
  · rw [float_div_255_max g b hg hb, float_div_255_max r (max g b) hr (by omega),
      float_div_255_threshold _ hM]
    omega

/-- C26, amended, at the colour (3, 10, 0) with the input alpha 255. -/
theorem alpha_exp_binary32_witness :
    ((3 : Nat) = 0 ∧ (10 : Nat) = 0 ∧ (0 : Nat) = 0 → alpha_exp 3 10 0 255 = [0, 0, 0, 255]) ∧
    (¬ ((3 : Nat) = 0 ∧ (10 : Nat) = 0 ∧ (0 : Nat) = 0) →
      ∃ B G R : Nat, alpha_exp 3 10 0 255 = [B, G, R, max 3 (max 10 0)] ∧
        NearestChannel B 0 (max 3 (max 10 0)) ∧
        NearestChannel G 10 (max 3 (max 10 0)) ∧
        NearestChannel R 3 (max 3 (max 10 0)) ∧
        (0 = max 3 (max 10 0) → B = 255) ∧
        (10 = max 3 (max 10 0) → G = 255) ∧
        (3 = max 3 (max 10 0) → R = 255)) ∧
    (max (float_div (float_of_int 3) (float_of_int 255))
        (max (float_div (float_of_int 10) (float_of_int 255))
          (float_div (float_of_int 0) (float_of_int 255))) < float_round 1 10000 ↔
      ((3 : Nat) = 0 ∧ (10 : Nat) = 0 ∧ (0 : Nat) = 0)) ∧
    (∀ a', alpha_exp 3 10 0 a' = alpha_exp 3 10 0 255) ∧
    (∀ a', alpha_exp 0 0 0 a' = [0, 0, 0, 255]) ∧
    (∀ a', alpha_exp 128 64 32 a' = [64, 128, 255, 128]) ∧
    (∀ a', alpha_exp 3 10 0 a' = [0, 255, 76, 10]) :=
  alpha_exp_binary32 3 10 0 255 (by decide) (by decide) (by decide)

theorem land_lor_distrib_right (a b c : Nat) : (a ||| b) &&& c = (a &&& c) ||| (b &&& c) := by
  apply Nat.eq_of_testBit_eq
  intro i
  simp only [Nat.testBit_and, Nat.testBit_or]
  cases a.testBit i <;> cases b.testBit i <;> cases c.testBit i <;> rfl

set_option maxRecDepth 100000 in
/-- The value of `pack_r5g6b5` under each mask of the `format_info` row. -/
theorem pack_r5g6b5_masks (r g b : Nat) (hr : r < 256) (hg : g < 256) (hb : b < 256) :
    pack_r5g6b5 r g b &&& 0x0000f800 = (r &&& 0xF8) <<< 8 ∧
    pack_r5g6b5 r g b &&& 0x000007e0 = (g &&& 0xFC) <<< 3 ∧
    pack_r5g6b5 r g b &&& 0x0000001f = b >>> 3 ∧
    pack_r5g6b5 r g b &&& 0x00000000 = 0 ∧
    pack_r5g6b5 r g b &&& (0x0000f800 ||| 0x000007e0 ||| 0x0000001f ||| 0x00000000) = pack_r5g6b5 r g b ∧
    pack_r5g6b5 r g b < 2 ^ (8 * 2) := by
  have fr := (by decide : ∀ r, r < 256 →
      ((r &&& 0xF8) <<< 8) &&& 0x0000f800 = (r &&& 0xF8) <<< 8 ∧
      ((r &&& 0xF8) <<< 8) &&& 0x000007e0 = 0 ∧
      ((r &&& 0xF8) <<< 8) &&& 0x0000001f = 0 ∧
      ((r &&& 0xF8) <<< 8) &&& 0x00000000 = 0 ∧
      ((r &&& 0xF8) <<< 8) &&& (0x0000f800 ||| 0x000007e0 ||| 0x0000001f ||| 0x00000000) = (r &&& 0xF8) <<< 8) r hr
  have fg := (by decide : ∀ g, g < 256 →
      ((g &&& 0xFC) <<< 3) &&& 0x0000f800 = 0 ∧
      ((g &&& 0xFC) <<< 3) &&& 0x000007e0 = (g &&& 0xFC) <<< 3 ∧
      ((g &&& 0xFC) <<< 3) &&& 0x0000001f = 0 ∧
      ((g &&& 0xFC) <<< 3) &&& 0x00000000 = 0 ∧
      ((g &&& 0xFC) <<< 3) &&& (0x0000f800 ||| 0x000007e0 ||| 0x0000001f ||| 0x00000000) = (g &&& 0xFC) <<< 3) g hg
  have fb := (by decide : ∀ b, b < 256 →
      (b >>> 3) &&& 0x0000f800 = 0 ∧
      (b >>> 3) &&& 0x000007e0 = 0 ∧
      (b >>> 3) &&& 0x0000001f = b >>> 3 ∧
      (b >>> 3) &&& 0x00000000 = 0 ∧
      (b >>> 3) &&& (0x0000f800 ||| 0x000007e0 ||| 0x0000001f ||| 0x00000000) = b >>> 3) b hb
  have hU : pack_r5g6b5 r g b &&& (0x0000f800 ||| 0x000007e0 ||| 0x0000001f ||| 0x00000000) = pack_r5g6b5 r g b := by
    unfold pack_r5g6b5
    simp only [land_lor_distrib_right, fr.2.2.2.2, fg.2.2.2.2, fb.2.2.2.2]
  refine ⟨?_, ?_, ?_, ?_, hU, ?_⟩
  · unfold pack_r5g6b5
    simp only [land_lor_distrib_right, fr.1, fg.1, fb.1, Nat.or_zero, Nat.zero_or, Nat.and_zero]
  · unfold pack_r5g6b5
    simp only [land_lor_distrib_right, fr.2.1, fg.2.1, fb.2.1, Nat.or_zero, Nat.zero_or, Nat.and_zero]
  · unfold pack_r5g6b5
    simp only [land_lor_distrib_right, fr.2.2.1, fg.2.2.1, fb.2.2.1, Nat.or_zero, Nat.zero_or, Nat.and_zero]
  · unfold pack_r5g6b5
    simp only [land_lor_distrib_right, fr.2.2.2.1, fg.2.2.2.1, fb.2.2.2.1, Nat.or_zero, Nat.zero_or, Nat.and_zero]
  · rw [← hU]
    exact Nat.lt_of_le_of_lt Nat.and_le_right (by decide)

set_option maxRecDepth 100000 in
/-- The value of `pack_rgba4` under each mask of the `format_info` row. -/
theorem pack_rgba4_masks (r g b a : Nat) (hr : r < 256) (hg : g < 256) (hb : b < 256) (ha : a < 256) :
    pack_rgba4 r g b a &&& 0x00000f00 = (r &&& 0xF0) <<< 4 ∧
    pack_rgba4 r g b a &&& 0x000000f0 = g &&& 0xF0 ∧
    pack_rgba4 r g b a &&& 0x0000000f = b >>> 4 ∧
    pack_rgba4 r g b a &&& 0x0000f000 = (a &&& 0xF0) <<< 8 ∧
    pack_rgba4 r g b a &&& (0x00000f00 ||| 0x000000f0 ||| 0x0000000f ||| 0x0000f000) = pack_rgba4 r g b a ∧
    pack_rgba4 r g b a < 2 ^ (8 * 2) := by
  have fa := (by decide : ∀ a, a < 256 →
      ((a &&& 0xF0) <<< 8) &&& 0x00000f00 = 0 ∧
      ((a &&& 0xF0) <<< 8) &&& 0x000000f0 = 0 ∧
      ((a &&& 0xF0) <<< 8) &&& 0x0000000f = 0 ∧
      ((a &&& 0xF0) <<< 8) &&& 0x0000f000 = (a &&& 0xF0) <<< 8 ∧
      ((a &&& 0xF0) <<< 8) &&& (0x00000f00 ||| 0x000000f0 ||| 0x0000000f ||| 0x0000f000) = (a &&& 0xF0) <<< 8) a ha
  have fr := (by decide : ∀ r, r < 256 →
      ((r &&& 0xF0) <<< 4) &&& 0x00000f00 = (r &&& 0xF0) <<< 4 ∧
      ((r &&& 0xF0) <<< 4) &&& 0x000000f0 = 0 ∧
      ((r &&& 0xF0) <<< 4) &&& 0x0000000f = 0 ∧
      ((r &&& 0xF0) <<< 4) &&& 0x0000f000 = 0 ∧
      ((r &&& 0xF0) <<< 4) &&& (0x00000f00 ||| 0x000000f0 ||| 0x0000000f ||| 0x0000f000) = (r &&& 0xF0) <<< 4) r hr
  have fg := (by decide : ∀ g, g < 256 →
      (g &&& 0xF0) &&& 0x00000f00 = 0 ∧
      (g &&& 0xF0) &&& 0x000000f0 = g &&& 0xF0 ∧
      (g &&& 0xF0) &&& 0x0000000f = 0 ∧
      (g &&& 0xF0) &&& 0x0000f000 = 0 ∧
      (g &&& 0xF0) &&& (0x00000f00 ||| 0x000000f0 ||| 0x0000000f ||| 0x0000f000) = g &&& 0xF0) g hg
  have fb := (by decide : ∀ b, b < 256 →
      (b >>> 4) &&& 0x00000f00 = 0 ∧
      (b >>> 4) &&& 0x000000f0 = 0 ∧
      (b >>> 4) &&& 0x0000000f = b >>> 4 ∧
      (b >>> 4) &&& 0x0000f000 = 0 ∧
      (b >>> 4) &&& (0x00000f00 ||| 0x000000f0 ||| 0x0000000f ||| 0x0000f000) = b >>> 4) b hb
  have hU : pack_rgba4 r g b a &&& (0x00000f00 ||| 0x000000f0 ||| 0x0000000f ||| 0x0000f000) = pack_rgba4 r g b a := by
    unfold pack_rgba4
    simp only [land_lor_distrib_right, fa.2.2.2.2, fr.2.2.2.2, fg.2.2.2.2, fb.2.2.2.2]
  refine ⟨?_, ?_, ?_, ?_, hU, ?_⟩
  · unfold pack_rgba4
    simp only [land_lor_distrib_right, fa.1, fr.1, fg.1, fb.1, Nat.or_zero, Nat.zero_or, Nat.and_zero]
  · unfold pack_rgba4
    simp only [land_lor_distrib_right, fa.2.1, fr.2.1, fg.2.1, fb.2.1, Nat.or_zero, Nat.zero_or, Nat.and_zero]
  · unfold pack_rgba4
    simp only [land_lor_distrib_right, fa.2.2.1, fr.2.2.1, fg.2.2.1, fb.2.2.1, Nat.or_zero, Nat.zero_or, Nat.and_zero]
  · unfold pack_rgba4
    simp only [land_lor_distrib_right, fa.2.2.2.1, fr.2.2.2.1, fg.2.2.2.1, fb.2.2.2.1, Nat.or_zero, Nat.zero_or, Nat.and_zero]
  · rw [← hU]
    exact Nat.lt_of_le_of_lt Nat.and_le_right (by decide)

set_option maxRecDepth 100000 in
/-- The value of `pack_rgb5a1` under each mask of the `format_info` row. -/
theorem pack_rgb5a1_masks (r g b a : Nat) (hr : r < 256) (hg : g < 256) (hb : b < 256) (ha : a < 256) :
    pack_rgb5a1 r g b a &&& 0x00007c00 = (r &&& 0xF8) <<< 7 ∧
    pack_rgb5a1 r g b a &&& 0x000003e0 = (g &&& 0xF8) <<< 2 ∧
    pack_rgb5a1 r g b a &&& 0x0000001f = b >>> 3 ∧
    pack_rgb5a1 r g b a &&& 0x00008000 = (a &&& 0x80) <<< 8 ∧
    pack_rgb5a1 r g b a &&& (0x00007c00 ||| 0x000003e0 ||| 0x0000001f ||| 0x00008000) = pack_rgb5a1 r g b a ∧
    pack_rgb5a1 r g b a < 2 ^ (8 * 2) := by
  have fa := (by decide : ∀ a, a < 256 →
      ((a &&& 0x80) <<< 8) &&& 0x00007c00 = 0 ∧
      ((a &&& 0x80) <<< 8) &&& 0x000003e0 = 0 ∧
      ((a &&& 0x80) <<< 8) &&& 0x0000001f = 0 ∧
      ((a &&& 0x80) <<< 8) &&& 0x00008000 = (a &&& 0x80) <<< 8 ∧
      ((a &&& 0x80) <<< 8) &&& (0x00007c00 ||| 0x000003e0 ||| 0x0000001f ||| 0x00008000) = (a &&& 0x80) <<< 8) a ha
  have fr := (by decide : ∀ r, r < 256 →
      ((r &&& 0xF8) <<< 7) &&& 0x00007c00 = (r &&& 0xF8) <<< 7 ∧
      ((r &&& 0xF8) <<< 7) &&& 0x000003e0 = 0 ∧
      ((r &&& 0xF8) <<< 7) &&& 0x0000001f = 0 ∧
      ((r &&& 0xF8) <<< 7) &&& 0x00008000 = 0 ∧
      ((r &&& 0xF8) <<< 7) &&& (0x00007c00 ||| 0x000003e0 ||| 0x0000001f ||| 0x00008000) = (r &&& 0xF8) <<< 7) r hr
  have fg := (by decide : ∀ g, g < 256 →
      ((g &&& 0xF8) <<< 2) &&& 0x00007c00 = 0 ∧
      ((g &&& 0xF8) <<< 2) &&& 0x000003e0 = (g &&& 0xF8) <<< 2 ∧
      ((g &&& 0xF8) <<< 2) &&& 0x0000001f = 0 ∧
      ((g &&& 0xF8) <<< 2) &&& 0x00008000 = 0 ∧
      ((g &&& 0xF8) <<< 2) &&& (0x00007c00 ||| 0x000003e0 ||| 0x0000001f ||| 0x00008000) = (g &&& 0xF8) <<< 2) g hg
  have fb := (by decide : ∀ b, b < 256 →
      (b >>> 3) &&& 0x00007c00 = 0 ∧
      (b >>> 3) &&& 0x000003e0 = 0 ∧
      (b >>> 3) &&& 0x0000001f = b >>> 3 ∧
      (b >>> 3) &&& 0x00008000 = 0 ∧
      (b >>> 3) &&& (0x00007c00 ||| 0x000003e0 ||| 0x0000001f ||| 0x00008000) = b >>> 3) b hb
  have hU : pack_rgb5a1 r g b a &&& (0x00007c00 ||| 0x000003e0 ||| 0x0000001f ||| 0x00008000) = pack_rgb5a1 r g b a := by
    unfold pack_rgb5a1
    simp only [land_lor_distrib_right, fa.2.2.2.2, fr.2.2.2.2, fg.2.2.2.2, fb.2.2.2.2]
  refine ⟨?_, ?_, ?_, ?_, hU, ?_⟩
  · unfold pack_rgb5a1
    simp only [land_lor_distrib_right, fa.1, fr.1, fg.1, fb.1, Nat.or_zero, Nat.zero_or, Nat.and_zero]
  · unfold pack_rgb5a1
    simp only [land_lor_distrib_right, fa.2.1, fr.2.1, fg.2.1, fb.2.1, Nat.or_zero, Nat.zero_or, Nat.and_zero]
  · unfold pack_rgb5a1
    simp only [land_lor_distrib_right, fa.2.2.1, fr.2.2.1, fg.2.2.1, fb.2.2.1, Nat.or_zero, Nat.zero_or, Nat.and_zero]
  · unfold pack_rgb5a1
    simp only [land_lor_distrib_right, fa.2.2.2.1, fr.2.2.2.1, fg.2.2.2.1, fb.2.2.2.1, Nat.or_zero, Nat.zero_or, Nat.and_zero]
  · rw [← hU]
    exact Nat.lt_of_le_of_lt Nat.and_le_right (by decide)

set_option maxRecDepth 100000 in
/-- The value of `pack_rgb10a2` under each mask of the `format_info` row. -/
theorem pack_rgb10a2_masks (r g b a : Nat) (hr : r < 256) (hg : g < 256) (hb : b < 256) (ha : a < 256) :
    pack_rgb10a2 r g b a &&& 0x000003ff = r <<< 2 ∧
    pack_rgb10a2 r g b a &&& 0x000ffc00 = (g <<< 2) <<< 10 ∧
    pack_rgb10a2 r g b a &&& 0x3ff00000 = (b <<< 2) <<< 20 ∧
    pack_rgb10a2 r g b a &&& 0xc0000000 = (a &&& 0xC0) <<< 24 ∧
    pack_rgb10a2 r g b a &&& (0x000003ff ||| 0x000ffc00 ||| 0x3ff00000 ||| 0xc0000000) = pack_rgb10a2 r g b a ∧
    pack_rgb10a2 r g b a < 2 ^ (8 * 4) := by
  have fa := (by decide : ∀ a, a < 256 →
      ((a &&& 0xC0) <<< 24) &&& 0x000003ff = 0 ∧
      ((a &&& 0xC0) <<< 24) &&& 0x000ffc00 = 0 ∧
      ((a &&& 0xC0) <<< 24) &&& 0x3ff00000 = 0 ∧
      ((a &&& 0xC0) <<< 24) &&& 0xc0000000 = (a &&& 0xC0) <<< 24 ∧
      ((a &&& 0xC0) <<< 24) &&& (0x000003ff ||| 0x000ffc00 ||| 0x3ff00000 ||| 0xc0000000) = (a &&& 0xC0) <<< 24) a ha
  have fb := (by decide : ∀ b, b < 256 →
      ((b <<< 2) <<< 20) &&& 0x000003ff = 0 ∧
      ((b <<< 2) <<< 20) &&& 0x000ffc00 = 0 ∧
      ((b <<< 2) <<< 20) &&& 0x3ff00000 = (b <<< 2) <<< 20 ∧
      ((b <<< 2) <<< 20) &&& 0xc0000000 = 0 ∧
      ((b <<< 2) <<< 20) &&& (0x000003ff ||| 0x000ffc00 ||| 0x3ff00000 ||| 0xc0000000) = (b <<< 2) <<< 20) b hb
  have fg := (by decide : ∀ g, g < 256 →
      ((g <<< 2) <<< 10) &&& 0x000003ff = 0 ∧
      ((g <<< 2) <<< 10) &&& 0x000ffc00 = (g <<< 2) <<< 10 ∧
      ((g <<< 2) <<< 10) &&& 0x3ff00000 = 0 ∧
      ((g <<< 2) <<< 10) &&& 0xc0000000 = 0 ∧
      ((g <<< 2) <<< 10) &&& (0x000003ff ||| 0x000ffc00 ||| 0x3ff00000 ||| 0xc0000000) = (g <<< 2) <<< 10) g hg
  have fr := (by decide : ∀ r, r < 256 →
      (r <<< 2) &&& 0x000003ff = r <<< 2 ∧
      (r <<< 2) &&& 0x000ffc00 = 0 ∧
      (r <<< 2) &&& 0x3ff00000 = 0 ∧
      (r <<< 2) &&& 0xc0000000 = 0 ∧
      (r <<< 2) &&& (0x000003ff ||| 0x000ffc00 ||| 0x3ff00000 ||| 0xc0000000) = r <<< 2) r hr
  have hU : pack_rgb10a2 r g b a &&& (0x000003ff ||| 0x000ffc00 ||| 0x3ff00000 ||| 0xc0000000) = pack_rgb10a2 r g b a := by
    unfold pack_rgb10a2
    simp only [land_lor_distrib_right, fa.2.2.2.2, fb.2.2.2.2, fg.2.2.2.2, fr.2.2.2.2]
  refine ⟨?_, ?_, ?_, ?_, hU, ?_⟩
  · unfold pack_rgb10a2
    simp only [land_lor_distrib_right, fa.1, fb.1, fg.1, fr.1, Nat.or_zero, Nat.zero_or, Nat.and_zero]
  · unfold pack_rgb10a2
    simp only [land_lor_distrib_right, fa.2.1, fb.2.1, fg.2.1, fr.2.1, Nat.or_zero, Nat.zero_or, Nat.and_zero]
  · unfold pack_rgb10a2
    simp only [land_lor_distrib_right, fa.2.2.1, fb.2.2.1, fg.2.2.1, fr.2.2.1, Nat.or_zero, Nat.zero_or, Nat.and_zero]
  · unfold pack_rgb10a2
    simp only [land_lor_distrib_right, fa.2.2.2.1, fb.2.2.2.1, fg.2.2.2.1, fr.2.2.2.1, Nat.or_zero, Nat.zero_or, Nat.and_zero]
  · rw [← hU]
    exact Nat.lt_of_le_of_lt Nat.and_le_right (by decide)

set_option maxRecDepth 100000 in
/-- The value of `pack_r3g3b2` under each mask of the `format_info` row. -/
theorem pack_r3g3b2_masks (r g b : Nat) (hr : r < 256) (hg : g < 256) (hb : b < 256) :
    pack_r3g3b2 r g b &&& 0x000000e0 = r &&& 0xE0 ∧
    pack_r3g3b2 r g b &&& 0x0000001c = (g &&& 0xE0) >>> 3 ∧
    pack_r3g3b2 r g b &&& 0x00000003 = b >>> 6 ∧
    pack_r3g3b2 r g b &&& 0x00000000 = 0 ∧
    pack_r3g3b2 r g b &&& (0x000000e0 ||| 0x0000001c ||| 0x00000003 ||| 0x00000000) = pack_r3g3b2 r g b ∧
    pack_r3g3b2 r g b < 2 ^ (8 * 1) := by
  have fr := (by decide : ∀ r, r < 256 →
      (r &&& 0xE0) &&& 0x000000e0 = r &&& 0xE0 ∧
      (r &&& 0xE0) &&& 0x0000001c = 0 ∧
      (r &&& 0xE0) &&& 0x00000003 = 0 ∧
      (r &&& 0xE0) &&& 0x00000000 = 0 ∧
      (r &&& 0xE0) &&& (0x000000e0 ||| 0x0000001c ||| 0x00000003 ||| 0x00000000) = r &&& 0xE0) r hr
  have fg := (by decide : ∀ g, g < 256 →
      ((g &&& 0xE0) >>> 3) &&& 0x000000e0 = 0 ∧
      ((g &&& 0xE0) >>> 3) &&& 0x0000001c = (g &&& 0xE0) >>> 3 ∧
      ((g &&& 0xE0) >>> 3) &&& 0x00000003 = 0 ∧
      ((g &&& 0xE0) >>> 3) &&& 0x00000000 = 0 ∧
      ((g &&& 0xE0) >>> 3) &&& (0x000000e0 ||| 0x0000001c ||| 0x00000003 ||| 0x00000000) = (g &&& 0xE0) >>> 3) g hg
  have fb := (by decide : ∀ b, b < 256 →
      (b >>> 6) &&& 0x000000e0 = 0 ∧
      (b >>> 6) &&& 0x0000001c = 0 ∧
      (b >>> 6) &&& 0x00000003 = b >>> 6 ∧
      (b >>> 6) &&& 0x00000000 = 0 ∧
      (b >>> 6) &&& (0x000000e0 ||| 0x0000001c ||| 0x00000003 ||| 0x00000000) = b >>> 6) b hb
  have hU : pack_r3g3b2 r g b &&& (0x000000e0 ||| 0x0000001c ||| 0x00000003 ||| 0x00000000) = pack_r3g3b2 r g b := by
    unfold pack_r3g3b2
    simp only [land_lor_distrib_right, fr.2.2.2.2, fg.2.2.2.2, fb.2.2.2.2]
  refine ⟨?_, ?_, ?_, ?_, hU, ?_⟩
  · unfold pack_r3g3b2
    simp only [land_lor_distrib_right, fr.1, fg.1, fb.1, Nat.or_zero, Nat.zero_or, Nat.and_zero]
  · unfold pack_r3g3b2
    simp only [land_lor_distrib_right, fr.2.1, fg.2.1, fb.2.1, Nat.or_zero, Nat.zero_or, Nat.and_zero]
  · unfold pack_r3g3b2
    simp only [land_lor_distrib_right, fr.2.2.1, fg.2.2.1, fb.2.2.1, Nat.or_zero, Nat.zero_or, Nat.and_zero]
  · unfold pack_r3g3b2
    simp only [land_lor_distrib_right, fr.2.2.2.1, fg.2.2.2.1, fb.2.2.2.1, Nat.or_zero, Nat.zero_or, Nat.and_zero]
  · rw [← hU]
    exact Nat.lt_of_le_of_lt Nat.and_le_right (by decide)

/-- The bytes that `convert_pixels` stores for a BGRA pixel in a packed format are the
little-endian bytes of `packed_value`. -/
theorem convert_pixel_packed (k : Kernels) (fi : FormatInfo) (r g b a : Nat)
    (hfi : fi ∈ format_info)
    (hpk : fi.format = PixelFormat.R5G6B5 ∨ fi.format = PixelFormat.RGBA4 ∨
      fi.format = PixelFormat.RGB5A1 ∨ fi.format = PixelFormat.RGB10A2 ∨
      fi.format = PixelFormat.R3G3B2) :
    convert_pixel k [b, g, r, a] fi.format 4 none 0 =
      (List.range fi.bpp).map (fun j => packed_value fi.format r g b a / 256 ^ j % 256) := by
  unfold format_info at hfi
  simp only [List.mem_cons, List.mem_singleton, List.not_mem_nil, or_false] at hfi
  rcases hfi with h | h | h | h | h | h | h | h | h | h | h | h | h | h <;> subst h <;>
    first
    | (exfalso; revert hpk; decide)
    | (simp [convert_pixel, packed_value, PUTL16, PUTL32, List.range_succ])

/-- C29. For each row of `format_info` of a packed format (R5G6B5, RGBA4, RGB5A1, RGB10A2,
R3G3B2) and all 8-bit r, g, b, a: `convert_pixel` stores the little-endian bytes of the
packed value; the four masks of the row are pairwise disjoint; the value has no bit
outside the union of the masks and fits in `8 * bpp` bits; and the part of the value
under the red, green, blue and alpha mask depends only on r, g, b and a. -/
theorem packed_value_agrees_with_masks (k : Kernels) (fi : FormatInfo) (r g b a : Nat)
    (hfi : fi ∈ format_info)
    (hpk : fi.format = PixelFormat.R5G6B5 ∨ fi.format = PixelFormat.RGBA4 ∨
      fi.format = PixelFormat.RGB5A1 ∨ fi.format = PixelFormat.RGB10A2 ∨
      fi.format = PixelFormat.R3G3B2)
    (hr : r < 256) (hg : g < 256) (hb : b < 256) (ha : a < 256) :
    convert_pixel k [b, g, r, a] fi.format 4 none 0 =
      (List.range fi.bpp).map (fun j => packed_value fi.format r g b a / 256 ^ j % 256) ∧
    (fi.rmask &&& fi.gmask = 0 ∧ fi.rmask &&& fi.bmask = 0 ∧ fi.rmask &&& fi.amask = 0 ∧
      fi.gmask &&& fi.bmask = 0 ∧ fi.gmask &&& fi.amask = 0 ∧ fi.bmask &&& fi.amask = 0) ∧
    packed_value fi.format r g b a &&& (fi.rmask ||| fi.gmask ||| fi.bmask ||| fi.amask) =
      packed_value fi.format r g b a ∧
    packed_value fi.format r g b a < 2 ^ (8 * fi.bpp) ∧
    (∀ r' g' b' a', r' < 256 → g' < 256 → b' < 256 → a' < 256 →
      (r' = r → packed_value fi.format r' g' b' a' &&& fi.rmask =
        packed_value fi.format r g b a &&& fi.rmask) ∧
      (g' = g → packed_value fi.format r' g' b' a' &&& fi.gmask =
        packed_value fi.format r g b a &&& fi.gmask) ∧
      (b' = b → packed_value fi.format r' g' b' a' &&& fi.bmask =
        packed_value fi.format r g b a &&& fi.bmask) ∧
      (a' = a → packed_value fi.format r' g' b' a' &&& fi.amask =
        packed_value fi.format r g b a &&& fi.amask)) := by
  refine ⟨convert_pixel_packed k fi r g b a hfi hpk, ?_⟩
  unfold format_info at hfi
  simp only [List.mem_cons, List.mem_singleton, List.not_mem_nil, or_false] at hfi
  rcases hfi with h | h | h | h | h | h | h | h | h | h | h | h | h | h <;> subst h
  · exact absurd hpk (by decide)
  · exact absurd hpk (by decide)
  · exact absurd hpk (by decide)
  · exact absurd hpk (by decide)
  · have m := pack_r5g6b5_masks r g b hr hg hb
    refine ⟨by decide, m.2.2.2.2.1, m.2.2.2.2.2, ?_⟩
    intro r' g' b' a' hr' hg' hb' ha'
    have m' := pack_r5g6b5_masks r' g' b' hr' hg' hb'
    refine ⟨?_, ?_, ?_, ?_⟩ <;> intro he <;> subst he
    · exact m'.1.trans m.1.symm
    · exact m'.2.1.trans m.2.1.symm
    · exact m'.2.2.1.trans m.2.2.1.symm
    · exact m'.2.2.2.1.trans m.2.2.2.1.symm
  · have m := pack_rgba4_masks r g b a hr hg hb ha
    refine ⟨by decide, m.2.2.2.2.1, m.2.2.2.2.2, ?_⟩
    intro r' g' b' a' hr' hg' hb' ha'
    have m' := pack_rgba4_masks r' g' b' a' hr' hg' hb' ha'
    refine ⟨?_, ?_, ?_, ?_⟩ <;> intro he <;> subst he
    · exact m'.1.trans m.1.symm
    · exact m'.2.1.trans m.2.1.symm
    · exact m'.2.2.1.trans m.2.2.1.symm
    · exact m'.2.2.2.1.trans m.2.2.2.1.symm
  · have m := pack_rgb5a1_masks r g b a hr hg hb ha
    refine ⟨by decide, m.2.2.2.2.1, m.2.2.2.2.2, ?_⟩
    intro r' g' b' a' hr' hg' hb' ha'
    have m' := pack_rgb5a1_masks r' g' b' a' hr' hg' hb' ha'
    refine ⟨?_, ?_, ?_, ?_⟩ <;> intro he <;> subst he
    · exact m'.1.trans m.1.symm
    · exact m'.2.1.trans m.2.1.symm
    · exact m'.2.2.1.trans m.2.2.1.symm
    · exact m'.2.2.2.1.trans m.2.2.2.1.symm
  · have m := pack_rgb10a2_masks r g b a hr hg hb ha
    refine ⟨by decide, m.2.2.2.2.1, m.2.2.2.2.2, ?_⟩
    intro r' g' b' a' hr' hg' hb' ha'
    have m' := pack_rgb10a2_masks r' g' b' a' hr' hg' hb' ha'
    refine ⟨?_, ?_, ?_, ?_⟩ <;> intro he <;> subst he
    · exact m'.1.trans m.1.symm
    · exact m'.2.1.trans m.2.1.symm
    · exact m'.2.2.1.trans m.2.2.1.symm
    · exact m'.2.2.2.1.trans m.2.2.2.1.symm
  · have m := pack_r3g3b2_masks r g b hr hg hb
    refine ⟨by decide, m.2.2.2.2.1, m.2.2.2.2.2, ?_⟩
    intro r' g' b' a' hr' hg' hb' ha'
    have m' := pack_r3g3b2_masks r' g' b' hr' hg' hb'
    refine ⟨?_, ?_, ?_, ?_⟩ <;> intro he <;> subst he
    · exact m'.1.trans m.1.symm
    · exact m'.2.1.trans m.2.1.symm
    · exact m'.2.2.1.trans m.2.2.1.symm
    · exact m'.2.2.2.1.trans m.2.2.2.1.symm
  · exact absurd hpk (by decide)
  · exact absurd hpk (by decide)
  · exact absurd hpk (by decide)
  · exact absurd hpk (by decide)
  · exact absurd hpk (by decide)

/-- The layout of an image that `check_mipmaps` accepts: `s` blocks of `m` layers, the
layer at index `i` of the size of level `i mod m`. -/
theorem check_mipmaps_true_layout (img : Image) (st : SaveType)
    (hW : 1 ≤ img.width) (hH : 1 ≤ img.height)
    (hck : check_mipmaps img st = some true) :
    ∃ s, img.layers.length = s * get_num_mipmaps img.width img.height ∧
      ∀ i l, img.layers[i]? = some l →
        l.width = max 1 (img.width >>> (i % get_num_mipmaps img.width img.height)) ∧
        l.height = max 1 (img.height >>> (i % get_num_mipmaps img.width img.height)) := by
  obtain ⟨s, -, -, hN⟩ := check_mipmaps_true_count img st hck
  refine ⟨s, hN, ?_⟩
  have hm1 := get_num_mipmaps_pos img.width img.height
  unfold check_mipmaps at hck
  by_cases hst : st = SaveType.VOLUMEMAP
  · rw [if_pos hst] at hck
    cases hck
  · rw [if_neg hst] at hck
    cases hl : img.layers with
    | nil =>
      intro i l hil
      simp at hil
    | cons first rest =>
      simp only [hl] at hck
      rw [← hl] at hck
      cases hc : check_mipmaps_count first.type img.width img.height img.layers 0 with
      | none => rw [hc] at hck; cases hck
      | some s2 =>
        rw [hc] at hck
        simp only at hck
        by_cases hbad : s2 < (if st = SaveType.CUBEMAP then 6
              else if st = SaveType.ARRAY then 2 else 1) ∨
            s2 > (if st = SaveType.CUBEMAP then 6
              else if st = SaveType.ARRAY then INT_MAX else 1) ∨
            img.layers.length ≠ s2 * get_num_mipmaps img.width img.height
        · rw [if_pos hbad] at hck
          cases hck
        · rw [if_neg hbad] at hck
          obtain ⟨b, hb, hiff⟩ := check_mipmaps_surfaces_spec img.layers img.width img.height
            (get_num_mipmaps img.width img.height) s hm1 hN (img.layers.length + 1) 0
            (Nat.zero_le _) (by
              have : s * 1 ≤ s * get_num_mipmaps img.width img.height :=
                Nat.mul_le_mul_left s hm1
              omega)
          rw [Nat.zero_mul] at hb hiff
          rw [hb] at hck
          have hbt : b = true := Option.some.inj hck
          have hk := hiff.mp hbt
          rw [← hl]
          intro i l hil
          have hi : i < img.layers.length := by
            by_contra hx
            rw [List.getElem?_eq_none (by omega)] at hil
            cases hil
          have := hk i (Nat.zero_le _) hi l hil
          by_cases hj : i % get_num_mipmaps img.width img.height = 0
          · rw [hj] at this ⊢
            simp only [if_true, Nat.shiftRight_zero] at this ⊢
            omega
          · simp only [if_neg hj] at this
            exact this

theorem shiftRight_log (x : Nat) (hx : 1 ≤ x) :
    x >>> Nat.log 2 x = 1 ∧ ∀ j, j < Nat.log 2 x → 2 ≤ x >>> j := by
  have h1 : 2 ^ Nat.log 2 x ≤ x := Nat.pow_log_le_self 2 (by omega)
  have h2 : x < 2 ^ (Nat.log 2 x + 1) := Nat.lt_pow_succ_log_self (by omega) x
  refine ⟨?_, ?_⟩
  · rw [Nat.shiftRight_eq_div_pow]
    apply Nat.div_eq_of_lt_le
    · omega
    · rw [Nat.pow_succ] at h2
      omega
  · intro j hj
    rw [Nat.shiftRight_eq_div_pow, Nat.le_div_iff_mul_le (Nat.two_pow_pos j)]
    have h3 : 2 ^ (j + 1) ≤ 2 ^ Nat.log 2 x := Nat.pow_le_pow_right (by omega) hj
    rw [Nat.pow_succ] at h3
    omega

theorem shiftRight_le_log (x y j : Nat) (hxy : x ≤ y) (hj : Nat.log 2 y ≤ j) :
    x >>> j ≤ 1 := by
  have h2 : y < 2 ^ (Nat.log 2 y + 1) := Nat.lt_pow_succ_log_self (by omega) y
  have h3 : 2 ^ (Nat.log 2 y + 1) ≤ 2 ^ (j + 1) := Nat.pow_le_pow_right (by omega) (by omega)
  rw [Nat.shiftRight_eq_div_pow]
  have h4 : x < 2 ^ j * 2 := by
    rw [Nat.pow_succ] at h3
    omega
  have := (Nat.div_lt_iff_lt_mul (Nat.two_pow_pos j)).mpr
    (by rw [Nat.mul_comm]; exact h4 : x < 2 * 2 ^ j)
  omega

/-- A level below level 0 is smaller than the surface. -/
theorem level_size_ne (W H j : Nat) (hW : 1 ≤ W) (hH : 1 ≤ H) (hj1 : 1 ≤ j)
    (hj : j ≤ Nat.log 2 (max W H)) :
    ¬ (max 1 (W >>> j) = W ∧ max 1 (H >>> j) = H) := by
  have hX := (shiftRight_log (max W H) (by omega)).2 0 (by omega)
  rw [Nat.shiftRight_zero] at hX
  have hhalf : ∀ x, x >>> j ≤ x / 2 := by
    intro x
    rw [Nat.shiftRight_eq_div_pow]
    apply Nat.div_le_div_left _ (by omega)
    calc 2 = 2 ^ 1 := rfl
      _ ≤ 2 ^ j := Nat.pow_le_pow_right (by omega) hj1
  have h1 := hhalf W
  have h2 := hhalf H
  intro hx
  rcases Nat.le_total W H with hle | hle
  · rw [Nat.max_eq_right hle] at hX
    omega
  · rw [Nat.max_eq_left hle] at hX
    omega

/-- In an accepted chain the layers of the size of the image are the layers at the
multiples of the level count. -/
theorem check_mipmaps_level0_iff (img : Image) (st : SaveType)
    (hW : 1 ≤ img.width) (hH : 1 ≤ img.height)
    (hck : check_mipmaps img st = some true) (i : Nat) (l : Layer)
    (hil : img.layers[i]? = some l) :
    (l.width = img.width ∧ l.height = img.height) ↔
      i % get_num_mipmaps img.width img.height = 0 := by
  obtain ⟨s, -, hlay⟩ := check_mipmaps_true_layout img st hW hH hck
  obtain ⟨h1, h2⟩ := hlay i l hil
  have hm := get_num_mipmaps_eq img.width img.height
  have hlt : i % get_num_mipmaps img.width img.height < get_num_mipmaps img.width img.height :=
    Nat.mod_lt _ (get_num_mipmaps_pos _ _)
  constructor
  · intro hx
    by_contra hne
    apply level_size_ne img.width img.height (i % get_num_mipmaps img.width img.height) hW hH
      (by omega) (by omega)
    rw [← h1, ← h2]
    exact hx
  · intro h0
    rw [h0, Nat.shiftRight_zero] at h1 h2
    omega

/-- The followers of a level-0 layer in an accepted chain. -/
theorem check_mipmaps_followers (img : Image) (st : SaveType)
    (hW : 1 ≤ img.width) (hH : 1 ≤ img.height)
    (hck : check_mipmaps img st = some true) (i : Nat)
    (hi : i < img.layers.length)
    (h0 : i % get_num_mipmaps img.width img.height = 0) :
    i + get_num_mipmaps img.width img.height ≤ img.layers.length ∧
    ∀ k, k < get_num_mipmaps img.width img.height →
      ∃ lk, img.layers[i + k]? = some lk ∧
        lk.width = max 1 (img.width >>> k) ∧ lk.height = max 1 (img.height >>> k) := by
  obtain ⟨s, hN, hlay⟩ := check_mipmaps_true_layout img st hW hH hck
  have hm1 := get_num_mipmaps_pos img.width img.height
  generalize get_num_mipmaps img.width img.height = m at *
  obtain ⟨q, hq⟩ : ∃ q, i = m * q := ⟨i / m, by
    have := Nat.div_add_mod i m
    omega⟩
  have hqs : q < s := by
    rw [hN, hq, Nat.mul_comm m q] at hi
    exact Nat.lt_of_mul_lt_mul_right hi
  have hle : i + m ≤ img.layers.length := by
    have : (q + 1) * m ≤ s * m := Nat.mul_le_mul_right m hqs
    rw [Nat.add_mul, Nat.one_mul, Nat.mul_comm q m] at this
    omega
  refine ⟨hle, ?_⟩
  intro k hk
  have hik : i + k < img.layers.length := by omega
  refine ⟨img.layers[i + k], List.getElem?_eq_getElem hik, ?_⟩
  have := hlay (i + k) _ (List.getElem?_eq_getElem hik)
  have hmod : (i + k) % m = k := by
    rw [hq, Nat.mul_add_mod, Nat.mod_eq_of_lt hk]
  rw [hmod] at this
  exact this

set_option maxRecDepth 100000 in
/-- C27 as stated fails: the 3x3 image with a 3x3 layer and its 1x1 level is accepted by
`check_mipmaps`; its level-0 layer is followed by one layer, and there is no second one,
while ceil (log2 3) = 2. -/
theorem chain_3x3_one_follower :
    check_mipmaps chain_image_3x3 SaveType.SELECTED_LAYER = some true ∧
    chain_image_3x3.layers.length = 1 + 1 ∧
    chain_image_3x3.layers[0 + 2]? = none ∧
    Nat.clog 2 (max chain_image_3x3.width chain_image_3x3.height) = 2 := by
  refine ⟨by decide, rfl, rfl, ?_⟩
  simp [Nat.clog, chain_image_3x3]

/-- C27, amended. In an image accepted by `check_mipmaps` with W, H >= 1, every layer of
size (W, H) is followed by floor (log2 max (W, H)) layers, its levels k = 1, 2, ... of
the sizes (max (1, W >> k), max (1, H >> k)) in this order, none of them of size
(W, H); the layer after them, if there is one, is again of size (W, H). -/
theorem existing_chain_followers (img : Image) (st : SaveType)
    (hW : 1 ≤ img.width) (hH : 1 ≤ img.height)
    (hck : check_mipmaps img st = some true) (i : Nat) (l : Layer)
    (hil : img.layers[i]? = some l)
    (hl : l.width = img.width ∧ l.height = img.height) :
    (∀ k, 1 ≤ k → k ≤ Nat.log 2 (max img.width img.height) →
      ∃ lk, img.layers[i + k]? = some lk ∧
        lk.width = max 1 (img.width >>> k) ∧ lk.height = max 1 (img.height >>> k) ∧
        ¬ (lk.width = img.width ∧ lk.height = img.height)) ∧
    (∀ l', img.layers[i + (1 + Nat.log 2 (max img.width img.height))]? = some l' →
      l'.width = img.width ∧ l'.height = img.height) := by
  have h0 := (check_mipmaps_level0_iff img st hW hH hck i l hil).mp hl
  have hi : i < img.layers.length := by
    by_contra hx
    rw [List.getElem?_eq_none (by omega)] at hil
    cases hil
  obtain ⟨hle, hfo⟩ := check_mipmaps_followers img st hW hH hck i hi h0
  have hm := get_num_mipmaps_eq img.width img.height
  refine ⟨?_, ?_⟩
  · intro k hk1 hk
    obtain ⟨lk, hlk, hw, hh⟩ := hfo k (by omega)
    refine ⟨lk, hlk, hw, hh, ?_⟩
    rw [hw, hh]
    exact level_size_ne img.width img.height k hW hH hk1 hk
  · intro l' hl'
    rw [← hm] at hl'
    refine (check_mipmaps_level0_iff img st hW hH hck _ l' hl').mpr ?_
    rw [Nat.add_mod, h0, Nat.mod_self, Nat.zero_add, Nat.zero_mod]

theorem next_dim_eq (x j : Nat) : max 1 ((max 1 (x >>> j)) >>> 1) = max 1 (x >>> (j + 1)) := by
  have e : x >>> (j + 1) = (x >>> j) >>> 1 := by
    rw [Nat.shiftRight_add]
  rw [e]
  generalize x >>> j = y
  simp only [Nat.shiftRight_eq_div_pow, Nat.pow_one]
  omega

theorem shiftRight_max (x y j : Nat) : (max x y) >>> j = max (x >>> j) (y >>> j) := by
  simp only [Nat.shiftRight_eq_div_pow]
  rcases Nat.le_total x y with hle | hle
  · rw [Nat.max_eq_right hle, Nat.max_eq_right (Nat.div_le_div_right hle)]
  · rw [Nat.max_eq_left hle, Nat.max_eq_left (Nat.div_le_div_right hle)]

/-- The walk of `get_mipmap_chain` from level `j0` of a surface whose levels lie at the
indices after `i`: it stores the `n` levels that are left, each with its full size. -/
theorem get_mipmap_chain_loop_levels (k : Kernels) (layers : List Layer) (bpp W H i m : Nat)
    (hW : 1 ≤ W) (hH : 1 ≤ H) (hm : m = 1 + Nat.log 2 (max W H))
    (hlay : ∀ j, j < m → ∃ lj, layers[i + j]? = some lj ∧
      lj.width = max 1 (W >>> j) ∧ lj.height = max 1 (H >>> j)) :
    ∀ n j0 fuel, j0 + n + 1 = m → max (max 1 (W >>> j0)) (max 1 (H >>> j0)) < fuel →
      ∃ levels : List (List Nat),
        get_mipmap_chain_loop k layers bpp fuel (max 1 (W >>> j0)) (max 1 (H >>> j0))
          (i + j0) = some levels.flatten ∧
        levels.length = n ∧
        levels.flatten.length = get_mipmapped_size W H bpp (j0 + 1) n Compression.NONE ∧
        ∀ t, t < n → ∃ lt, layers[i + j0 + 1 + t]? = some lt ∧
          levels.getD t [] =
            (if bpp ≥ 3 then
              swap_rb (buffer_of
                (max 1 (W >>> (j0 + 1 + t)) * max 1 (H >>> (j0 + 1 + t)) * bpp)
                (k.gegl_buffer_get lt (max 1 (W >>> (j0 + 1 + t)))
                  (max 1 (H >>> (j0 + 1 + t))) (babl_format_of_bpp bpp)))
                (max 1 (W >>> (j0 + 1 + t)) * max 1 (H >>> (j0 + 1 + t))) bpp
            else
              buffer_of (max 1 (W >>> (j0 + 1 + t)) * max 1 (H >>> (j0 + 1 + t)) * bpp)
                (k.gegl_buffer_get lt (max 1 (W >>> (j0 + 1 + t)))
                  (max 1 (H >>> (j0 + 1 + t))) (babl_format_of_bpp bpp))) := by
  intro n
  induction n with
  | zero =>
    intro j0 fuel hj hfuel
    have hL : j0 = Nat.log 2 (max W H) := by omega
    have h1 : W >>> j0 ≤ 1 := shiftRight_le_log W (max W H) j0 (Nat.le_max_left _ _) (by omega)
    have h2 : H >>> j0 ≤ 1 := shiftRight_le_log H (max W H) j0 (Nat.le_max_right _ _) (by omega)
    cases fuel with
    | zero => omega
    | succ fuel =>
      refine ⟨[], ?_, rfl, ?_, ?_⟩
      · unfold get_mipmap_chain_loop get_next_mipmap_dimensions
        rw [if_pos (by omega)]
        rfl
      · unfold get_mipmapped_size
        rfl
      · intro t ht
        omega
  | succ n ih =>
    intro j0 fuel hj hfuel
    have hlt : j0 < Nat.log 2 (max W H) := by omega
    have hbig := (shiftRight_log (max W H) (by omega)).2 j0 hlt
    rw [shiftRight_max] at hbig
    cases fuel with
    | zero => omega
    | succ fuel =>
      obtain ⟨l1, hl1, hw1, hh1⟩ := hlay (j0 + 1) (by omega)
      have hnext : get_next_mipmap_dimensions (max 1 (W >>> j0)) (max 1 (H >>> j0)) =
          some (max 1 (W >>> (j0 + 1)), max 1 (H >>> (j0 + 1))) := by
        unfold get_next_mipmap_dimensions
        rw [if_neg (by omega), next_dim_eq, next_dim_eq]
      have hdec : max (max 1 (W >>> (j0 + 1))) (max 1 (H >>> (j0 + 1))) < fuel := by
        have e1 : W >>> (j0 + 1) = (W >>> j0) / 2 := by
          rw [Nat.shiftRight_add, Nat.shiftRight_eq_div_pow, Nat.pow_one]
        have e2 : H >>> (j0 + 1) = (H >>> j0) / 2 := by
          rw [Nat.shiftRight_add, Nat.shiftRight_eq_div_pow, Nat.pow_one]
        rw [e1, e2]
        omega
      obtain ⟨levels, hlev, hlen, hsz, hget⟩ := ih (j0 + 1) fuel (by omega) hdec
      have hidx : i + j0 + 1 = i + (j0 + 1) := by omega
      refine ⟨(if bpp ≥ 3 then
            swap_rb (buffer_of (max 1 (W >>> (j0 + 1)) * max 1 (H >>> (j0 + 1)) * bpp)
              (k.gegl_buffer_get l1 (max 1 (W >>> (j0 + 1))) (max 1 (H >>> (j0 + 1)))
                (babl_format_of_bpp bpp)))
              (max 1 (W >>> (j0 + 1)) * max 1 (H >>> (j0 + 1))) bpp
          else
            buffer_of (max 1 (W >>> (j0 + 1)) * max 1 (H >>> (j0 + 1)) * bpp)
              (k.gegl_buffer_get l1 (max 1 (W >>> (j0 + 1))) (max 1 (H >>> (j0 + 1)))
                (babl_format_of_bpp bpp))) :: levels, ?_, ?_, ?_, ?_⟩
      · unfold get_mipmap_chain_loop
        rw [hnext]
        simp only []
        rw [hidx, hl1]
        simp only []
        rw [if_neg (by rw [hw1, hh1]; simp), hlev]
        rfl
      · rw [List.length_cons, hlen]
      · rw [List.flatten_cons, List.length_append, hsz,
          get_mipmapped_size_succ W H bpp (j0 + 1) n, get_mipmapped_size_one]
        congr 1
        unfold level_size
        rw [if_pos rfl]
        split
        · rw [length_swap_rb, length_buffer_of]
        · rw [length_buffer_of]
      · intro t ht
        cases t with
        | zero =>
          refine ⟨l1, by rw [Nat.add_zero, hidx]; exact hl1, ?_⟩
          rw [List.getD_cons_zero, Nat.add_zero]
        | succ t =>
          obtain ⟨lt, hlt1, hlt2⟩ := hget t (by omega)
          refine ⟨lt, ?_, ?_⟩
          · rw [show i + j0 + 1 + (t + 1) = i + (j0 + 1) + 1 + t by omega]
            exact hlt1
          · rw [List.getD_cons_succ, hlt2, show j0 + 1 + 1 + t = j0 + 1 + (t + 1) by omega]

/-- C30. In an image accepted by `check_mipmaps` with W, H >= 1 and m = mip_levels (W, H),
the layers of size (W, H) are those at the indices that are multiples of m; for each of
them `get_mipmap_chain` stays within the layer list, reads the m - 1 layers that
follow, each of the size of its level, does not return early, and stores the sum over
k = 1 .. m - 1 of w_k * h_k * bpp bytes. -/
theorem existing_chain_read (img : Image) (st : SaveType) (k : Kernels) (bpp : Nat)
    (hW : 1 ≤ img.width) (hH : 1 ≤ img.height)
    (hck : check_mipmaps img st = some true) :
    (∀ i l, img.layers[i]? = some l →
      ((l.width = img.width ∧ l.height = img.height) ↔
        i % get_num_mipmaps img.width img.height = 0)) ∧
    (∀ i, i < img.layers.length → i % get_num_mipmaps img.width img.height = 0 →
      i + (get_num_mipmaps img.width img.height - 1) < img.layers.length ∧
      ∃ levels : List (List Nat),
        get_mipmap_chain_loop k img.layers bpp (img.width + img.height + 1) img.width
          img.height i = some levels.flatten ∧
        (∀ drawable, img.layers.findIdx? (fun l => decide (l = drawable)) = some i →
          get_mipmap_chain k img.width img.height bpp img drawable = some levels.flatten) ∧
        levels.length = get_num_mipmaps img.width img.height - 1 ∧
        levels.flatten.length =
          ∑ t ∈ Finset.range (get_num_mipmaps img.width img.height - 1),
            max 1 (img.width >>> (t + 1)) * max 1 (img.height >>> (t + 1)) * bpp ∧
        ∀ t, t < get_num_mipmaps img.width img.height - 1 →
          ∃ lt, img.layers[i + 1 + t]? = some lt ∧
            lt.width = max 1 (img.width >>> (t + 1)) ∧
            lt.height = max 1 (img.height >>> (t + 1)) ∧
            levels.getD t [] =
              (if bpp ≥ 3 then
                swap_rb (buffer_of
                  (max 1 (img.width >>> (t + 1)) * max 1 (img.height >>> (t + 1)) * bpp)
                  (k.gegl_buffer_get lt (max 1 (img.width >>> (t + 1)))
                    (max 1 (img.height >>> (t + 1))) (babl_format_of_bpp bpp)))
                  (max 1 (img.width >>> (t + 1)) * max 1 (img.height >>> (t + 1))) bpp
              else
                buffer_of
                  (max 1 (img.width >>> (t + 1)) * max 1 (img.height >>> (t + 1)) * bpp)
                  (k.gegl_buffer_get lt (max 1 (img.width >>> (t + 1)))
                    (max 1 (img.height >>> (t + 1))) (babl_format_of_bpp bpp)))) := by
  refine ⟨fun i l hil => check_mipmaps_level0_iff img st hW hH hck i l hil, ?_⟩
  intro i hi h0
  obtain ⟨hle, hfo⟩ := check_mipmaps_followers img st hW hH hck i hi h0
  have hm1 := get_num_mipmaps_pos img.width img.height
  have hm := get_num_mipmaps_eq img.width img.height
  refine ⟨by omega, ?_⟩
  obtain ⟨levels, hlev, hlen, hsz, hget⟩ :=
    get_mipmap_chain_loop_levels k img.layers bpp img.width img.height i
      (get_num_mipmaps img.width img.height) hW hH hm hfo
      (get_num_mipmaps img.width img.height - 1) 0 (img.width + img.height + 1)
      (by omega) (by
        rw [Nat.shiftRight_zero, Nat.shiftRight_zero]
        omega)
  rw [Nat.shiftRight_zero, Nat.shiftRight_zero, Nat.max_eq_right hW, Nat.max_eq_right hH,
    Nat.add_zero] at hlev
  refine ⟨levels, hlev, ?_, hlen, ?_, ?_⟩
  · intro drawable hd
    unfold get_mipmap_chain
    simp only [hd]
    exact hlev
  · rw [hsz]
    unfold get_mipmapped_size
    rw [sum_map_range]
    apply Finset.sum_congr rfl
    intro t _
    unfold level_size
    rw [if_pos rfl, Nat.zero_add, Nat.add_comm 1 t]
  · intro t ht
    obtain ⟨lt, h1, h2⟩ := hget t ht
    obtain ⟨lk, hlk, hw, hh⟩ := hfo (t + 1) (by omega)
    rw [Nat.add_zero] at h1
    rw [show i + (t + 1) = i + 1 + t by omega, h1] at hlk
    cases hlk
    refine ⟨lt, h1, hw, hh, ?_⟩
    rw [h2]
    simp only [Nat.zero_add, Nat.add_comm 1 t]

set_option maxRecDepth 100000 in
/-- C28 as stated fails: one scan of a layer named "+x -x" claims the two faces +X and
-X, and `check_cubemap` accepts the twelve-layer image `cube_shared_face` with that one
layer in both entries: the six entries are not pairwise distinct. -/
theorem one_layer_claims_two_faces :
    scan_layer (rgba_layer 1 "+x -x" 2 2) no_faces 0 = some (rgba_layer 1 "+x -x" 2 2) ∧
    scan_layer (rgba_layer 1 "+x -x" 2 2) no_faces 1 = some (rgba_layer 1 "+x -x" 2 2) ∧
    (check_cubemap cube_shared_face no_faces cube_shared_face).map
        (fun r => (r.1, r.2.toList.map (Option.map Layer.name))) =
      some (true, [some "+x -x", some "+x -x", some "+y", some "-y", some "+z", some "-z"]) := by
  decide

/-- C28, amended. In the face scan of `check_cubemap` a scanned layer is claimed by
every face that is still unassigned and one of whose four table names occurs in the
layer's name, and an assigned face keeps its layer; whenever `check_cubemap` returns
true, each of the six entries of `cubemap_faces` holds a layer. -/
theorem face_scan_claims_every_free_face (image : Image) (faces0 faces : Faces)
    (hck : check_cubemap image faces0 image = some (true, faces)) :
    (∀ (layer : Layer) (before : Faces) (j : Fin 6),
      scan_layer layer before j =
        if before j = none ∧ layer_names_face layer j = true then some layer
        else before j) ∧
    (∀ j, ∃ l, faces j = some l) :=
  ⟨fun layer before j => scan_layer_apply layer before j,
    (check_cubemap_true_faces image faces0 faces hck).1⟩

theorem buffer_of_short (n : Nat) (bytes : List Nat) (hlen : bytes.length ≤ n) :
    buffer_of n bytes = bytes ++ List.replicate (n - bytes.length) 0 := by
  unfold buffer_of
  rw [List.take_append_eq_append_take, List.take_of_length_le hlen, List.take_replicate,
    Nat.min_eq_left (Nat.sub_le _ _)]

/-- The stream after `write_volume_mipmaps` for an uncompressed volume saved in the
default format: `size` bytes of `dst` from `offset` on, where `size` is the size of the
whole pyramid. -/
theorem write_volume_mipmaps_default (k : Kernels)
    (gen : List Nat → Nat → Nat → Nat → Nat → Bool → Nat → Config → List Nat)
    (fp : FILE) (image : Image) (config : Config) (first : Layer) (rest : List Layer)
    (w h d bpp fmtbpp num_mipmaps : Nat) (fetched : List Nat)
    (hc : config.compression = Compression.NONE)
    (hf : config.format = PixelFormat.DEFAULT)
    (hb : image.base_type ≠ GimpImageBaseType.INDEXED)
    (ht : first.type ≠ GimpImageType.INDEXEDA_IMAGE)
    (hfetch : write_volume_fetch k w h bpp d (first :: rest) = some fetched) :
    write_volume_mipmaps k gen fp image config (first :: rest) w h d bpp fmtbpp num_mipmaps =
      some (fwrite fp
        (buffer_of (get_volume_mipmapped_size w h d bpp 0 num_mipmaps Compression.NONE)
          ((buffer_of (get_volume_mipmapped_size w h d bpp 0 num_mipmaps Compression.NONE)
            (gen (if bpp ≥ 3 then swap_rb (buffer_of (w * h * bpp * d) fetched) (w * h * d) bpp
                else buffer_of (w * h * bpp * d) fetched) w h d bpp false num_mipmaps
              config)).drop
            (get_volume_mipmapped_size w h d bpp 0 1 Compression.NONE)))) := by
  unfold write_volume_mipmaps
  simp only [hc, hf, hfetch, ne_eq, not_true_eq_false, if_false, if_neg hb, if_neg ht,
    false_and, Option.isSome_none]

/-- C21, the code at a failing input: a 2x2 RGBA volume of two slices written
uncompressed in the default format with M = 2 levels. The pyramid has 36 bytes, 32 of
level 0 and 4 of level 1, so the claim gives 4 written bytes. For every mipmap generator
`write_volume_mipmaps` appends 36 bytes: the 4 bytes of level 1 and then 32 bytes read
past the end of the pyramid buffer, because `fwrite (dst + offset, 1, size, fp)` passes
the size of the whole pyramid as the count. -/
theorem write_volume_mipmaps_reads_past_pyramid
    (gen : List Nat → Nat → Nat → Nat → Nat → Bool → Nat → Config → List Nat) :
    get_volume_mipmapped_size 2 2 2 4 0 2 Compression.NONE = 36 ∧
    get_volume_mipmapped_size 2 2 2 4 0 2 Compression.NONE - 2 * 2 * 2 * 4 = 4 ∧
    ∃ (out : FILE) (level1 : List Nat),
      write_volume_mipmaps plain_kernels gen (empty_stream 4096) volume_image_2x2
          (volume_config MipmapMode.GENERATE) volume_image_2x2.layers 2 2 2 4 4 2 =
        some out ∧
      level1 =
        (buffer_of 36 (gen [1, 2, 3, 4, 1, 2, 3, 4, 1, 2, 3, 4, 1, 2, 3, 4,
          1, 2, 3, 4, 1, 2, 3, 4, 1, 2, 3, 4, 1, 2, 3, 4] 2 2 2 4 false 2
          (volume_config MipmapMode.GENERATE))).drop 32 ∧
      level1.length = 4 ∧
      out.data = level1 ++ List.replicate 32 0 ∧
      out.data.length = 36 := by
  have hsize : get_volume_mipmapped_size 2 2 2 4 0 2 Compression.NONE = 36 := by decide
  have hoff : get_volume_mipmapped_size 2 2 2 4 0 1 Compression.NONE = 32 := by decide
  have hfetch : write_volume_fetch plain_kernels 2 2 4 2
      [rgba_layer 1 "slice 0" 2 2, rgba_layer 2 "slice 1" 2 2] =
      some [3, 2, 1, 4, 3, 2, 1, 4, 3, 2, 1, 4, 3, 2, 1, 4,
        3, 2, 1, 4, 3, 2, 1, 4, 3, 2, 1, 4, 3, 2, 1, 4] := by decide
  have hswap : (if 4 ≥ 3 then swap_rb (buffer_of (2 * 2 * 4 * 2)
        [3, 2, 1, 4, 3, 2, 1, 4, 3, 2, 1, 4, 3, 2, 1, 4,
          3, 2, 1, 4, 3, 2, 1, 4, 3, 2, 1, 4, 3, 2, 1, 4]) (2 * 2 * 2) 4
      else buffer_of (2 * 2 * 4 * 2)
        [3, 2, 1, 4, 3, 2, 1, 4, 3, 2, 1, 4, 3, 2, 1, 4,
          3, 2, 1, 4, 3, 2, 1, 4, 3, 2, 1, 4, 3, 2, 1, 4]) =
      [1, 2, 3, 4, 1, 2, 3, 4, 1, 2, 3, 4, 1, 2, 3, 4,
        1, 2, 3, 4, 1, 2, 3, 4, 1, 2, 3, 4, 1, 2, 3, 4] := by decide
  have hrun := write_volume_mipmaps_default plain_kernels gen (empty_stream 4096)
    volume_image_2x2 (volume_config MipmapMode.GENERATE) (rgba_layer 1 "slice 0" 2 2)
    [rgba_layer 2 "slice 1" 2 2] 2 2 2 4 4 2 _ rfl rfl (by decide) (by decide) hfetch
  rw [hswap, hsize, hoff] at hrun
  have hlen : ((buffer_of 36 (gen [1, 2, 3, 4, 1, 2, 3, 4, 1, 2, 3, 4, 1, 2, 3, 4,
      1, 2, 3, 4, 1, 2, 3, 4, 1, 2, 3, 4, 1, 2, 3, 4] 2 2 2 4 false 2
      (volume_config MipmapMode.GENERATE))).drop 32).length = 4 := by
    rw [List.length_drop, length_buffer_of]
  refine ⟨hsize, by rw [hsize], _, _, hrun, rfl, hlen, ?_, ?_⟩
  · have hw := (fwrite_data (empty_stream 4096)
      (buffer_of 36 ((buffer_of 36 (gen [1, 2, 3, 4, 1, 2, 3, 4, 1, 2, 3, 4, 1, 2, 3, 4,
        1, 2, 3, 4, 1, 2, 3, 4, 1, 2, 3, 4, 1, 2, 3, 4] 2 2 2 4 false 2
        (volume_config MipmapMode.GENERATE))).drop 32))
      (by rw [length_buffer_of]; decide)).1
    rw [hw, buffer_of_short _ _ (by rw [hlen]; decide), hlen]
    rfl
  · have hw := (fwrite_data (empty_stream 4096)
      (buffer_of 36 ((buffer_of 36 (gen [1, 2, 3, 4, 1, 2, 3, 4, 1, 2, 3, 4, 1, 2, 3, 4,
        1, 2, 3, 4, 1, 2, 3, 4, 1, 2, 3, 4, 1, 2, 3, 4] 2 2 2 4 false 2
        (volume_config MipmapMode.GENERATE))).drop 32))
      (by rw [length_buffer_of]; decide)).1
    rw [hw, List.length_append, length_buffer_of]
    rfl

set_option maxRecDepth 100000 in
/-- C22, the code at a failing input: a 4x4 image with the three 4x4 layers "a", "b",
"c". The dispatch loops of the save types Volumemap and Array visit "a", "b", "b": the
loop increment `list = g_list_next (layers)` takes the node after the head of the list
in every round, so the second layer is written twice and the third never. -/
theorem dispatch_repeats_second_layer :
    dispatch_visited three_layer_image.layers 3 three_layer_image.layers =
      some [rgba_layer 1 "a" 4 4, rgba_layer 2 "b" 4 4, rgba_layer 2 "b" 4 4] ∧
    (write_image_header (quiet_host 4096) false true three_layer_image
        (rgba_layer 1 "a" 4 4) (volume_config MipmapMode.NONE)).bind
      (write_image_dispatch (quiet_host 4096) no_faces three_layer_image
        (rgba_layer 1 "a" 4 4) (volume_config MipmapMode.NONE)) =
      some [SurfaceWrite.layer (rgba_layer 1 "a" 4 4) 4 4 4 4 1,
        SurfaceWrite.layer (rgba_layer 2 "b" 4 4) 4 4 4 4 1,
        SurfaceWrite.layer (rgba_layer 2 "b" 4 4) 4 4 4 4 1] ∧
    (write_image_header (quiet_host 4096) false false three_layer_image
        (rgba_layer 1 "a" 4 4) array_config).bind
      (write_image_dispatch (quiet_host 4096) no_faces three_layer_image
        (rgba_layer 1 "a" 4 4) array_config) =
      some [SurfaceWrite.layer (rgba_layer 1 "a" 4 4) 4 4 4 4 1,
        SurfaceWrite.layer (rgba_layer 2 "b" 4 4) 4 4 4 4 1,
        SurfaceWrite.layer (rgba_layer 2 "b" 4 4) 4 4 4 4 1] := by
  refine ⟨by decide, by rfl, by rfl⟩

set_option maxRecDepth 100000 in
/-- C23, the code at a failing input: a 4x4 RGBA layer followed by a 3x3 layer, written
uncompressed in the default format in the mode Existing with three levels.
`get_mipmap_chain` returns at level 1 without storing a byte, and `write_layer` still
appends all three levels, 64 + 16 + 4 bytes: the 20 bytes of the levels 1 and 2 are
the bytes of the buffer that nothing was stored to. -/
theorem write_layer_writes_after_chain_mismatch :
    check_mipmaps broken_chain_image SaveType.SELECTED_LAYER = some false ∧
    (write_image_header (quiet_host 4096) false false broken_chain_image
        (rgba_layer 1 "Background" 4 4) (plain_config MipmapMode.EXISTING)).bind
      (write_image_dispatch (quiet_host 4096) no_faces broken_chain_image
        (rgba_layer 1 "Background" 4 4) (plain_config MipmapMode.EXISTING)) =
      some [SurfaceWrite.layer (rgba_layer 1 "Background" 4 4) 4 4 4 4 3] ∧
    get_mipmap_chain plain_kernels 4 4 4 broken_chain_image (rgba_layer 1 "Background" 4 4) =
      some [] ∧
    (write_layer plain_kernels (empty_stream 4096) broken_chain_image
        (rgba_layer 1 "Background" 4 4) (plain_config MipmapMode.EXISTING) 4 4 4 4 3).map
      (fun out => (out.data.length, out.data.take 64, out.data.drop 64)) =
      some (64 + 16 + 4, (List.replicate 16 [1, 2, 3, 4]).flatten, List.replicate 20 0) := by
  refine ⟨by decide, by rfl, by decide, by rfl⟩

/-- C27, amended, at the 3x3 image with an existing chain, for the layer at index 0. -/
theorem existing_chain_followers_witness :
    (∀ k, 1 ≤ k → k ≤ Nat.log 2 (max chain_image_3x3.width chain_image_3x3.height) →
      ∃ lk, chain_image_3x3.layers[0 + k]? = some lk ∧
        lk.width = max 1 (chain_image_3x3.width >>> k) ∧ lk.height = max 1 (chain_image_3x3.height >>> k) ∧
        ¬ (lk.width = chain_image_3x3.width ∧ lk.height = chain_image_3x3.height)) ∧
    (∀ l', chain_image_3x3.layers[0 + (1 + Nat.log 2 (max chain_image_3x3.width chain_image_3x3.height))]? = some l' →
      l'.width = chain_image_3x3.width ∧ l'.height = chain_image_3x3.height) :=
  existing_chain_followers chain_image_3x3 SaveType.SELECTED_LAYER (by decide) (by decide)
    (by decide) 0 (rgba_layer 1 "Background" 3 3) rfl ⟨rfl, rfl⟩

/-- C28, amended, at the twelve-layer image whose first layer names two faces. -/
theorem face_scan_claims_every_free_face_witness :
    (∀ (layer : Layer) (before : Faces) (j : Fin 6),
      scan_layer layer before j =
        if before j = none ∧ layer_names_face layer j = true then some layer
        else before j) ∧
    (∀ j, ∃ l, scan_level0_layers 2 2 cube_shared_face.layers (fun _ => none) j = some l) :=
  face_scan_claims_every_free_face cube_shared_face no_faces
    (scan_level0_layers 2 2 cube_shared_face.layers (fun _ => none)) (by rfl)

/-- C29 at the row R5G6B5 and the pixel (255, 128, 64, 255). -/
theorem packed_value_agrees_with_masks_witness :
    convert_pixel plain_kernels [64, 128, 255, 255] r5g6b5_row.format 4 none 0 =
      (List.range r5g6b5_row.bpp).map (fun j => packed_value r5g6b5_row.format 255 128 64 255 / 256 ^ j % 256) ∧
    (r5g6b5_row.rmask &&& r5g6b5_row.gmask = 0 ∧ r5g6b5_row.rmask &&& r5g6b5_row.bmask = 0 ∧ r5g6b5_row.rmask &&& r5g6b5_row.amask = 0 ∧
      r5g6b5_row.gmask &&& r5g6b5_row.bmask = 0 ∧ r5g6b5_row.gmask &&& r5g6b5_row.amask = 0 ∧ r5g6b5_row.bmask &&& r5g6b5_row.amask = 0) ∧
    packed_value r5g6b5_row.format 255 128 64 255 &&& (r5g6b5_row.rmask ||| r5g6b5_row.gmask ||| r5g6b5_row.bmask ||| r5g6b5_row.amask) =
      packed_value r5g6b5_row.format 255 128 64 255 ∧
    packed_value r5g6b5_row.format 255 128 64 255 < 2 ^ (8 * r5g6b5_row.bpp) ∧
    (∀ r' g' b' a', r' < 256 → g' < 256 → b' < 256 → a' < 256 →
      (r' = 255 → packed_value r5g6b5_row.format r' g' b' a' &&& r5g6b5_row.rmask =
        packed_value r5g6b5_row.format 255 128 64 255 &&& r5g6b5_row.rmask) ∧
      (g' = 128 → packed_value r5g6b5_row.format r' g' b' a' &&& r5g6b5_row.gmask =
        packed_value r5g6b5_row.format 255 128 64 255 &&& r5g6b5_row.gmask) ∧
      (b' = 64 → packed_value r5g6b5_row.format r' g' b' a' &&& r5g6b5_row.bmask =
        packed_value r5g6b5_row.format 255 128 64 255 &&& r5g6b5_row.bmask) ∧
      (a' = 255 → packed_value r5g6b5_row.format r' g' b' a' &&& r5g6b5_row.amask =
        packed_value r5g6b5_row.format 255 128 64 255 &&& r5g6b5_row.amask)) :=
  packed_value_agrees_with_masks plain_kernels r5g6b5_row 255 128 64 255
    (by unfold format_info r5g6b5_row; simp) (Or.inl rfl)
    (by decide) (by decide) (by decide) (by decide)

/-- C30 at the 3x3 RGBA image with an existing chain. -/
theorem existing_chain_read_witness :
    (∀ i l, chain_image_3x3.layers[i]? = some l →
      ((l.width = chain_image_3x3.width ∧ l.height = chain_image_3x3.height) ↔
        i % get_num_mipmaps chain_image_3x3.width chain_image_3x3.height = 0)) ∧
    (∀ i, i < chain_image_3x3.layers.length → i % get_num_mipmaps chain_image_3x3.width chain_image_3x3.height = 0 →
      i + (get_num_mipmaps chain_image_3x3.width chain_image_3x3.height - 1) < chain_image_3x3.layers.length ∧
      ∃ levels : List (List Nat),
        get_mipmap_chain_loop plain_kernels chain_image_3x3.layers 4 (chain_image_3x3.width + chain_image_3x3.height + 1) chain_image_3x3.width
          chain_image_3x3.height i = some levels.flatten ∧
        (∀ drawable, chain_image_3x3.layers.findIdx? (fun l => decide (l = drawable)) = some i →
          get_mipmap_chain plain_kernels chain_image_3x3.width chain_image_3x3.height 4 chain_image_3x3 drawable = some levels.flatten) ∧
        levels.length = get_num_mipmaps chain_image_3x3.width chain_image_3x3.height - 1 ∧
        levels.flatten.length =
          ∑ t ∈ Finset.range (get_num_mipmaps chain_image_3x3.width chain_image_3x3.height - 1),
            max 1 (chain_image_3x3.width >>> (t + 1)) * max 1 (chain_image_3x3.height >>> (t + 1)) * 4 ∧
        ∀ t, t < get_num_mipmaps chain_image_3x3.width chain_image_3x3.height - 1 →
          ∃ lt, chain_image_3x3.layers[i + 1 + t]? = some lt ∧
            lt.width = max 1 (chain_image_3x3.width >>> (t + 1)) ∧
            lt.height = max 1 (chain_image_3x3.height >>> (t + 1)) ∧
            levels.getD t [] =
              (if 4 ≥ 3 then
                swap_rb (buffer_of
                  (max 1 (chain_image_3x3.width >>> (t + 1)) * max 1 (chain_image_3x3.height >>> (t + 1)) * 4)
                  (plain_kernels.gegl_buffer_get lt (max 1 (chain_image_3x3.width >>> (t + 1)))
                    (max 1 (chain_image_3x3.height >>> (t + 1))) (babl_format_of_bpp 4)))
                  (max 1 (chain_image_3x3.width >>> (t + 1)) * max 1 (chain_image_3x3.height >>> (t + 1))) 4
              else
                buffer_of
                  (max 1 (chain_image_3x3.width >>> (t + 1)) * max 1 (chain_image_3x3.height >>> (t + 1)) * 4)
                  (plain_kernels.gegl_buffer_get lt (max 1 (chain_image_3x3.width >>> (t + 1)))
                    (max 1 (chain_image_3x3.height >>> (t + 1))) (babl_format_of_bpp 4)))) :=
  existing_chain_read chain_image_3x3 SaveType.SELECTED_LAYER plain_kernels 4 (by decide)
    (by decide) (by decide)

end DDS
